import Mathlib

/-!
# dreamrtspserver: the upstream flow-control engine

A shallow embedding of `src/dreamrtspserver.c`.  The C program keeps one `App`
record and mutates it from GLib / GStreamer callbacks.  Here every C function
becomes a Lean function on an explicit `App` value.  The objects of the
libraries that the code only holds handles to (the timeout sources of the main
loop, the probes of the sink pad, the signal handlers of the queue, the D-Bus
signals sent) are fields of the same record, so that "a timer is still
scheduled" or "the handler is connected" can be stated.  What the code reads
from the outside world (the clock, results of state changes, values read back
from an element, an uninitialised local) is passed as an argument.

Not modelled: the `GstState` of the elements, the `max-lateness` and
`blocksize` properties of the sink, reference counts, log output.
-/

namespace DreamRtspServer

/-! ## Declarations of `dreamrtspserver.h` (the header is not part of the sources) -/

/-- Modelled from the spec: the enumeration `upstreamState` of dreamrtspserver.h, which is
missing from the sources.  The spec orders the states
`Disabled → Connecting → Waiting ⇄ Transmitting → Overload` and the code compares
`state >= UPSTREAM_STATE_CONNECTING`, so the constructors are numbered 0..4 in that order. -/
inductive upstreamState where
  | UPSTREAM_STATE_DISABLED
  | UPSTREAM_STATE_CONNECTING
  | UPSTREAM_STATE_WAITING
  | UPSTREAM_STATE_TRANSMITTING
  | UPSTREAM_STATE_OVERLOAD
  deriving DecidableEq, Repr

open upstreamState

/-- The integer value of an `upstreamState`. -/
def upstreamState.toNat : upstreamState → Nat
  | UPSTREAM_STATE_DISABLED => 0
  | UPSTREAM_STATE_CONNECTING => 1
  | UPSTREAM_STATE_WAITING => 2
  | UPSTREAM_STATE_TRANSMITTING => 3
  | UPSTREAM_STATE_OVERLOAD => 4

/-- The `#define`d constants of dreamrtspserver.h.  The header is missing, so the
functions below take them as a parameter.  Times are in nanoseconds (`GstClockTime`). -/
structure Config where
  MAX_OVERRUNS : Nat
  OVERRUN_TIME : Nat
  BITRATE_AVG_PERIOD : Nat
  AUTO_BITRATE : Bool
  INPUT_MODE_LIVE : Int
  INPUT_MODE_BACKGROUND : Int
  deriving DecidableEq, Repr

/-! ## GLib / GStreamer values -/

/-- `GST_CLOCK_TIME_NONE`, the all-ones `guint64`. -/
def GST_CLOCK_TIME_NONE : Nat := 2 ^ 64 - 1

/-- `GST_SECOND`, one second in nanoseconds. -/
def GST_SECOND : Nat := 1000000000

/-- `GST_TIME_AS_MSECONDS`: nanoseconds to milliseconds, truncating. -/
def GST_TIME_AS_MSECONDS (t : Nat) : Nat := t / 1000000

/-- Addition of two `GstClockTime` values: `guint64` arithmetic wraps. -/
def clock_add (a b : Nat) : Nat := (a + b) % 2 ^ 64

/-- A `gint` written through a `guint32 *`: the same 32 bits read as unsigned. -/
def as_guint32 (v : Int) : Nat := (v % 2 ^ 32).toNat

/-- A value stored in a `gint` (an `int` of 32 bits): the low 32 bits, read as signed. -/
def as_gint32 (v : Int) : Int := (v + 2 ^ 31) % 2 ^ 32 - 2 ^ 31

/-- `GstStateChangeReturn`. -/
inductive GstStateChangeReturn where
  | GST_STATE_CHANGE_FAILURE
  | GST_STATE_CHANGE_SUCCESS
  | GST_STATE_CHANGE_ASYNC
  | GST_STATE_CHANGE_NO_PREROLL
  deriving DecidableEq, Repr

/-- `GstState`. -/
inductive GstState where
  | GST_STATE_VOID_PENDING
  | GST_STATE_NULL
  | GST_STATE_READY
  | GST_STATE_PAUSED
  | GST_STATE_PLAYING
  deriving DecidableEq, Repr

/-- The values a field of a `GstStructure` can hold, as far as the code tells them apart. -/
inductive GValue where
  | int (v : Int)
  | fraction (numerator denominator : Int)
  | other (description : String)
  deriving DecidableEq, Repr

/-- A `GstStructure`: a name and its fields in order. -/
structure GstStructure where
  name : String
  fields : List (String × GValue)
  deriving DecidableEq, Repr

/-- `GstCaps`: a list of structures. The empty list is the empty caps. -/
abbrev GstCaps := List GstStructure

/-- Setting one field of a field list: an existing field of that name gets the new value
in place, otherwise the field is added at the end. -/
def set_field : List (String × GValue) → String → GValue → List (String × GValue)
  | [], k, v => [(k, v)]
  | (k', v') :: rest, k, v =>
      if k' = k then (k, v) :: rest else (k', v') :: set_field rest k v

/-- `gst_structure_set` with one field. -/
def gst_structure_set (s : GstStructure) (fieldname : String) (v : GValue) : GstStructure :=
  { s with fields := set_field s.fields fieldname v }

/-- `gst_structure_get_value`: the value of the field, `none` when the structure has no
such field. -/
def gst_structure_get_value (s : GstStructure) (fieldname : String) : Option GValue :=
  s.fields.lookup fieldname

/-- `gst_caps_steal_structure (caps, 0)`: the first structure and the caps without it,
`none` (NULL) when there is no structure. -/
def gst_caps_steal_structure : GstCaps → Option (GstStructure × GstCaps)
  | [] => none
  | s :: rest => some (s, rest)

/-- `gst_caps_append_structure`. -/
def gst_caps_append_structure (caps : GstCaps) (s : GstStructure) : GstCaps :=
  caps ++ [s]

/-- A `dreamaudiosource` / `dreamvideosource` element: the properties the code reads and
writes.  `caps = none` stands for a value that is not `GST_IS_CAPS`. -/
structure GstElement where
  bitrate : Int
  input_mode : Int
  caps : Option GstCaps
  deriving DecidableEq, Repr

/-! ## The program state -/

/-- `SourceProperties`: the cached encoder settings.  The struct is declared in the
missing header; the fields are the ones the functions read and write. -/
structure SourceProperties where
  audioBitrate : Int
  videoBitrate : Int
  width : Nat
  height : Nat
  framerate : Nat
  deriving DecidableEq, Repr

/-- The callbacks given to `g_timeout_add_seconds`. -/
inductive GSourceFunc where
  | upstream_set_waiting
  | upstream_resume_transmitting
  deriving DecidableEq, Repr

/-- The callbacks given to `gst_pad_add_probe` on the sink pad of the tcp sink. -/
inductive GstPadProbeCallback where
  | cancel_waiting_probe
  | bitrate_measure_probe
  | inject_authorization
  | pad_probe_unlink_cb
  deriving DecidableEq, Repr

/-- `DreamTCPupstream`.  The struct is declared in the missing header; the fields are the
ones the functions read and write.  `overrun_period` and `measure_start` are
`GstClockTime` values (sums wrap in `clock_add`); `bitrate_sum` is the `gsize` that the
code prints with `%zu`, taken as 64 bits wide; `bitrate_avg` is the `gint` that the code
prints with `%i`.  The overrun counter and the handles are natural numbers (counting and
handing out ids are not taken to the point of overflow).  Handles (`id_...`) are 0 when
unset; `tcpsink` is the address of the sink element, 0 for NULL. -/
structure DreamTCPupstream where
  state : upstreamState
  auto_bitrate : Bool
  tcpsink : Nat
  overrun_counter : Nat
  overrun_period : Nat
  id_signal_waiting : Nat
  id_resume : Nat
  id_bitrate_measure : Nat
  inject_id : Nat
  token : String
  measure_start : Nat
  bitrate_sum : Nat
  bitrate_avg : Int
  deriving DecidableEq, Repr

/-- `App`, together with the library objects its handles refer to.

* `pipeline`: `app->pipeline` is not NULL.
* `tcp_upstream`: `main` allocates it before the main loop runs, so it is never NULL when
  a handler runs.
* `overrun_handlers`, `underrun_handlers`: how many times `queue_overrun` /
  `queue_underrun` is connected to the signal of `app->tsq`.
* `timeouts`: the timeout sources scheduled in the main loop, `last_source` the last id
  handed out.
* `probes`: the probes installed on the sink pad of `tcp_upstream->tcpsink`,
  `last_probe` the last id handed out.
* `sink_in_bin`: the sink is a child of the pipeline and linked to the queue.
* `signals`: the D-Bus signals sent so far, oldest first.
* `rtsp_mutex`: the mutex is held; `mutex_faults` counts a lock of the held mutex and an
  unlock of the mutex when it is not held. -/
structure App where
  pipeline : Bool
  dbus_connection : Bool
  asrc : Option GstElement
  vsrc : Option GstElement
  source_properties : SourceProperties
  tcp_upstream : DreamTCPupstream
  overrun_handlers : Nat
  underrun_handlers : Nat
  timeouts : List (Nat × GSourceFunc)
  last_source : Nat
  probes : List (Nat × GstPadProbeCallback)
  last_probe : Nat
  sink_in_bin : Bool
  signals : List (String × Option Int)
  rtsp_mutex : Bool
  mutex_faults : Nat
  deriving DecidableEq, Repr

/-! ## Library calls on the modelled objects -/

/-- `g_mutex_lock (&app->rtsp_mutex)`. -/
def g_mutex_lock (app : App) : App :=
  { app with
    rtsp_mutex := true,
    mutex_faults := if app.rtsp_mutex then app.mutex_faults + 1 else app.mutex_faults }

/-- `g_mutex_unlock (&app->rtsp_mutex)`. -/
def g_mutex_unlock (app : App) : App :=
  { app with
    rtsp_mutex := false,
    mutex_faults := if app.rtsp_mutex then app.mutex_faults else app.mutex_faults + 1 }

/-- `g_timeout_add_seconds (5, f, app)`: schedules `f` under a fresh non-zero id and
returns that id. -/
def g_timeout_add_seconds (app : App) (f : GSourceFunc) : Nat × App :=
  (app.last_source + 1,
   { app with timeouts := app.timeouts ++ [(app.last_source + 1, f)],
              last_source := app.last_source + 1 })

/-- `g_source_remove (id)`. -/
def g_source_remove (app : App) (id : Nat) : App :=
  { app with timeouts := app.timeouts.filter (fun s => s.1 ≠ id) }

/-- `gst_pad_add_probe (sinkpad, GST_PAD_PROBE_TYPE_BUFFER, cb, app, NULL)`: installs the
probe under a fresh non-zero id and returns that id. -/
def gst_pad_add_probe (app : App) (cb : GstPadProbeCallback) : Nat × App :=
  (app.last_probe + 1,
   { app with probes := app.probes ++ [(app.last_probe + 1, cb)],
              last_probe := app.last_probe + 1 })

/-- `gst_pad_remove_probe (sinkpad, id)`. -/
def gst_pad_remove_probe (app : App) (id : Nat) : App :=
  { app with probes := app.probes.filter (fun p => p.1 ≠ id) }

/-- Writing the `tcp_upstream` record back into the `App`. -/
def App.set_t (app : App) (t : DreamTCPupstream) : App :=
  { app with tcp_upstream := t }

/-! ## The functions of dreamrtspserver.c, in source order -/

/-- `send_signal` (lines 21-30): the signal goes out only with a D-Bus connection. -/
def send_signal (app : App) (signal_name : String) (parameters : Option Int) : App :=
  { app with
    signals := if app.dbus_connection then app.signals ++ [(signal_name, parameters)]
               else app.signals }

/-- `gst_set_inputmode` (lines 32-49).  `ret1`, `ret2` are the values the two sources
report after the set. -/
def gst_set_inputmode (app : App) (input_mode ret1 ret2 : Int) : Bool × App :=
  if !app.pipeline then (false, app)
  else
    let app1 := { app with
      asrc := app.asrc.map (fun e => { e with input_mode := ret1 }),
      vsrc := app.vsrc.map (fun e => { e with input_mode := ret2 }) }
    if input_mode ≠ ret1 ∨ input_mode ≠ ret2 then (false, app1) else (true, app1)

/-- `gst_set_framerate` (lines 51-86).  A `vsrc` that is NULL cannot occur with a
pipeline (`create_source_pipeline` aborts on it); it is treated like caps that are not
`GST_IS_CAPS`. -/
def gst_set_framerate (app : App) (value : Int) : Bool × App :=
  if !app.pipeline then (false, app)
  else
    match app.vsrc with
    | none => (false, app)
    | some v =>
      match v.caps with
      | none => (false, app)
      | some oldcaps =>
        match gst_caps_steal_structure oldcaps with
        | none => (false, app)
        | some (s, newcaps) =>
          let s1 := if value ≠ 0 then gst_structure_set s "framerate" (GValue.fraction value 1)
                    else s
          (true, { app with
            vsrc := some { v with caps := some (gst_caps_append_structure newcaps s1) } })

/-- `gst_set_resolution` (lines 88-125). -/
def gst_set_resolution (app : App) (width height : Int) : Bool × App :=
  if !app.pipeline then (false, app)
  else
    match app.vsrc with
    | none => (false, app)
    | some v =>
      match v.caps with
      | none => (false, app)
      | some oldcaps =>
        match gst_caps_steal_structure oldcaps with
        | none => (false, app)
        | some (s, newcaps) =>
          let s1 := if width ≠ 0 ∧ height ≠ 0 then
                      gst_structure_set (gst_structure_set s "width" (GValue.int width))
                        "height" (GValue.int height)
                    else s
          (true, { app with
            vsrc := some { v with caps := some (gst_caps_append_structure newcaps s1) } })

/-- `gst_get_capsprop` (lines 127-172) with a non-NULL `value` pointer: `none` is the
return value FALSE (nothing written), `some v` is TRUE with `*value = v`. -/
def gst_get_capsprop (app : App) (element : Option GstElement) (prop_name : String) :
    Option Nat :=
  if !app.pipeline then none
  else
    match element with
    | none => none
    | some e =>
      match e.caps with
      | none => none
      | some [] => none
      | some (s :: _) =>
        if prop_name = "framerate" then
          match gst_structure_get_value s "framerate" with
          | some (GValue.fraction n _) => some (as_guint32 n)
          | _ => some 0
        else if prop_name = "width" ∨ prop_name = "height" then
          match gst_structure_get_value s prop_name with
          | some (GValue.int v) => some (as_guint32 v)
          | _ => some 0
        else none

/-- `get_source_properties` (lines 174-186).  A failing `gst_get_capsprop` leaves the
cached value as it was. -/
def get_source_properties (app : App) : App :=
  let p := app.source_properties
  let p1 := match app.asrc with
            | some a => { p with audioBitrate := a.bitrate }
            | none => p
  let p2 := match app.vsrc with
            | some v =>
              { p1 with
                videoBitrate := v.bitrate,
                width := (gst_get_capsprop app app.vsrc "width").getD p1.width,
                height := (gst_get_capsprop app app.vsrc "height").getD p1.height,
                framerate := (gst_get_capsprop app app.vsrc "framerate").getD p1.framerate }
            | none => p1
  { app with source_properties := p2 }

/-- `apply_source_properties` (lines 188-205).  The cached `guint32` framerate, width and
height are passed to `int` parameters, which keep their 32 bits read as signed. -/
def apply_source_properties (app : App) : App :=
  let p := app.source_properties
  let app1 := match app.asrc with
              | some a =>
                if p.audioBitrate ≠ 0 then
                  { app with asrc := some { a with bitrate := p.audioBitrate } }
                else app
              | none => app
  match app1.vsrc with
  | some v =>
    let app2 := if p.videoBitrate ≠ 0 then
                  { app1 with vsrc := some { v with bitrate := p.videoBitrate } }
                else app1
    let app3 := if p.framerate ≠ 0 then (gst_set_framerate app2 (as_gint32 p.framerate)).2
                else app2
    if p.width ≠ 0 ∧ p.height ≠ 0 then
      (gst_set_resolution app3 (as_gint32 p.width) (as_gint32 p.height)).2
    else app3
  | none => app1

/-- Which source element a `GstElement *` argument points to. -/
inductive SourceRef where
  | asrc
  | vsrc
  deriving DecidableEq, Repr

/-- The element behind a `SourceRef`, `none` when it is not a `GST_IS_ELEMENT`. -/
def App.source (app : App) : SourceRef → Option GstElement
  | SourceRef.asrc => app.asrc
  | SourceRef.vsrc => app.vsrc

/-- Storing a source element back. -/
def App.set_source (app : App) (r : SourceRef) (e : GstElement) : App :=
  match r with
  | SourceRef.asrc => { app with asrc := some e }
  | SourceRef.vsrc => { app with vsrc := some e }

/-- `gst_set_bitrate` (lines 207-223).  `checkvalue` is the bitrate the element reports
after the set, which is what the element then holds. -/
def gst_set_bitrate (app : App) (source : SourceRef) (value checkvalue : Int) : Bool × App :=
  match app.source source with
  | none => (false, app)
  | some e =>
    if value = 0 then (false, app)
    else
      let app1 := app.set_source source { e with bitrate := checkvalue }
      if value ≠ checkvalue then (false, app1)
      else (true, get_source_properties app1)

/-- `upstream_resume_transmitting` (lines 225-235).  It returns `G_SOURCE_REMOVE`. -/
def upstream_resume_transmitting (app : App) : App :=
  let app1 := app.set_t { app.tcp_upstream with state := UPSTREAM_STATE_TRANSMITTING }
  let app2 := send_signal app1 "upstreamStateChanged"
    (some (UPSTREAM_STATE_TRANSMITTING.toNat : Int))
  app2.set_t { app2.tcp_upstream with
    overrun_counter := 0,
    overrun_period := GST_CLOCK_TIME_NONE,
    id_signal_waiting := 0 }

/-- The value of a property set over D-Bus. -/
inductive GVariant where
  | int32 (v : Int)
  | boolean (b : Bool)
  deriving DecidableEq, Repr

/-- `g_variant_get_int32`. -/
def g_variant_get_int32 : GVariant → Int
  | GVariant.int32 v => v
  | GVariant.boolean _ => 0

/-- `g_variant_get_boolean`. -/
def g_variant_get_boolean : GVariant → Bool
  | GVariant.boolean b => b
  | GVariant.int32 _ => false

/-- What the source elements report when a property is read back after a set. -/
structure ReadBack where
  input_mode_audio : Int
  input_mode_video : Int
  bitrate : Int
  deriving DecidableEq, Repr

/-- `handle_set_property` (lines 301-362).  The result is the return value (1 as `true`)
and the new state; the `GError` text is not modelled. -/
def handle_set_property (cfg : Config) (app : App) (property_name : String) (value : GVariant)
    (rb : ReadBack) : Bool × App :=
  if property_name = "inputMode" then
    let input_mode := g_variant_get_int32 value
    if cfg.INPUT_MODE_LIVE ≤ input_mode ∧ input_mode ≤ cfg.INPUT_MODE_BACKGROUND then
      let r := gst_set_inputmode app input_mode rb.input_mode_audio rb.input_mode_video
      if r.1 then (true, r.2) else (false, r.2)
    else (false, app)
  else if property_name = "audioBitrate" then
    gst_set_bitrate app SourceRef.asrc (g_variant_get_int32 value) rb.bitrate
  else if property_name = "videoBitrate" then
    gst_set_bitrate app SourceRef.vsrc (g_variant_get_int32 value) rb.bitrate
  else if property_name = "framerate" then
    gst_set_framerate app (g_variant_get_int32 value)
  else if property_name = "autoBitrate" then
    let enable := g_variant_get_boolean value
    let app1 := if app.tcp_upstream.state = UPSTREAM_STATE_OVERLOAD then
                  upstream_resume_transmitting app
                else app
    (true, app1.set_t { app1.tcp_upstream with auto_bitrate := enable })
  else (false, app)

/-- `GstPadProbeReturn`, the two values the code returns. -/
inductive GstPadProbeReturn where
  | GST_PAD_PROBE_OK
  | GST_PAD_PROBE_REMOVE
  deriving DecidableEq, Repr

open GstPadProbeReturn GstStateChangeReturn GstState

/-- `cancel_waiting_probe` (lines 546-559).  `is_buffer` is `GST_IS_BUFFER (buffer)`. -/
def cancel_waiting_probe (app : App) (is_buffer : Bool) : GstPadProbeReturn × App :=
  let t := app.tcp_upstream
  let app1 := if is_buffer ∧ t.id_signal_waiting ≠ 0 then
                (g_source_remove app t.id_signal_waiting).set_t { t with id_signal_waiting := 0 }
              else app
  (GST_PAD_PROBE_REMOVE, app1.set_t { app1.tcp_upstream with id_resume := 0 })

/-- `bitrate_measure_probe` (lines 561-586).  `size` is the size of the buffer when the
probe info holds a buffer, `now` the clock reading.  The sum is a `gsize` and wraps at 64
bits, as does its product with 8; the quotient is stored in the `gint bitrate` (line
579), which keeps its low 32 bits, and the mean with the previous average is taken in
`gint` arithmetic, truncating towards zero.  For a period below one millisecond the
divisor is 0 and the C division is undefined; the quotient is taken as 0 there. -/
def bitrate_measure_probe (cfg : Config) (app : App) (size : Option Nat) (now : Nat) :
    GstPadProbeReturn × App :=
  let t := app.tcp_upstream
  let t1 := match size with
            | some n => { t with bitrate_sum := (t.bitrate_sum + n) % 2 ^ 64 }
            | none => t
  if now > clock_add t1.measure_start cfg.BITRATE_AVG_PERIOD then
    let bitrate : Int := as_gint32
      ((t1.bitrate_sum * 8 % 2 ^ 64 / GST_TIME_AS_MSECONDS cfg.BITRATE_AVG_PERIOD : Nat) : Int)
    let t2 := { t1 with
      bitrate_avg :=
        if t1.bitrate_avg ≠ 0 then Int.tdiv (as_gint32 (t1.bitrate_avg + bitrate)) 2
        else bitrate }
    let app1 := send_signal (app.set_t t2) "tcpBitrate" (some bitrate)
    (GST_PAD_PROBE_OK,
     app1.set_t { app1.tcp_upstream with measure_start := now, bitrate_sum := 0 })
  else (GST_PAD_PROBE_OK, app.set_t t1)

/-- `upstream_set_waiting` (lines 588-612).  It returns `G_SOURCE_REMOVE`.  The call of
`pause_source_pipeline` at its end changes nothing that is modelled. -/
def upstream_set_waiting (app : App) : App :=
  let app1 := app.set_t { app.tcp_upstream with
    overrun_counter := 0,
    overrun_period := GST_CLOCK_TIME_NONE,
    state := UPSTREAM_STATE_WAITING }
  let app2 := send_signal app1 "upstreamStateChanged"
    (some (UPSTREAM_STATE_WAITING.toNat : Int))
  let app3 := { app2 with underrun_handlers := app2.underrun_handlers + 1 }
  let app4 := if app3.tcp_upstream.id_resume ≠ 0 then
                (gst_pad_remove_probe app3 app3.tcp_upstream.id_resume).set_t
                  { app3.tcp_upstream with id_resume := 0 }
              else app3
  let app5 := if app4.tcp_upstream.id_bitrate_measure ≠ 0 then
                (gst_pad_remove_probe app4 app4.tcp_upstream.id_bitrate_measure).set_t
                  { app4.tcp_upstream with id_bitrate_measure := 0 }
              else app4
  send_signal app5 "tcpBitrate" (some 0)

/-- `pause_source_pipeline` (lines 916-924): its return value, from the results of the
two state changes (the second is only made when the first gave NO_PREROLL). -/
def pause_source_pipeline (sret_audio sret_video : GstStateChangeReturn) : Bool :=
  sret_audio = GST_STATE_CHANGE_NO_PREROLL ∧ sret_video = GST_STATE_CHANGE_NO_PREROLL

/-- `unpause_source_pipeline` (lines 926-936): its return value, from the results of the
two state changes. -/
def unpause_source_pipeline (sret_audio sret_video : GstStateChangeReturn) : Bool :=
  if sret_audio = GST_STATE_CHANGE_FAILURE ∨ sret_video = GST_STATE_CHANGE_FAILURE then false
  else true

/-- `queue_underrun` (lines 614-640), called with `queue == app->tsq` (the handler is only
ever connected to that queue).  `sret_audio`, `sret_video` are the results of setting the
sources to PLAYING, `now1` and `now2` the two clock readings. -/
def queue_underrun (app : App) (sret_audio sret_video : GstStateChangeReturn)
    (now1 now2 : Nat) : App :=
  if unpause_source_pipeline sret_audio sret_video then
    let app1 := { app with underrun_handlers := 0, overrun_handlers := app.overrun_handlers + 1 }
    let app2 := app1.set_t { app1.tcp_upstream with state := UPSTREAM_STATE_TRANSMITTING }
    let app3 := send_signal app2 "upstreamStateChanged"
      (some (UPSTREAM_STATE_TRANSMITTING.toNat : Int))
    let app4 := if app3.tcp_upstream.id_bitrate_measure = 0 then
                  let r := gst_pad_add_probe app3 GstPadProbeCallback.bitrate_measure_probe
                  r.2.set_t { r.2.tcp_upstream with id_bitrate_measure := r.1 }
                else app3
    let t5 := { app4.tcp_upstream with measure_start := now1, bitrate_sum := 0, bitrate_avg := 0 }
    app4.set_t (if t5.overrun_period = GST_CLOCK_TIME_NONE then
                  { t5 with overrun_period := now2 }
                else t5)
  else app

/-- The auto-bitrate step of `queue_overrun` (lines 675-683).  `newAudioBitrate` is the
value of the local variable of that name, which the code reads without having written it.
The difference of the two `gint` values keeps its low 32 bits; the products with `0.8`
are taken as exact fractions truncated towards zero, which is what the `double` product
converted back to `gint` gives for operands of 32 bits. -/
def auto_overload_handling (app : App) (newAudioBitrate : Int) : App :=
  let app1 := get_source_properties app
  let p := app1.source_properties
  let p1 := if p.audioBitrate > 96 then
              { p with audioBitrate := Int.tdiv (p.audioBitrate * 4) 5 }
            else p
  let p2 := { p1 with
    videoBitrate :=
      Int.tdiv (as_gint32 (app1.tcp_upstream.bitrate_avg - newAudioBitrate) * 4) 5 }
  apply_source_properties { app1 with source_properties := p2 }

/-- `queue_overrun` (lines 642-711), called with `queue == app->tsq`.  `now` is the clock
reading, `newAudioBitrate` the uninitialised local of the auto-bitrate step. -/
def queue_overrun (cfg : Config) (app : App) (now : Nat) (newAudioBitrate : Int) : App :=
  let app0 := g_mutex_lock app
  if app0.tcp_upstream.state = UPSTREAM_STATE_CONNECTING then
    g_mutex_unlock (upstream_set_waiting { app0 with overrun_handlers := 0 })
  else if app0.tcp_upstream.state = UPSTREAM_STATE_TRANSMITTING then
    let app1 := app0.set_t { app0.tcp_upstream with
      overrun_counter := app0.tcp_upstream.overrun_counter + 1 }
    if app1.tcp_upstream.id_signal_waiting ≠ 0 then
      g_mutex_unlock { app1 with overrun_handlers := 0 }
    else
      let app2 :=
        if app1.tcp_upstream.overrun_counter ≥ cfg.MAX_OVERRUNS then
          let a := app1.set_t { app1.tcp_upstream with state := UPSTREAM_STATE_OVERLOAD }
          let a1 := send_signal a "upstreamStateChanged"
            (some (UPSTREAM_STATE_OVERLOAD.toNat : Int))
          if a1.tcp_upstream.auto_bitrate then
            let a2 := auto_overload_handling a1 newAudioBitrate
            let r := g_timeout_add_seconds a2 GSourceFunc.upstream_resume_transmitting
            r.2.set_t { r.2.tcp_upstream with id_signal_waiting := r.1 }
          else a1
        else
          let r := gst_pad_add_probe app1 GstPadProbeCallback.cancel_waiting_probe
          let a := r.2.set_t { r.2.tcp_upstream with id_resume := r.1 }
          let r1 := g_timeout_add_seconds a GSourceFunc.upstream_set_waiting
          r1.2.set_t { r1.2.tcp_upstream with id_signal_waiting := r1.1 }
      let app3 :=
        if now > clock_add app2.tcp_upstream.overrun_period cfg.OVERRUN_TIME then
          app2.set_t { app2.tcp_upstream with overrun_counter := 0, overrun_period := now }
        else app2
      g_mutex_unlock app3
  else if app0.tcp_upstream.state = UPSTREAM_STATE_OVERLOAD then
    g_mutex_unlock (app0.set_t { app0.tcp_upstream with
      overrun_counter := app0.tcp_upstream.overrun_counter + 1 })
  else g_mutex_unlock app0

/-- What `create_source_pipeline` gets from GStreamer: the two new source elements (`none`
for NULL), whether the two parsers could be made, and whether the three links succeed. -/
structure CreateEnv where
  asrc : Option GstElement
  vsrc : Option GstElement
  aparse_ok : Bool
  vparse_ok : Bool
  audio_link_ok : Bool
  video_link_ok : Bool
  mux_link_ok : Bool
  deriving DecidableEq, Repr

/-- `create_source_pipeline` (lines 713-784).  `none` is the abort of the process by
`g_error`.  The new pipeline has a new queue, to which no handler is connected, and the
tcp sink is not part of it. -/
def create_source_pipeline (app : App) (env : CreateEnv) : Option (Bool × App) :=
  let app0 := g_mutex_lock app
  let app1 := { app0 with
    pipeline := true, asrc := env.asrc, vsrc := env.vsrc,
    overrun_handlers := 0, underrun_handlers := 0, sink_in_bin := false }
  if !(env.asrc.isSome && env.vsrc.isSome && env.aparse_ok && env.vparse_ok) then none
  else if !env.audio_link_ok then some (false, app1)
  else if !env.video_link_ok then some (false, app1)
  else if !env.mux_link_ok then none
  else some (true, g_mutex_unlock (apply_source_properties app1))

/-- `inject_authorization` (lines 786-797): the probe removes itself and pushes the token
buffer (the pushed data is not modelled). -/
def inject_authorization (app : App) : GstPadProbeReturn × App :=
  (GST_PAD_PROBE_REMOVE, gst_pad_remove_probe app app.tcp_upstream.inject_id)

/-- `pad_probe_unlink_cb` (lines 938-970).  `idle` says that the probe info has the type
`GST_PAD_PROBE_TYPE_IDLE`, `element` is the parent of the pad (0 for NULL).  The return
value is `none` when the code returns its local `ret` without having written it. -/
def pad_probe_unlink_cb (app : App) (idle : Bool) (element : Nat) :
    Option GstPadProbeReturn × App :=
  if idle ∧ element ≠ 0 ∧ element = app.tcp_upstream.tcpsink then
    let app1 := { app with sink_in_bin := false }
    let app2 := app1.set_t { app1.tcp_upstream with state := UPSTREAM_STATE_DISABLED }
    (some GST_PAD_PROBE_REMOVE,
     send_signal app2 "upstreamStateChanged" (some (UPSTREAM_STATE_DISABLED.toNat : Int)))
  else (none, app)

/-- `gst_pad_add_probe (sinkpad, GST_PAD_PROBE_TYPE_IDLE, pad_probe_unlink_cb, app, NULL)`.
When the pad is idle GStreamer calls the callback at once, from inside this call, and
does not keep the probe if the callback answers REMOVE; otherwise the probe stays
installed until the pad becomes idle. -/
def gst_pad_add_probe_idle (app : App) (pad_idle : Bool) : App :=
  if pad_idle then
    let r := pad_probe_unlink_cb app true app.tcp_upstream.tcpsink
    if r.1 = some GST_PAD_PROBE_REMOVE then r.2
    else (gst_pad_add_probe r.2 GstPadProbeCallback.pad_probe_unlink_cb).2
  else (gst_pad_add_probe app GstPadProbeCallback.pad_probe_unlink_cb).2

/-- `disable_tcp_upstream` (lines 972-991).  `pad_idle` says whether the sink pad is idle
at the moment the idle probe is added. -/
def disable_tcp_upstream (app : App) (pad_idle : Bool) : Bool × App :=
  if app.tcp_upstream.state.toNat ≥ UPSTREAM_STATE_CONNECTING.toNat then
    let app1 := if app.tcp_upstream.id_bitrate_measure ≠ 0 then
                  (gst_pad_remove_probe app app.tcp_upstream.id_bitrate_measure).set_t
                    { app.tcp_upstream with id_bitrate_measure := 0 }
                else app
    (true, gst_pad_add_probe_idle app1 pad_idle)
  else (false, app)

/-- What `enable_tcp_upstream` gets from GStreamer: the new sink element (0 for NULL), the
host and port the sink reports after they were set, the result of setting the sink to
READY, whether the queue could be linked to the sink, the result of setting the pipeline
to PLAYING, the state of the pipeline and of its elements after the wait, and whether the
sink pad is idle when the `fail` path calls `disable_tcp_upstream` on a sink that is
linked into the pipeline (or on the sink of an earlier enable, without a pipeline). -/
structure EnableEnv where
  tcpsink : Nat
  check_host : String
  check_port : Nat
  sret_ready : GstStateChangeReturn
  link_ok : Bool
  sret_playing : GstStateChangeReturn
  pipeline_state : GstState
  element_states : List GstState
  pad_idle : Bool
  deriving DecidableEq, Repr

/-- The `fail:` label of `enable_tcp_upstream` (lines 910-913). -/
def enable_tcp_upstream_fail (app : App) (pad_idle : Bool) : Bool × App :=
  (false, (disable_tcp_upstream (g_mutex_unlock app) pad_idle).2)

/-- The start of the enabling branch of `enable_tcp_upstream` (lines 813-822): the mutex
is taken, the handles are cleared, the state becomes Connecting, `queue_overrun` is
connected, the change is signalled and the sink element `tcpsink` is made.  The new
element has no probe on its pad and is in no bin. -/
def enable_tcp_upstream_setup (app : App) (tcpsink : Nat) : App :=
  let app0 := g_mutex_lock app
  let app1 := app0.set_t { app0.tcp_upstream with
    id_signal_waiting := 0, id_bitrate_measure := 0, id_resume := 0,
    state := UPSTREAM_STATE_CONNECTING }
  let app2 := { app1 with overrun_handlers := app1.overrun_handlers + 1 }
  let app3 := send_signal app2 "upstreamStateChanged"
    (some (app2.tcp_upstream.state.toNat : Int))
  { app3 with
    tcp_upstream := { app3.tcp_upstream with tcpsink := tcpsink },
    probes := [], sink_in_bin := false }

/-- The branch of `enable_tcp_upstream` for a sink that does not reach READY
(lines 850-858). -/
def enable_tcp_upstream_not_ready (app : App) : App :=
  let app1 := app.set_t { app.tcp_upstream with state := UPSTREAM_STATE_DISABLED }
  g_mutex_unlock (send_signal app1 "upstreamStateChanged"
    (some (app1.tcp_upstream.state.toNat : Int)))

/-- The token step of `enable_tcp_upstream` (lines 866-872): with a non-empty token the
token is stored and the injection probe installed. -/
def enable_tcp_upstream_token (app : App) (token : String) : App :=
  if token ≠ "" then
    let r := gst_pad_add_probe (app.set_t { app.tcp_upstream with token := token })
      GstPadProbeCallback.inject_authorization
    r.2.set_t { r.2.tcp_upstream with inject_id := r.1 }
  else app

/-- `enable_tcp_upstream` (lines 799-914).  `none` is the abort of the process by
`g_error`, for a sink that could not be made (line 825) or linked (line 863), whatever
was set up before.  On the two `fail` paths for host and port the sink has just been
made and was never linked, so its pad is idle; on the other `fail` paths `env.pad_idle`
says whether it is. -/
def enable_tcp_upstream (app : App) (upstream_host : String) (upstream_port : Nat)
    (token : String) (env : EnableEnv) : Option (Bool × App) :=
  if !app.pipeline then some (enable_tcp_upstream_fail app env.pad_idle)
  else if app.tcp_upstream.state = UPSTREAM_STATE_DISABLED then
    if env.tcpsink = 0 then none
    else if upstream_host ≠ env.check_host then
      some (enable_tcp_upstream_fail (enable_tcp_upstream_setup app env.tcpsink) true)
    else if upstream_port ≠ env.check_port then
      some (enable_tcp_upstream_fail (enable_tcp_upstream_setup app env.tcpsink) true)
    else if env.sret_ready = GST_STATE_CHANGE_FAILURE then
      some (false, enable_tcp_upstream_not_ready (enable_tcp_upstream_setup app env.tcpsink))
    else if !env.link_ok then none
    else if env.sret_playing = GST_STATE_CHANGE_FAILURE then
      some (enable_tcp_upstream_fail
        (enable_tcp_upstream_token
          { enable_tcp_upstream_setup app env.tcpsink with sink_in_bin := true } token)
        env.pad_idle)
    else if env.sret_playing = GST_STATE_CHANGE_ASYNC ∧
        (env.pipeline_state :: env.element_states).getLast? ≠ some GST_STATE_PLAYING then
      some (enable_tcp_upstream_fail
        (enable_tcp_upstream_token
          { enable_tcp_upstream_setup app env.tcpsink with sink_in_bin := true } token)
        env.pad_idle)
    else
      some (true, g_mutex_unlock
        (enable_tcp_upstream_token
          { enable_tcp_upstream_setup app env.tcpsink with sink_in_bin := true } token))
  else some (false, app)

/-- `destroy_pipeline` (lines 993-1016). -/
def destroy_pipeline (app : App) : Bool × App :=
  if app.pipeline then (true, { get_source_properties app with pipeline := false })
  else (false, app)

/-- The method calls arriving over D-Bus, with their parameters. -/
inductive MethodCall where
  | enableUpstream (state : Bool) (upstream_host : String) (upstream_port : Nat)
      (token : String)
  | setResolution (width height : Int)
  | unknown (method_name : String)
  deriving DecidableEq, Repr

/-- The answer to a method call: a return value (`some b` for `(b)`, `none` for an empty
reply) or an error. -/
inductive MethodReply where
  | value (result : Option Bool)
  | error
  deriving DecidableEq, Repr

/-- `handle_method_call` (lines 364-415).  `none` is the abort of the process by
`g_error` inside `enable_tcp_upstream` or `create_source_pipeline`.  `pad_idle` is read
by the `disable_tcp_upstream` of the disabling branch. -/
def handle_method_call (app : App) (call : MethodCall) (eenv : EnableEnv) (pad_idle : Bool)
    (cenv : CreateEnv) : Option (MethodReply × App) :=
  match call with
  | MethodCall.enableUpstream state upstream_host upstream_port token =>
    if app.pipeline then
      if state = true ∧ app.tcp_upstream.state = UPSTREAM_STATE_DISABLED then
        (enable_tcp_upstream app upstream_host upstream_port token eenv).map
          (fun r => (MethodReply.value (some r.1), r.2))
      else if state = false ∧
          app.tcp_upstream.state.toNat ≥ UPSTREAM_STATE_CONNECTING.toNat then
        let r := disable_tcp_upstream app pad_idle
        (create_source_pipeline (destroy_pipeline r.2).2 cenv).map
          (fun c => (MethodReply.value (some r.1), c.2))
      else some (MethodReply.value (some false), app)
    else some (MethodReply.value (some false), app)
  | MethodCall.setResolution width height =>
    let r := gst_set_resolution app width height
    if r.1 then some (MethodReply.value none, r.2) else some (MethodReply.error, r.2)
  | MethodCall.unknown _ => some (MethodReply.error, app)

/-- `on_name_acquired` (lines 433-442): the connection is stored.  (The pipeline is also
sent to READY, which is not modelled.) -/
def on_name_acquired (app : App) : App :=
  { app with dbus_connection := true }

/-- `on_name_lost` (lines 444-452). -/
def on_name_lost (app : App) : App :=
  { app with dbus_connection := false }

/-- The code of an error of the domain `GST_RESOURCE_ERROR`, as far as `message_cb` tells
the codes apart. -/
inductive GstResourceError where
  | GST_RESOURCE_ERROR_READ
  | GST_RESOURCE_ERROR_WRITE
  | other
  deriving DecidableEq, Repr

/-- A message on the bus of the pipeline, as far as `message_cb` looks at it:
`from_pipeline` says that the source of a state change is the pipeline itself,
`resource_domain` that the domain of an error is `GST_RESOURCE_ERROR`. -/
inductive GstMessage where
  | state_changed (from_pipeline : Bool) (old_state new_state : GstState)
  | error (resource_domain : Bool) (code : GstResourceError)
  | warning
  | eos
  | other
  deriving DecidableEq, Repr

/-- `message_cb` (lines 454-544).  `none` is the abort of the process by `g_error` inside
`create_source_pipeline`.  `pad_idle` is read by `disable_tcp_upstream`.  On end of
stream the main loop is asked to quit, which is not modelled. -/
def message_cb (app : App) (message : GstMessage) (pad_idle : Bool) (cenv : CreateEnv) :
    Option (Bool × App) :=
  let app0 := g_mutex_lock app
  match message with
  | GstMessage.state_changed from_pipeline old_state new_state =>
    if old_state = new_state then some (true, g_mutex_unlock app0)
    else if from_pipeline ∧ old_state = GST_STATE_NULL ∧ new_state = GST_STATE_READY then
      some (true, g_mutex_unlock (send_signal app0 "sourceReady" none))
    else some (true, g_mutex_unlock app0)
  | GstMessage.error resource_domain code =>
    if resource_domain then
      let app1 :=
        if code = GstResourceError.GST_RESOURCE_ERROR_READ then
          (destroy_pipeline
            (disable_tcp_upstream (g_mutex_unlock (send_signal app0 "encoderError" none))
              pad_idle).2).2
        else app0
      if code = GstResourceError.GST_RESOURCE_ERROR_WRITE then
        (create_source_pipeline
          (destroy_pipeline (disable_tcp_upstream (g_mutex_unlock app1) pad_idle).2).2
          cenv).map (fun c => (true, g_mutex_unlock c.2))
      else some (true, g_mutex_unlock app1)
    else some (true, g_mutex_unlock app0)
  | GstMessage.warning => some (true, g_mutex_unlock app0)
  | GstMessage.eos => some (false, g_mutex_unlock app0)
  | GstMessage.other => some (true, g_mutex_unlock app0)

/-! ## The event loop

The callbacks above are run by GLib and GStreamer.  An `Event` is one thing that can
happen to the running program; `step` runs the callbacks that the libraries would run for
it, given what is connected, scheduled or installed at that moment. -/

/-- The state after `main` has set up the program (lines 1036-1058): `app` zeroed, the
source pipeline created, the upstream record allocated with `state` and `auto_bitrate`
set.  `heap` is what the memory returned by `malloc` holds: `main` writes only these two
fields, the others keep what was there. -/
def app_after_main (cfg : Config) (cenv : CreateEnv) (heap : DreamTCPupstream) : Option App :=
  let app0 : App :=
    { pipeline := false, dbus_connection := false, asrc := none, vsrc := none,
      source_properties :=
        { audioBitrate := 0, videoBitrate := 0, width := 0, height := 0, framerate := 0 },
      tcp_upstream :=
        { heap with state := UPSTREAM_STATE_DISABLED, auto_bitrate := cfg.AUTO_BITRATE },
      overrun_handlers := 0, underrun_handlers := 0, timeouts := [], last_source := 0,
      probes := [], last_probe := 0, sink_in_bin := false, signals := [],
      rtsp_mutex := false, mutex_faults := 0 }
  (create_source_pipeline app0 cenv).map (fun r => r.2)

/-- The queue emits "overrun": GLib calls `queue_overrun` once for every connection that
existed when the emission started and is still connected when its turn comes. -/
def emit_overrun (cfg : Config) (now : Nat) (newAudioBitrate : Int) : Nat → App → App
  | 0, app => app
  | n + 1, app =>
    if app.overrun_handlers = 0 then app
    else emit_overrun cfg now newAudioBitrate n (queue_overrun cfg app now newAudioBitrate)

/-- The queue emits "underrun": the same for `queue_underrun`. -/
def emit_underrun (sret_audio sret_video : GstStateChangeReturn) (now1 now2 : Nat) :
    Nat → App → App
  | 0, app => app
  | n + 1, app =>
    if app.underrun_handlers = 0 then app
    else emit_underrun sret_audio sret_video now1 now2 n
      (queue_underrun app sret_audio sret_video now1 now2)

/-- The main loop dispatches the timeout source `id`: its callback runs and, as both
callbacks return `G_SOURCE_REMOVE`, the source is destroyed.  Nothing happens when no
such source is scheduled. -/
def dispatch_timeout (app : App) (id : Nat) : App :=
  match app.timeouts.lookup id with
  | none => app
  | some GSourceFunc.upstream_set_waiting => g_source_remove (upstream_set_waiting app) id
  | some GSourceFunc.upstream_resume_transmitting =>
    g_source_remove (upstream_resume_transmitting app) id

/-- One buffer probe is run for a buffer of `size` bytes, unless an earlier probe of the
same buffer removed it.  A probe that answers REMOVE is taken off the pad. -/
def run_buffer_probe (cfg : Config) (size now : Nat) (app : App)
    (p : Nat × GstPadProbeCallback) : App :=
  if p ∈ app.probes then
    match p.2 with
    | GstPadProbeCallback.cancel_waiting_probe =>
      gst_pad_remove_probe (cancel_waiting_probe app true).2 p.1
    | GstPadProbeCallback.bitrate_measure_probe =>
      (bitrate_measure_probe cfg app (some size) now).2
    | GstPadProbeCallback.inject_authorization =>
      gst_pad_remove_probe (inject_authorization app).2 p.1
    | GstPadProbeCallback.pad_probe_unlink_cb => app
  else app

/-- A buffer of `size` bytes reaches the sink pad at clock time `now`: the buffer probes
installed on the pad run in the order in which they were installed. -/
def pad_push (cfg : Config) (app : App) (size now : Nat) : App :=
  app.probes.foldl (run_buffer_probe cfg size now) app

/-- The sink pad becomes idle: the first idle probe waiting on it is called. -/
def pad_becomes_idle (app : App) : App :=
  match app.probes.find? (fun p => p.2 = GstPadProbeCallback.pad_probe_unlink_cb) with
  | none => app
  | some p =>
    let r := pad_probe_unlink_cb app true app.tcp_upstream.tcpsink
    if r.1 = some GST_PAD_PROBE_REMOVE then gst_pad_remove_probe r.2 p.1 else r.2

/-- What can happen to the running program. -/
inductive Event where
  | method_call (call : MethodCall) (eenv : EnableEnv) (pad_idle : Bool) (cenv : CreateEnv)
  | set_property (property_name : String) (value : GVariant) (rb : ReadBack)
  | overrun (now : Nat) (newAudioBitrate : Int)
  | underrun (sret_audio sret_video : GstStateChangeReturn) (now1 now2 : Nat)
  | timeout (id : Nat)
  | buffer (size now : Nat)
  | idle
  | message (message : GstMessage) (pad_idle : Bool) (cenv : CreateEnv)
  | name_acquired
  | name_lost
  deriving DecidableEq, Repr

/-- One event.  `none` is the abort of the process.  The queue only emits its signals
while the pipeline exists, and buffers only reach the sink pad while the sink is linked
into the pipeline. -/
def step (cfg : Config) (app : App) : Event → Option App
  | Event.method_call call eenv pad_idle cenv =>
    (handle_method_call app call eenv pad_idle cenv).map (fun r => r.2)
  | Event.set_property property_name value rb =>
    some (handle_set_property cfg app property_name value rb).2
  | Event.overrun now newAudioBitrate =>
    some (if app.pipeline then emit_overrun cfg now newAudioBitrate app.overrun_handlers app
          else app)
  | Event.underrun sret_audio sret_video now1 now2 =>
    some (if app.pipeline then
            emit_underrun sret_audio sret_video now1 now2 app.underrun_handlers app
          else app)
  | Event.timeout id => some (dispatch_timeout app id)
  | Event.buffer size now => some (if app.sink_in_bin then pad_push cfg app size now else app)
  | Event.idle => some (pad_becomes_idle app)
  | Event.message message pad_idle cenv =>
    (message_cb app message pad_idle cenv).map (fun r => r.2)
  | Event.name_acquired => some (on_name_acquired app)
  | Event.name_lost => some (on_name_lost app)

/-- A sequence of events, oldest first. -/
def run (cfg : Config) : App → List Event → Option App
  | app, [] => some app
  | app, e :: es => (step cfg app e).bind (fun app1 => run cfg app1 es)

/-- The upstream states a run passes through, the starting state first; `none` when the
process aborts on the way. -/
def trace (cfg : Config) : App → List Event → Option (List upstreamState)
  | app, [] => some [app.tcp_upstream.state]
  | app, e :: es =>
    (step cfg app e).bind (fun app1 =>
      (trace cfg app1 es).map (fun l => app.tcp_upstream.state :: l))

/-! ## Sample configuration and states used by the closed theorems -/

/-- A configuration with `MAX_OVERRUNS = 3`, a 15 s overrun window and a 2 s averaging
period. -/
def sample_config : Config :=
  { MAX_OVERRUNS := 3, OVERRUN_TIME := 15 * GST_SECOND, BITRATE_AVG_PERIOD := 2 * GST_SECOND,
    AUTO_BITRATE := true, INPUT_MODE_LIVE := 0, INPUT_MODE_BACKGROUND := 2 }

/-- The same configuration with auto-bitrate off. -/
def sample_config_manual : Config :=
  { sample_config with AUTO_BITRATE := false }

/-- Caps of one structure: 1280x720 at 25 fps. -/
def sample_caps : GstCaps :=
  [{ name := "video/x-h264",
     fields := [("width", GValue.int 1280), ("height", GValue.int 720),
                ("framerate", GValue.fraction 25 1)] }]

/-- Source elements that can be made and linked. -/
def sample_create_env : CreateEnv :=
  { asrc := some { bitrate := 128, input_mode := 0, caps := none },
    vsrc := some { bitrate := 2048, input_mode := 0, caps := some sample_caps },
    aparse_ok := true, vparse_ok := true,
    audio_link_ok := true, video_link_ok := true, mux_link_ok := true }

/-- A sink that takes host "collector" and port 8554, reaches READY, links and plays. -/
def sample_enable_env : EnableEnv :=
  { tcpsink := 1, check_host := "collector", check_port := 8554,
    sret_ready := GST_STATE_CHANGE_SUCCESS, link_ok := true,
    sret_playing := GST_STATE_CHANGE_SUCCESS, pipeline_state := GST_STATE_PLAYING,
    element_states := [], pad_idle := true }

/-- The method call `enableUpstream (true, "collector", 8554, "")`. -/
def sample_enable : Event :=
  Event.method_call (MethodCall.enableUpstream true "collector" 8554 "")
    sample_enable_env true sample_create_env

/-- The method call `enableUpstream (false, "", 0, "")`, with the sink pad idle. -/
def sample_disable : Event :=
  Event.method_call (MethodCall.enableUpstream false "" 0 "")
    sample_enable_env true sample_create_env

/-- An "overrun" of the queue at clock time `now`. -/
def sample_overrun (now : Nat) : Event := Event.overrun now 0

/-- An "underrun" of the queue at clock time `now`, the sources resuming. -/
def sample_underrun (now : Nat) : Event :=
  Event.underrun GST_STATE_CHANGE_SUCCESS GST_STATE_CHANGE_SUCCESS now now

/-- Allocated memory that happens to hold zeroes. -/
def sample_heap : DreamTCPupstream :=
  { state := UPSTREAM_STATE_DISABLED, auto_bitrate := false, tcpsink := 0,
    overrun_counter := 0, overrun_period := 0, id_signal_waiting := 0, id_resume := 0,
    id_bitrate_measure := 0, inject_id := 0, token := "", measure_start := 0,
    bitrate_sum := 0, bitrate_avg := 0 }

/-- The state with which the main loop starts, for a given configuration, when the
upstream record was allocated in zeroed memory. -/
def sample_start (cfg : Config) : App :=
  (app_after_main cfg sample_create_env sample_heap).getD
    { pipeline := false, dbus_connection := false, asrc := none, vsrc := none,
      source_properties :=
        { audioBitrate := 0, videoBitrate := 0, width := 0, height := 0, framerate := 0 },
      tcp_upstream := sample_heap,
      overrun_handlers := 0, underrun_handlers := 0, timeouts := [], last_source := 0,
      probes := [], last_probe := 0, sink_in_bin := false, signals := [],
      rtsp_mutex := false, mutex_faults := 0 }

/-- The state a run from `sample_start` ends in (the start itself if the process
aborted). -/
def sample_after (cfg : Config) (es : List Event) : App :=
  (run cfg (sample_start cfg) es).getD (sample_start cfg)

/-- Transmitting, nothing pending: enabled, first overrun, underrun. -/
def sample_transmitting : App :=
  sample_after sample_config [sample_enable, sample_overrun 1, sample_underrun 2]

/-- Transmitting with a set-waiting timer (source 1) and a cancel probe (probe 2)
pending: one more overrun. -/
def sample_pending : App :=
  sample_after sample_config
    [sample_enable, sample_overrun 1, sample_underrun 2, sample_overrun 3]

/-- The transitions of the table of the specification, as pairs (state before, state
after). -/
def table_transition : upstreamState → upstreamState → Bool
  | UPSTREAM_STATE_DISABLED, UPSTREAM_STATE_CONNECTING => true
  | UPSTREAM_STATE_CONNECTING, UPSTREAM_STATE_WAITING => true
  | UPSTREAM_STATE_WAITING, UPSTREAM_STATE_TRANSMITTING => true
  | UPSTREAM_STATE_TRANSMITTING, UPSTREAM_STATE_WAITING => true
  | UPSTREAM_STATE_TRANSMITTING, UPSTREAM_STATE_OVERLOAD => true
  | UPSTREAM_STATE_OVERLOAD, UPSTREAM_STATE_TRANSMITTING => true
  | UPSTREAM_STATE_CONNECTING, UPSTREAM_STATE_DISABLED => true
  | UPSTREAM_STATE_WAITING, UPSTREAM_STATE_DISABLED => true
  | UPSTREAM_STATE_TRANSMITTING, UPSTREAM_STATE_DISABLED => true
  | UPSTREAM_STATE_OVERLOAD, UPSTREAM_STATE_DISABLED => true
  | _, _ => false

/-- A step of the state is allowed when it is a self-loop or a transition of the table. -/
def allowed_step (s s' : upstreamState) : Bool :=
  decide (s = s') || table_transition s s'

/-- Every pair of neighbours of a trace is an allowed step. -/
def trace_allowed : List upstreamState → Bool
  | s :: s' :: rest => allowed_step s s' && trace_allowed (s' :: rest)
  | _ => true

/-- The program state with the source elements and the property cache blanked: what is
left is the control state. Two states with the same `control` differ at most in the
encoder settings. -/
def App.control (a : App) : App :=
  { a with asrc := none, vsrc := none,
           source_properties := { audioBitrate := 0, videoBitrate := 0, width := 0, height := 0, framerate := 0 } }

/-- The callbacks that run while the upstream oscillates between Transmitting and
Waiting, each with what it reads from the outside. -/
inductive FlowCallback where
  | queue_overrun (now : Nat) (newAudioBitrate : Int)
  | queue_underrun (sret_audio sret_video : GstStateChangeReturn) (now1 now2 : Nat)
  | upstream_set_waiting
  | cancel_waiting_probe (is_buffer : Bool)
  deriving DecidableEq, Repr

/-- Running one callback. -/
def FlowCallback.apply (cfg : Config) (app : App) : FlowCallback → App
  | FlowCallback.queue_overrun now newAudioBitrate =>
    DreamRtspServer.queue_overrun cfg app now newAudioBitrate
  | FlowCallback.queue_underrun sret_audio sret_video now1 now2 =>
    DreamRtspServer.queue_underrun app sret_audio sret_video now1 now2
  | FlowCallback.upstream_set_waiting => DreamRtspServer.upstream_set_waiting app
  | FlowCallback.cancel_waiting_probe is_buffer =>
    (DreamRtspServer.cancel_waiting_probe app is_buffer).2

/-- Running a sequence of callbacks, oldest first. -/
def apply_callbacks (cfg : Config) (app : App) (l : List FlowCallback) : App :=
  l.foldl (FlowCallback.apply cfg) app

/-- Whether a callback is a call of `queue_overrun`. -/
def FlowCallback.is_overrun : FlowCallback → Bool
  | FlowCallback.queue_overrun _ _ => true
  | _ => false

/-- The number of calls of `queue_overrun` in a sequence of callbacks. -/
def overrun_count (l : List FlowCallback) : Nat :=
  l.countP FlowCallback.is_overrun

/-- The event sets the property `autoBitrate`. -/
def Event.is_autoBitrate_set : Event → Bool
  | Event.set_property property_name _ _ => decide (property_name = "autoBitrate")
  | _ => false

/-- The event disables the upstream: the method call `enableUpstream (false, ...)`, or a
read or write error of a resource reported on the bus. -/
def Event.is_disable : Event → Bool
  | Event.method_call (MethodCall.enableUpstream false _ _ _) _ _ _ => true
  | Event.message (GstMessage.error true GstResourceError.GST_RESOURCE_ERROR_READ) _ _ => true
  | Event.message (GstMessage.error true GstResourceError.GST_RESOURCE_ERROR_WRITE) _ _ => true
  | _ => false

/-- Overload with nothing left over from before that could end it: no timeout source
scheduled, no underrun handler connected, no idle probe waiting on the sink pad. -/
def overload_settled (app : App) : Prop :=
  app.tcp_upstream.state = UPSTREAM_STATE_OVERLOAD ∧
  app.timeouts = [] ∧
  app.underrun_handlers = 0 ∧
  ∀ p ∈ app.probes, p.2 ≠ GstPadProbeCallback.pad_probe_unlink_cb

instance (app : App) : Decidable (overload_settled app) := by
  unfold overload_settled
  infer_instance

/-- Overload with auto-bitrate off, reached from the start by enable, overrun, underrun
and three overruns with a buffer passing after the first and the second. -/
def sample_overload_manual : App :=
  sample_after sample_config_manual
    [sample_enable, sample_overrun 1, sample_underrun 2, sample_overrun 3, Event.buffer 188 4,
     sample_overrun 5, Event.buffer 188 6, sample_overrun 7]

/-- Feeding the bitrate probe one buffer of `size` bytes at each of the clock times of
`times`, oldest first. -/
def feed_buffers (cfg : Config) (app : App) (size : Nat) (times : List Nat) : App :=
  times.foldl (fun a now => (bitrate_measure_probe cfg a (some size) now).2) app

/-- A state with a D-Bus connection in which the measurement starts at clock time 0. -/
def sample_measuring : App :=
  { sample_transmitting with
    dbus_connection := true,
    tcp_upstream := { sample_transmitting.tcp_upstream with
      measure_start := 0, bitrate_sum := 0, bitrate_avg := 0 } }

/-- A state with a pipeline whose video source has the caps `caps`. -/
def sample_with_caps (caps : GstCaps) : App :=
  { sample_start sample_config with
    vsrc := some { bitrate := 2048, input_mode := 0, caps := some caps } }

/-- Caps of two structures: 1280x720 first, then 640x480. -/
def sample_caps_two : GstCaps :=
  [{ name := "video/x-h264",
     fields := [("width", GValue.int 1280), ("height", GValue.int 720)] },
   { name := "video/x-h264",
     fields := [("width", GValue.int 640), ("height", GValue.int 480)] }]

/-- Transmitting without a source pipeline: the state after `message_cb` has handled a
resource read error (lines 490-497) while the sink pad was busy.  `disable_tcp_upstream`
has installed its idle probe and `destroy_pipeline` has run. -/
def sample_read_error : App :=
  ((message_cb sample_transmitting
      (GstMessage.error true GstResourceError.GST_RESOURCE_ERROR_READ) false
      sample_create_env).map (fun r => r.2)).getD sample_transmitting

/-- The timeout `id`, if it is scheduled, calls back in the state that armed it:
`upstream_set_waiting` in Transmitting, `upstream_resume_transmitting` in Overload. -/
def timeout_in_owning_state (app : App) (id : Nat) : Prop :=
  match app.timeouts.lookup id with
  | none => True
  | some GSourceFunc.upstream_set_waiting =>
    app.tcp_upstream.state = UPSTREAM_STATE_TRANSMITTING
  | some GSourceFunc.upstream_resume_transmitting =>
    app.tcp_upstream.state = UPSTREAM_STATE_OVERLOAD

/-- The event does not run a callback outside the state it belongs to: a timeout fires in
the state that armed it, and the queue signals an underrun to a connected handler only
in Waiting. -/
def Event.in_owning_state (app : App) : Event → Prop
  | Event.timeout id => timeout_in_owning_state app id
  | Event.underrun _ _ _ _ =>
    app.underrun_handlers = 0 ∨ app.tcp_upstream.state = UPSTREAM_STATE_WAITING
  | _ => True

/-- Along the run every event finds the state it belongs to. -/
def run_in_owning_state (cfg : Config) : App → List Event → Prop
  | _, [] => True
  | app, e :: es =>
    e.in_owning_state app ∧
    ∀ app1, step cfg app e = some app1 → run_in_owning_state cfg app1 es

/-- Overload with auto-bitrate off and a timer left over: an Overload with auto-bitrate
on arms the resume timer (source 3), the property `autoBitrate` is set to false, which
resumes at once, and three more overruns with buffers in between declare Overload
again. -/
def sample_overload_leftover : App :=
  sample_after sample_config
    [sample_enable, sample_overrun 1, sample_underrun 2, sample_overrun 3, Event.buffer 188 4,
     sample_overrun 5, Event.buffer 188 6, sample_overrun 7,
     Event.set_property "autoBitrate" (GVariant.boolean false)
       { input_mode_audio := 0, input_mode_video := 0, bitrate := 0 },
     sample_overrun 8, Event.buffer 188 9, sample_overrun 10, Event.buffer 188 11,
     sample_overrun 12]

/-- Transmitting with auto-bitrate on, two overruns counted, nothing pending, and an
average of 1000 kbit/s measured (250000 bytes in the 2 s period): the next overrun
declares Overload.  The audio source runs at 128 kbit/s. -/
def sample_overload_due : App :=
  sample_after sample_config
    [sample_enable, sample_overrun 1, sample_underrun 2,
     Event.buffer 250000 3000000000,
     sample_overrun 3000000001, Event.buffer 0 3000000002,
     sample_overrun 3000000003, Event.buffer 0 3000000004]

/-- Waiting with a resume timer left over: from `sample_overload_due` the third overrun
declares Overload and arms the resume timer (source 3), the property `autoBitrate` is
set, which resumes at once and leaves the timer scheduled, one more overrun arms a
set-waiting timer (source 4), and that timer fires. -/
def sample_waiting_leftover : App :=
  sample_after sample_config
    [sample_enable, sample_overrun 1, sample_underrun 2,
     Event.buffer 250000 3000000000,
     sample_overrun 3000000001, Event.buffer 0 3000000002,
     sample_overrun 3000000003, Event.buffer 0 3000000004,
     sample_overrun 3000000005,
     Event.set_property "autoBitrate" (GVariant.boolean true)
       { input_mode_audio := 0, input_mode_video := 0, bitrate := 0 },
     sample_overrun 3000000006,
     Event.timeout 4]

/-- Waiting, entered by the set-waiting timer: from `sample_pending` the timer of source 1
fires. -/
def sample_waiting_by_timer : App :=
  sample_after sample_config
    [sample_enable, sample_overrun 1, sample_underrun 2, sample_overrun 3, Event.timeout 1]

/-- The bitrate probe goes with the states in which data is sent: its handle is non-zero
exactly in Transmitting and in Overload. -/
def bitrate_probe_in_step (app : App) : Prop :=
  app.tcp_upstream.id_bitrate_measure ≠ 0 ↔
    (app.tcp_upstream.state = UPSTREAM_STATE_TRANSMITTING ∨
     app.tcp_upstream.state = UPSTREAM_STATE_OVERLOAD)

instance (app : App) : Decidable (bitrate_probe_in_step app) := by
  unfold bitrate_probe_in_step
  infer_instance

/-- The event is the sink pad becoming idle. -/
def Event.is_idle : Event → Bool
  | Event.idle => true
  | _ => false

/-- The test of `Event.in_owning_state`, computed. -/
def Event.owning_state_test (app : App) : Event → Bool
  | Event.timeout id =>
    match app.timeouts.lookup id with
    | none => true
    | some GSourceFunc.upstream_set_waiting =>
      decide (app.tcp_upstream.state = UPSTREAM_STATE_TRANSMITTING)
    | some GSourceFunc.upstream_resume_transmitting =>
      decide (app.tcp_upstream.state = UPSTREAM_STATE_OVERLOAD)
  | Event.underrun _ _ _ _ =>
    decide (app.underrun_handlers = 0 ∨ app.tcp_upstream.state = UPSTREAM_STATE_WAITING)
  | _ => true

instance (app : App) (e : Event) : Decidable (e.in_owning_state app) :=
  decidable_of_iff (e.owning_state_test app = true) (by
    cases e <;> simp only [Event.owning_state_test, Event.in_owning_state,
      timeout_in_owning_state, decide_eq_true_eq]
    split <;> simp)

/-- The test of `run_in_owning_state`, computed. -/
def run_owning_state_test (cfg : Config) : App → List Event → Bool
  | _, [] => true
  | app, e :: es =>
    e.owning_state_test app &&
    match step cfg app e with
    | none => true
    | some app1 => run_owning_state_test cfg app1 es

instance (cfg : Config) (app : App) (es : List Event) :
    Decidable (run_in_owning_state cfg app es) :=
  decidable_of_iff (run_owning_state_test cfg app es = true) (by
    induction es generalizing app with
    | nil => simp [run_owning_state_test, run_in_owning_state]
    | cons e rest ih =>
      have he : e.owning_state_test app = true ↔ e.in_owning_state app := by
        cases e <;> simp only [Event.owning_state_test, Event.in_owning_state,
          timeout_in_owning_state, decide_eq_true_eq]
        split <;> simp
      simp only [run_owning_state_test, run_in_owning_state, Bool.and_eq_true, he]
      cases hs : step cfg app e with
      | none => simp
      | some a => simp [ih a])

/-! # Theorems -/

/-! ## Enabling while enabled (C1) -/

/-- C1: in every state whose upstream state is Connecting, Waiting, Transmitting or
Overload, for every host, port, token and environment, the method call
`enableUpstream (true, ...)` answers `false` and changes nothing; and
`enable_tcp_upstream`, called with a source pipeline, as `handle_method_call` calls it
(its only caller, which tests `app->pipeline` first, line 381), returns FALSE and leaves
the whole program state unchanged, the upstream record, the subscriptions and the sink
with it. -/
theorem enable_tcp_upstream_already_enabled (app : App) (upstream_host : String)
    (upstream_port : Nat) (token : String) (env : EnableEnv) (pad_idle : Bool)
    (cenv : CreateEnv)
    (hs : app.tcp_upstream.state = UPSTREAM_STATE_CONNECTING ∨
          app.tcp_upstream.state = UPSTREAM_STATE_WAITING ∨
          app.tcp_upstream.state = UPSTREAM_STATE_TRANSMITTING ∨
          app.tcp_upstream.state = UPSTREAM_STATE_OVERLOAD) :
    (app.pipeline = true →
      enable_tcp_upstream app upstream_host upstream_port token env = some (false, app)) ∧
    handle_method_call app (MethodCall.enableUpstream true upstream_host upstream_port token)
      env pad_idle cenv = some (MethodReply.value (some false), app) := by
  have hd : app.tcp_upstream.state ≠ UPSTREAM_STATE_DISABLED := by
    rcases hs with h | h | h | h <;> simp [h]
  constructor
  · intro hp
    simp [enable_tcp_upstream, hp, hd]
  · simp [handle_method_call, hd]

/-- C1 at work on the sample Transmitting state, which has a pipeline. -/
theorem enable_tcp_upstream_already_enabled_witness :
    sample_transmitting.tcp_upstream.state = UPSTREAM_STATE_TRANSMITTING ∧
    sample_transmitting.pipeline = true ∧
    enable_tcp_upstream sample_transmitting "collector" 8554 "" sample_enable_env
      = some (false, sample_transmitting) ∧
    handle_method_call sample_transmitting
      (MethodCall.enableUpstream true "collector" 8554 "") sample_enable_env true
      sample_create_env = some (MethodReply.value (some false), sample_transmitting) :=
  ⟨by decide, by decide,
   (enable_tcp_upstream_already_enabled sample_transmitting "collector" 8554 ""
      sample_enable_env true sample_create_env (Or.inr (Or.inr (Or.inl (by decide))))).1
      (by decide),
   (enable_tcp_upstream_already_enabled sample_transmitting "collector" 8554 ""
      sample_enable_env true sample_create_env (Or.inr (Or.inr (Or.inl (by decide))))).2⟩

/-! ## Disabling (C2) -/

/-- With a sink, `disable_tcp_upstream` on an idle pad always ends in Disabled with the
bitrate probe handle cleared and the sink out of the pipeline. -/
theorem disable_tcp_upstream_idle (app : App)
    (hs : app.tcp_upstream.state ≠ UPSTREAM_STATE_DISABLED)
    (hk : app.tcp_upstream.tcpsink ≠ 0) :
    (disable_tcp_upstream app true).1 = true ∧
    (disable_tcp_upstream app true).2.tcp_upstream.state = UPSTREAM_STATE_DISABLED ∧
    (disable_tcp_upstream app true).2.tcp_upstream.id_bitrate_measure = 0 ∧
    (disable_tcp_upstream app true).2.sink_in_bin = false := by
  have h1 : app.tcp_upstream.state.toNat ≥ UPSTREAM_STATE_CONNECTING.toNat := by
    cases h : app.tcp_upstream.state <;> simp_all [upstreamState.toNat]
  unfold disable_tcp_upstream
  rw [if_pos h1]
  by_cases hb : app.tcp_upstream.id_bitrate_measure = 0
  · simp [hb, gst_pad_add_probe_idle, pad_probe_unlink_cb, hk, send_signal, App.set_t]
  · simp [hb, gst_pad_add_probe_idle, pad_probe_unlink_cb, hk, send_signal, App.set_t,
      gst_pad_remove_probe]

/-- C2, the code at the failing input.  The state `sample_pending` is reached from the
start by enable, overrun, underrun, overrun: Transmitting, with the set-waiting timer
(source 1) scheduled and the cancel probe (probe 2) installed.  `disable_tcp_upstream`
with its idle callback, run at once or when the pad becomes idle later, ends in Disabled
with `id_bitrate_measure = 0`, but `id_signal_waiting` and `id_resume` keep their
values and the timer stays scheduled; when it fires afterwards, `upstream_set_waiting`
moves the disabled upstream to Waiting. -/
theorem disable_tcp_upstream_leaves_timer :
    run sample_config (sample_start sample_config)
        [sample_enable, sample_overrun 1, sample_underrun 2, sample_overrun 3]
      = some sample_pending ∧
    (sample_pending.tcp_upstream.state, sample_pending.tcp_upstream.id_signal_waiting,
      sample_pending.tcp_upstream.id_resume, sample_pending.tcp_upstream.id_bitrate_measure,
      sample_pending.timeouts)
      = (UPSTREAM_STATE_TRANSMITTING, 1, 2, 1, [(1, GSourceFunc.upstream_set_waiting)]) ∧
    ((disable_tcp_upstream sample_pending true).2.tcp_upstream.state,
      (disable_tcp_upstream sample_pending true).2.tcp_upstream.id_signal_waiting,
      (disable_tcp_upstream sample_pending true).2.tcp_upstream.id_resume,
      (disable_tcp_upstream sample_pending true).2.tcp_upstream.id_bitrate_measure,
      (disable_tcp_upstream sample_pending true).2.timeouts)
      = (UPSTREAM_STATE_DISABLED, 1, 2, 0, [(1, GSourceFunc.upstream_set_waiting)]) ∧
    ((pad_becomes_idle (disable_tcp_upstream sample_pending false).2).tcp_upstream.state,
      (pad_becomes_idle (disable_tcp_upstream sample_pending false).2).tcp_upstream.id_signal_waiting,
      (pad_becomes_idle (disable_tcp_upstream sample_pending false).2).tcp_upstream.id_resume,
      (pad_becomes_idle (disable_tcp_upstream sample_pending false).2).tcp_upstream.id_bitrate_measure,
      (pad_becomes_idle (disable_tcp_upstream sample_pending false).2).timeouts)
      = (UPSTREAM_STATE_DISABLED, 1, 2, 0, [(1, GSourceFunc.upstream_set_waiting)]) ∧
    (dispatch_timeout (disable_tcp_upstream sample_pending true).2 1).tcp_upstream.state
      = UPSTREAM_STATE_WAITING := by
  refine ⟨by decide, by decide, by decide, by decide, by decide⟩

/-! ## The transition table (C3) -/

/-- C3, the code at the failing input.  From the start: enable, overrun (Connecting to
Waiting), underrun (to Transmitting), overrun (a set-waiting timer is armed), disable
(to Disabled; the timer stays scheduled), then the timer fires: `upstream_set_waiting`
takes the state from Disabled to Waiting, which is neither a self-loop nor a transition
of the table. -/
theorem stale_timer_leaves_table :
    trace sample_config (sample_start sample_config)
        [sample_enable, sample_overrun 1, sample_underrun 2, sample_overrun 3,
         sample_disable, Event.timeout 1]
      = some [UPSTREAM_STATE_DISABLED, UPSTREAM_STATE_CONNECTING, UPSTREAM_STATE_WAITING,
              UPSTREAM_STATE_TRANSMITTING, UPSTREAM_STATE_TRANSMITTING,
              UPSTREAM_STATE_DISABLED, UPSTREAM_STATE_WAITING] ∧
    allowed_step UPSTREAM_STATE_DISABLED UPSTREAM_STATE_WAITING = false ∧
    (trace sample_config (sample_start sample_config)
        [sample_enable, sample_overrun 1, sample_underrun 2, sample_overrun 3,
         sample_disable, Event.timeout 1]).map trace_allowed = some false := by
  decide

/-! ## Lemmas on `queue_overrun` -/

/-- `gst_set_framerate` touches nothing but the video source. -/
theorem gst_set_framerate_control (app : App) (value : Int) :
    (gst_set_framerate app value).2.control = app.control := by
  unfold gst_set_framerate
  repeat' split
  all_goals rfl

/-- `gst_set_resolution` touches nothing but the video source. -/
theorem gst_set_resolution_control (app : App) (width height : Int) :
    (gst_set_resolution app width height).2.control = app.control := by
  unfold gst_set_resolution
  repeat' split
  all_goals rfl

/-- `apply_source_properties` touches nothing but the source elements. -/
theorem apply_source_properties_control (app : App) :
    (apply_source_properties app).control = app.control := by
  have e1 : ∀ (a : App) (c : Prop) [Decidable c] (v : Int),
      (if c then (gst_set_framerate a v).2 else a).control = a.control := by
    intro a c _ v; split
    · exact gst_set_framerate_control a v
    · rfl
  have e2 : ∀ (a : App) (c : Prop) [Decidable c] (w h : Int),
      (if c then (gst_set_resolution a w h).2 else a).control = a.control := by
    intro a c _ w h; split
    · exact gst_set_resolution_control a w h
    · rfl
  unfold apply_source_properties
  simp only []
  split
  · rw [e2, e1]; repeat' split
    all_goals rfl
  · repeat' split
    all_goals rfl

/-- The auto-bitrate step touches nothing but the source elements and the cache. -/
theorem auto_overload_handling_control (app : App) (na : Int) :
    (auto_overload_handling app na).control = app.control := by
  unfold auto_overload_handling
  simp only []
  rw [apply_source_properties_control]
  rfl

/-- `queue_overrun` in Transmitting with a timer pending: the counter goes up by one, the
overrun handler is disconnected, nothing else changes (lines 657-665). -/
theorem queue_overrun_pending (cfg : Config) (app : App) (now : Nat) (na : Int)
    (hs : app.tcp_upstream.state = UPSTREAM_STATE_TRANSMITTING)
    (hid : app.tcp_upstream.id_signal_waiting ≠ 0) :
    queue_overrun cfg app now na =
      { app with
        tcp_upstream := { app.tcp_upstream with
          overrun_counter := app.tcp_upstream.overrun_counter + 1 },
        overrun_handlers := 0,
        rtsp_mutex := false,
        mutex_faults := if app.rtsp_mutex then app.mutex_faults + 1 else app.mutex_faults } := by
  simp [queue_overrun, g_mutex_lock, g_mutex_unlock, App.set_t, hs, hid]

/-- `queue_overrun` in Transmitting with no timer pending and the counter staying under
the threshold: a cancel probe and a set-waiting timer are armed (lines 689-702). -/
theorem queue_overrun_under_threshold (cfg : Config) (app : App) (now : Nat) (na : Int)
    (hs : app.tcp_upstream.state = UPSTREAM_STATE_TRANSMITTING)
    (hid : app.tcp_upstream.id_signal_waiting = 0)
    (hc : app.tcp_upstream.overrun_counter + 1 < cfg.MAX_OVERRUNS) :
    queue_overrun cfg app now na =
      { app with
        tcp_upstream := { app.tcp_upstream with
          overrun_counter :=
            if now > clock_add app.tcp_upstream.overrun_period cfg.OVERRUN_TIME then 0
            else app.tcp_upstream.overrun_counter + 1,
          overrun_period :=
            if now > clock_add app.tcp_upstream.overrun_period cfg.OVERRUN_TIME then now
            else app.tcp_upstream.overrun_period,
          id_resume := app.last_probe + 1,
          id_signal_waiting := app.last_source + 1 },
        probes := app.probes ++ [(app.last_probe + 1, GstPadProbeCallback.cancel_waiting_probe)],
        last_probe := app.last_probe + 1,
        timeouts := app.timeouts ++ [(app.last_source + 1, GSourceFunc.upstream_set_waiting)],
        last_source := app.last_source + 1,
        rtsp_mutex := false,
        mutex_faults := if app.rtsp_mutex then app.mutex_faults + 1 else app.mutex_faults } := by
  have hc' : ¬ (cfg.MAX_OVERRUNS ≤ app.tcp_upstream.overrun_counter + 1) := by omega
  simp [queue_overrun, g_mutex_lock, g_mutex_unlock, App.set_t, hs, hid, hc',
    gst_pad_add_probe, g_timeout_add_seconds]
  split <;> simp

/-- The auto-bitrate step leaves the upstream record alone. -/
theorem auto_overload_handling_tcp_upstream (app : App) (na : Int) :
    (auto_overload_handling app na).tcp_upstream = app.tcp_upstream := by
  have h := congrArg App.tcp_upstream (auto_overload_handling_control app na)
  exact h

/-- The auto-bitrate step schedules nothing. -/
theorem auto_overload_handling_timeouts (app : App) (na : Int) :
    (auto_overload_handling app na).timeouts = app.timeouts := by
  have h := congrArg App.timeouts (auto_overload_handling_control app na)
  exact h

/-- The auto-bitrate step hands out no source id. -/
theorem auto_overload_handling_last_source (app : App) (na : Int) :
    (auto_overload_handling app na).last_source = app.last_source := by
  have h := congrArg App.last_source (auto_overload_handling_control app na)
  exact h

/-- `queue_overrun` in Transmitting with no timer pending and the counter reaching the
threshold: the upstream record afterwards. -/
theorem queue_overrun_threshold (cfg : Config) (app : App) (now : Nat) (na : Int)
    (hs : app.tcp_upstream.state = UPSTREAM_STATE_TRANSMITTING)
    (hid : app.tcp_upstream.id_signal_waiting = 0)
    (hc : cfg.MAX_OVERRUNS ≤ app.tcp_upstream.overrun_counter + 1) :
    (queue_overrun cfg app now na).tcp_upstream =
      { app.tcp_upstream with
        state := UPSTREAM_STATE_OVERLOAD,
        overrun_counter :=
          if now > clock_add app.tcp_upstream.overrun_period cfg.OVERRUN_TIME then 0
          else app.tcp_upstream.overrun_counter + 1,
        overrun_period :=
          if now > clock_add app.tcp_upstream.overrun_period cfg.OVERRUN_TIME then now
          else app.tcp_upstream.overrun_period,
        id_signal_waiting :=
          if app.tcp_upstream.auto_bitrate then app.last_source + 1 else 0 } ∧
    (queue_overrun cfg app now na).timeouts =
      (if app.tcp_upstream.auto_bitrate then
        app.timeouts ++ [(app.last_source + 1, GSourceFunc.upstream_resume_transmitting)]
       else app.timeouts) := by
  cases ha : app.tcp_upstream.auto_bitrate <;>
    by_cases hw : now > clock_add app.tcp_upstream.overrun_period cfg.OVERRUN_TIME <;>
    simp [queue_overrun, g_mutex_lock, g_mutex_unlock, App.set_t, hs, hid, hc, ha, hw,
      send_signal, g_timeout_add_seconds, auto_overload_handling_tcp_upstream,
      auto_overload_handling_timeouts, auto_overload_handling_last_source]

/-! ## Overruns while Transmitting (C4, C5) -/

/-- `queue_overrun` outside Connecting, Transmitting and Overload only takes and releases
the mutex. -/
theorem queue_overrun_other (cfg : Config) (app : App) (now : Nat) (na : Int)
    (hs : app.tcp_upstream.state = UPSTREAM_STATE_WAITING ∨
          app.tcp_upstream.state = UPSTREAM_STATE_DISABLED) :
    (queue_overrun cfg app now na).tcp_upstream = app.tcp_upstream := by
  rcases hs with h | h <;> simp [queue_overrun, g_mutex_lock, g_mutex_unlock, h]

/-- `queue_overrun` in Overload only counts. -/
theorem queue_overrun_overload (cfg : Config) (app : App) (now : Nat) (na : Int)
    (hs : app.tcp_upstream.state = UPSTREAM_STATE_OVERLOAD) :
    queue_overrun cfg app now na =
      { app with
        tcp_upstream := { app.tcp_upstream with
          overrun_counter := app.tcp_upstream.overrun_counter + 1 },
        rtsp_mutex := false,
        mutex_faults := if app.rtsp_mutex then app.mutex_faults + 1 else app.mutex_faults } := by
  simp [queue_overrun, g_mutex_lock, g_mutex_unlock, App.set_t, hs]

/-- The upstream record after `upstream_set_waiting`. -/
theorem upstream_set_waiting_tcp_upstream (app : App) :
    (upstream_set_waiting app).tcp_upstream =
      { app.tcp_upstream with
        overrun_counter := 0, overrun_period := GST_CLOCK_TIME_NONE,
        state := UPSTREAM_STATE_WAITING, id_resume := 0, id_bitrate_measure := 0 } := by
  by_cases h1 : app.tcp_upstream.id_resume = 0 <;>
    by_cases h2 : app.tcp_upstream.id_bitrate_measure = 0 <;>
    simp [upstream_set_waiting, send_signal, App.set_t, gst_pad_remove_probe, h1, h2]

/-- The upstream record after `cancel_waiting_probe` on a buffer. -/
theorem cancel_waiting_probe_tcp_upstream (app : App) :
    (cancel_waiting_probe app true).2.tcp_upstream =
      { app.tcp_upstream with id_signal_waiting := 0, id_resume := 0 } := by
  by_cases h1 : app.tcp_upstream.id_signal_waiting = 0 <;>
    simp [cancel_waiting_probe, App.set_t, g_source_remove, h1]

/-- State and counter after `cancel_waiting_probe`, buffer or not. -/
theorem cancel_waiting_probe_state (app : App) (is_buffer : Bool) :
    (cancel_waiting_probe app is_buffer).2.tcp_upstream.state = app.tcp_upstream.state ∧
    (cancel_waiting_probe app is_buffer).2.tcp_upstream.overrun_counter
      = app.tcp_upstream.overrun_counter := by
  by_cases h1 : app.tcp_upstream.id_signal_waiting = 0 <;> cases is_buffer <;>
    simp [cancel_waiting_probe, App.set_t, g_source_remove, h1]

/-- State and counter after `queue_underrun`. -/
theorem queue_underrun_state (app : App) (sa sv : GstStateChangeReturn) (now1 now2 : Nat) :
    ((queue_underrun app sa sv now1 now2).tcp_upstream.state = UPSTREAM_STATE_TRANSMITTING ∨
     (queue_underrun app sa sv now1 now2).tcp_upstream.state = app.tcp_upstream.state) ∧
    (queue_underrun app sa sv now1 now2).tcp_upstream.overrun_counter
      = app.tcp_upstream.overrun_counter := by
  unfold queue_underrun
  split
  · by_cases h1 : app.tcp_upstream.id_bitrate_measure = 0 <;>
      by_cases h2 : app.tcp_upstream.overrun_period = GST_CLOCK_TIME_NONE <;>
      simp [send_signal, App.set_t, gst_pad_add_probe, h1, h2]
  · simp

/-- Below the threshold a call of `queue_overrun` never declares Overload: from
Transmitting or Waiting the state stays there and the counter grows by at most one. -/
theorem queue_overrun_no_overload (cfg : Config) (app : App) (now : Nat) (na : Int)
    (hs : app.tcp_upstream.state = UPSTREAM_STATE_TRANSMITTING ∨
          app.tcp_upstream.state = UPSTREAM_STATE_WAITING)
    (hc : app.tcp_upstream.overrun_counter + 1 < cfg.MAX_OVERRUNS) :
    ((queue_overrun cfg app now na).tcp_upstream.state = UPSTREAM_STATE_TRANSMITTING ∨
     (queue_overrun cfg app now na).tcp_upstream.state = UPSTREAM_STATE_WAITING) ∧
    (queue_overrun cfg app now na).tcp_upstream.overrun_counter
      ≤ app.tcp_upstream.overrun_counter + 1 := by
  rcases hs with h | h
  · by_cases hid : app.tcp_upstream.id_signal_waiting = 0
    · rw [queue_overrun_under_threshold cfg app now na h hid hc]
      simp [h]
      split <;> omega
    · rw [queue_overrun_pending cfg app now na h hid]
      simp [h]
  · rw [queue_overrun_other cfg app now na (Or.inl h)]
    simp [h]

/-- A sequence of callbacks with fewer calls of `queue_overrun` than the threshold leaves
from the counter never reaches Overload. -/
theorem apply_callbacks_no_overload (cfg : Config) (l : List FlowCallback) :
    ∀ app : App,
      (app.tcp_upstream.state = UPSTREAM_STATE_TRANSMITTING ∨
       app.tcp_upstream.state = UPSTREAM_STATE_WAITING) →
      app.tcp_upstream.overrun_counter + overrun_count l < cfg.MAX_OVERRUNS →
      ((apply_callbacks cfg app l).tcp_upstream.state = UPSTREAM_STATE_TRANSMITTING ∨
       (apply_callbacks cfg app l).tcp_upstream.state = UPSTREAM_STATE_WAITING) := by
  induction l with
  | nil => intro app hs _; exact hs
  | cons c rest ih =>
    intro app hs hc
    show ((apply_callbacks cfg (FlowCallback.apply cfg app c) rest).tcp_upstream.state = _ ∨ _)
    apply ih
    · cases c with
      | queue_overrun now na =>
        have hc' : app.tcp_upstream.overrun_counter + 1 < cfg.MAX_OVERRUNS := by
          simp [overrun_count, FlowCallback.is_overrun] at hc; omega
        exact (queue_overrun_no_overload cfg app now na hs hc').1
      | queue_underrun sa sv now1 now2 =>
        rcases (queue_underrun_state app sa sv now1 now2).1 with h | h
        · exact Or.inl h
        · simp only [FlowCallback.apply]; rw [h]; exact hs
      | upstream_set_waiting =>
        right; simp [FlowCallback.apply, upstream_set_waiting_tcp_upstream]
      | cancel_waiting_probe b =>
        simp only [FlowCallback.apply]; rw [(cancel_waiting_probe_state app b).1]; exact hs
    · cases c with
      | queue_overrun now na =>
        have hc1 : overrun_count (FlowCallback.queue_overrun now na :: rest)
            = overrun_count rest + 1 := by
          simp [overrun_count, FlowCallback.is_overrun]
        have hc' : app.tcp_upstream.overrun_counter + 1 < cfg.MAX_OVERRUNS := by omega
        have := (queue_overrun_no_overload cfg app now na hs hc').2
        simp only [FlowCallback.apply]
        omega
      | queue_underrun sa sv now1 now2 =>
        have hc1 : overrun_count (FlowCallback.queue_underrun sa sv now1 now2 :: rest)
            = overrun_count rest := by
          simp [overrun_count, FlowCallback.is_overrun]
        simp only [FlowCallback.apply]
        rw [(queue_underrun_state app sa sv now1 now2).2]; omega
      | upstream_set_waiting =>
        have hc1 : overrun_count (FlowCallback.upstream_set_waiting :: rest)
            = overrun_count rest := by
          simp [overrun_count, FlowCallback.is_overrun]
        simp only [FlowCallback.apply, upstream_set_waiting_tcp_upstream]
        omega
      | cancel_waiting_probe b =>
        have hc1 : overrun_count (FlowCallback.cancel_waiting_probe b :: rest)
            = overrun_count rest := by
          simp [overrun_count, FlowCallback.is_overrun]
        simp only [FlowCallback.apply]
        rw [(cancel_waiting_probe_state app b).2]; omega
/-- An overrun under the threshold and inside the window, followed by the cancel probe on
a buffer: still Transmitting, no timer pending, the counter one higher, the window start
unchanged. -/
theorem overrun_then_cancel (cfg : Config) (app : App) (now : Nat) (na : Int)
    (hs : app.tcp_upstream.state = UPSTREAM_STATE_TRANSMITTING)
    (hid : app.tcp_upstream.id_signal_waiting = 0)
    (hc : app.tcp_upstream.overrun_counter + 1 < cfg.MAX_OVERRUNS)
    (hw : ¬ now > clock_add app.tcp_upstream.overrun_period cfg.OVERRUN_TIME) :
    (queue_overrun cfg app now na).tcp_upstream.state = UPSTREAM_STATE_TRANSMITTING ∧
    (cancel_waiting_probe (queue_overrun cfg app now na) true).2.tcp_upstream =
      { app.tcp_upstream with
        overrun_counter := app.tcp_upstream.overrun_counter + 1,
        id_signal_waiting := 0, id_resume := 0 } := by
  rw [cancel_waiting_probe_tcp_upstream, queue_overrun_under_threshold cfg app now na hs hid hc]
  simp [hw, hs]

/-- C4, counterexample: `sample_transmitting` is Transmitting with `overrun_counter = 0`,
no timer pending and the window started at clock time 2; with `MAX_OVERRUNS = 3` and a
window of 15 s, three overruns at the clock times 3, 4 and 5 leave the state Transmitting
with the counter at 3: the first arms the set-waiting timer, the second and the third
find it pending and only count.  The same holds for three "overrun" signals of the
queue. -/
theorem three_overruns_without_overload :
    (sample_transmitting.tcp_upstream.state, sample_transmitting.tcp_upstream.overrun_counter,
      sample_transmitting.tcp_upstream.id_signal_waiting,
      sample_transmitting.tcp_upstream.overrun_period)
      = (UPSTREAM_STATE_TRANSMITTING, 0, 0, 2) ∧
    sample_config.MAX_OVERRUNS = 3 ∧
    ((apply_callbacks sample_config sample_transmitting
        [FlowCallback.queue_overrun 3 0, FlowCallback.queue_overrun 4 0,
         FlowCallback.queue_overrun 5 0]).tcp_upstream.state,
     (apply_callbacks sample_config sample_transmitting
        [FlowCallback.queue_overrun 3 0, FlowCallback.queue_overrun 4 0,
         FlowCallback.queue_overrun 5 0]).tcp_upstream.overrun_counter)
      = (UPSTREAM_STATE_TRANSMITTING, 3) ∧
    (run sample_config sample_transmitting
        [sample_overrun 3, sample_overrun 4, sample_overrun 5]).map
      (fun a => a.tcp_upstream.state) = some UPSTREAM_STATE_TRANSMITTING := by
  refine ⟨by decide, by decide, by decide, by decide⟩

/-- C4, amended: with `MAX_OVERRUNS = 3`, from a Transmitting state with
`overrun_counter = 0`:
(1) after any sequence of `queue_overrun`, `queue_underrun`, `upstream_set_waiting` and
`cancel_waiting_probe` calls with at most two calls of `queue_overrun`, the state is
Transmitting or Waiting, never Overload;
(2) a call of `queue_overrun` that finds a timer pending leaves the state Transmitting,
however high the counter;
(3) if no timer is pending at the start and the three overruns fall inside the window,
with the cancel probe taking the timer away after the first and after the second, then
the state is Transmitting after the first and the second overrun and Overload after
the third. -/
theorem third_overrun_declares_overload (cfg : Config) (app : App)
    (hmax : cfg.MAX_OVERRUNS = 3)
    (hs : app.tcp_upstream.state = UPSTREAM_STATE_TRANSMITTING)
    (hc : app.tcp_upstream.overrun_counter = 0) :
    (∀ l : List FlowCallback, overrun_count l ≤ 2 →
      ((apply_callbacks cfg app l).tcp_upstream.state = UPSTREAM_STATE_TRANSMITTING ∨
       (apply_callbacks cfg app l).tcp_upstream.state = UPSTREAM_STATE_WAITING)) ∧
    (∀ (app1 : App) (now : Nat) (na : Int),
      app1.tcp_upstream.state = UPSTREAM_STATE_TRANSMITTING →
      app1.tcp_upstream.id_signal_waiting ≠ 0 →
      (queue_overrun cfg app1 now na).tcp_upstream.state = UPSTREAM_STATE_TRANSMITTING) ∧
    (app.tcp_upstream.id_signal_waiting = 0 →
      ∀ (now1 now2 now3 : Nat) (na1 na2 na3 : Int),
      ¬ now1 > clock_add app.tcp_upstream.overrun_period cfg.OVERRUN_TIME →
      ¬ now2 > clock_add app.tcp_upstream.overrun_period cfg.OVERRUN_TIME →
      ¬ now3 > clock_add app.tcp_upstream.overrun_period cfg.OVERRUN_TIME →
      (apply_callbacks cfg app [FlowCallback.queue_overrun now1 na1]).tcp_upstream.state
        = UPSTREAM_STATE_TRANSMITTING ∧
      (apply_callbacks cfg app
        [FlowCallback.queue_overrun now1 na1, FlowCallback.cancel_waiting_probe true,
         FlowCallback.queue_overrun now2 na2]).tcp_upstream.state
        = UPSTREAM_STATE_TRANSMITTING ∧
      (apply_callbacks cfg app
        [FlowCallback.queue_overrun now1 na1, FlowCallback.cancel_waiting_probe true,
         FlowCallback.queue_overrun now2 na2, FlowCallback.cancel_waiting_probe true,
         FlowCallback.queue_overrun now3 na3]).tcp_upstream.state
        = UPSTREAM_STATE_OVERLOAD) := by
  refine ⟨?_, ?_, ?_⟩
  · intro l hl
    exact apply_callbacks_no_overload cfg l app (Or.inl hs) (by omega)
  · intro app1 now na h1 h2
    rw [queue_overrun_pending cfg app1 now na h1 h2]
    exact h1
  · intro hid now1 now2 now3 na1 na2 na3 hw1 hw2 hw3
    simp only [apply_callbacks, List.foldl_cons, List.foldl_nil, FlowCallback.apply]
    obtain ⟨s1a, s1b⟩ := overrun_then_cancel cfg app now1 na1 hs hid (by omega) hw1
    generalize (cancel_waiting_probe (queue_overrun cfg app now1 na1) true).2 = a1 at s1b ⊢
    have hs2 : a1.tcp_upstream.state = UPSTREAM_STATE_TRANSMITTING := by rw [s1b]; exact hs
    have hid2 : a1.tcp_upstream.id_signal_waiting = 0 := by rw [s1b]
    have hc2 : a1.tcp_upstream.overrun_counter = 1 := by rw [s1b]; simp [hc]
    have hp2 : a1.tcp_upstream.overrun_period = app.tcp_upstream.overrun_period := by
      rw [s1b]
    obtain ⟨s2a, s2b⟩ := overrun_then_cancel cfg a1 now2 na2 hs2 hid2 (by omega)
      (by rw [hp2]; exact hw2)
    generalize (cancel_waiting_probe (queue_overrun cfg a1 now2 na2) true).2 = a2 at s2b ⊢
    have hs3 : a2.tcp_upstream.state = UPSTREAM_STATE_TRANSMITTING := by rw [s2b]; exact hs2
    have hid3 : a2.tcp_upstream.id_signal_waiting = 0 := by rw [s2b]
    have hc3 : a2.tcp_upstream.overrun_counter = 2 := by rw [s2b]; simp [hc2]
    have s3 := (queue_overrun_threshold cfg a2 now3 na3 hs3 hid3 (by omega)).1
    refine ⟨s1a, s2a, ?_⟩
    rw [s3]

/-- C4, witness: the amended statement at `sample_transmitting` with `sample_config`. -/
theorem third_overrun_declares_overload_witness :
    (apply_callbacks sample_config sample_transmitting
        [FlowCallback.queue_overrun 3 0, FlowCallback.cancel_waiting_probe true,
         FlowCallback.queue_overrun 4 0, FlowCallback.cancel_waiting_probe true,
         FlowCallback.queue_overrun 5 0]).tcp_upstream.state
      = UPSTREAM_STATE_OVERLOAD :=
  ((third_overrun_declares_overload sample_config sample_transmitting (by decide) (by decide)
    (by decide)).2.2 (by decide) 3 4 5 0 0 0 (by decide) (by decide) (by decide)).2.2

/-- C5, counterexample, with `MAX_OVERRUNS = 3` and a window of 15 s.
(1) `sample_pending` is Transmitting with a timer pending, the counter at 1 and the
window started at clock time 2; an overrun at clock time 20 s, long after the window
has elapsed, declares no Overload and leaves the counter at 2 and the window start at 2:
nothing is reset.
(2) After two counted overruns inside the window (counter 2, no timer pending), an
overrun at clock time 20 s is counted with them: the counter reaches 3 and Overload is
declared. -/
theorem overrun_after_window_not_reset :
    (sample_pending.tcp_upstream.state, sample_pending.tcp_upstream.overrun_counter,
      sample_pending.tcp_upstream.overrun_period, sample_pending.tcp_upstream.id_signal_waiting)
      = (UPSTREAM_STATE_TRANSMITTING, 1, 2, 1) ∧
    2 + sample_config.OVERRUN_TIME < 20 * GST_SECOND ∧
    ((queue_overrun sample_config sample_pending (20 * GST_SECOND) 0).tcp_upstream.state,
      (queue_overrun sample_config sample_pending (20 * GST_SECOND) 0).tcp_upstream.overrun_counter,
      (queue_overrun sample_config sample_pending (20 * GST_SECOND) 0).tcp_upstream.overrun_period)
      = (UPSTREAM_STATE_TRANSMITTING, 2, 2) ∧
    ((apply_callbacks sample_config sample_transmitting
        [FlowCallback.queue_overrun 3 0, FlowCallback.cancel_waiting_probe true,
         FlowCallback.queue_overrun 4 0, FlowCallback.cancel_waiting_probe true]
        ).tcp_upstream.overrun_counter,
     (apply_callbacks sample_config sample_transmitting
        [FlowCallback.queue_overrun 3 0, FlowCallback.cancel_waiting_probe true,
         FlowCallback.queue_overrun 4 0, FlowCallback.cancel_waiting_probe true]
        ).tcp_upstream.overrun_period)
      = (2, 2) ∧
    (apply_callbacks sample_config sample_transmitting
        [FlowCallback.queue_overrun 3 0, FlowCallback.cancel_waiting_probe true,
         FlowCallback.queue_overrun 4 0, FlowCallback.cancel_waiting_probe true,
         FlowCallback.queue_overrun (20 * GST_SECOND) 0]).tcp_upstream.state
      = UPSTREAM_STATE_OVERLOAD := by
  refine ⟨by decide, by decide, by decide, by decide, by decide⟩

/-- C5, amended: in every Transmitting state with no timer pending, a call of
`queue_overrun` at a clock time `now` after the end of the window
(`now > overrun_period + OVERRUN_TIME`) ends with `overrun_counter = 0` and
`overrun_period = now`, whether or not it declares Overload; and an overrun of the queue
of an existing pipeline to which `queue_overrun` is connected exactly once is one such
call, so the event ends the same way. -/
theorem overrun_after_window_resets (cfg : Config) (app : App) (now : Nat) (na : Int)
    (hs : app.tcp_upstream.state = UPSTREAM_STATE_TRANSMITTING)
    (hid : app.tcp_upstream.id_signal_waiting = 0)
    (hn : now < 2 ^ 64)
    (hw : app.tcp_upstream.overrun_period + cfg.OVERRUN_TIME < now) :
    ((queue_overrun cfg app now na).tcp_upstream.overrun_counter = 0 ∧
     (queue_overrun cfg app now na).tcp_upstream.overrun_period = now) ∧
    (app.pipeline = true → app.overrun_handlers = 1 →
      ∃ app1, step cfg app (Event.overrun now na) = some app1 ∧
        app1 = queue_overrun cfg app now na ∧
        app1.tcp_upstream.overrun_counter = 0 ∧
        app1.tcp_upstream.overrun_period = now) := by
  have hw' : now > clock_add app.tcp_upstream.overrun_period cfg.OVERRUN_TIME := by
    unfold clock_add
    rw [Nat.mod_eq_of_lt (by omega)]
    exact hw
  have key : (queue_overrun cfg app now na).tcp_upstream.overrun_counter = 0 ∧
      (queue_overrun cfg app now na).tcp_upstream.overrun_period = now := by
    by_cases hc : app.tcp_upstream.overrun_counter + 1 < cfg.MAX_OVERRUNS
    · rw [queue_overrun_under_threshold cfg app now na hs hid hc]
      simp [hw']
    · rw [(queue_overrun_threshold cfg app now na hs hid (by omega)).1]
      simp [hw']
  refine ⟨key, fun hp hh => ⟨queue_overrun cfg app now na, ?_, rfl, key.1, key.2⟩⟩
  simp [step, hp, hh, emit_overrun]

/-- C5, witness: the amended statement at `sample_transmitting`, which has a pipeline and
`queue_overrun` connected once, for an overrun at 20 s. -/
theorem overrun_after_window_resets_witness :
    (sample_transmitting.pipeline = true ∧ sample_transmitting.overrun_handlers = 1) ∧
    ((queue_overrun sample_config sample_transmitting (20 * GST_SECOND) 0
      ).tcp_upstream.overrun_counter = 0 ∧
     (queue_overrun sample_config sample_transmitting (20 * GST_SECOND) 0
      ).tcp_upstream.overrun_period = 20 * GST_SECOND) ∧
    ∃ app1, step sample_config sample_transmitting (Event.overrun (20 * GST_SECOND) 0)
        = some app1 ∧
      app1 = queue_overrun sample_config sample_transmitting (20 * GST_SECOND) 0 ∧
      app1.tcp_upstream.overrun_counter = 0 ∧
      app1.tcp_upstream.overrun_period = 20 * GST_SECOND :=
  ⟨⟨by decide, by decide⟩,
   (overrun_after_window_resets sample_config sample_transmitting (20 * GST_SECOND) 0
      (by decide) (by decide) (by decide) (by decide)).1,
   (overrun_after_window_resets sample_config sample_transmitting (20 * GST_SECOND) 0
      (by decide) (by decide) (by decide) (by decide)).2 (by decide) (by decide)⟩

/-! ## Overload without auto-bitrate (C6) -/

/-- `queue_overrun` in Transmitting with no timer pending, the counter reaching the
threshold and auto-bitrate off: Overload is declared and nothing is armed. -/
theorem queue_overrun_threshold_manual (cfg : Config) (app : App) (now : Nat) (na : Int)
    (hs : app.tcp_upstream.state = UPSTREAM_STATE_TRANSMITTING)
    (hid : app.tcp_upstream.id_signal_waiting = 0)
    (hc : cfg.MAX_OVERRUNS ≤ app.tcp_upstream.overrun_counter + 1)
    (ha : app.tcp_upstream.auto_bitrate = false) :
    queue_overrun cfg app now na =
      { app with
        tcp_upstream := { app.tcp_upstream with
          state := UPSTREAM_STATE_OVERLOAD,
          overrun_counter :=
            if now > clock_add app.tcp_upstream.overrun_period cfg.OVERRUN_TIME then 0
            else app.tcp_upstream.overrun_counter + 1,
          overrun_period :=
            if now > clock_add app.tcp_upstream.overrun_period cfg.OVERRUN_TIME then now
            else app.tcp_upstream.overrun_period },
        signals := if app.dbus_connection then
                     app.signals ++ [("upstreamStateChanged", some 4)]
                   else app.signals,
        rtsp_mutex := false,
        mutex_faults := if app.rtsp_mutex then app.mutex_faults + 1 else app.mutex_faults } := by
  by_cases hw : now > clock_add app.tcp_upstream.overrun_period cfg.OVERRUN_TIME <;>
    simp [queue_overrun, g_mutex_lock, g_mutex_unlock, App.set_t, hs, hid, hc, ha, hw,
      send_signal, upstreamState.toNat]

/-- `get_source_properties` touches nothing but the cache. -/
theorem get_source_properties_control (app : App) :
    (get_source_properties app).control = app.control := rfl

/-- `gst_set_inputmode` touches nothing but the source elements. -/
theorem gst_set_inputmode_control (app : App) (input_mode ret1 ret2 : Int) :
    (gst_set_inputmode app input_mode ret1 ret2).2.control = app.control := by
  unfold gst_set_inputmode
  repeat' split
  all_goals rfl

/-- `gst_set_bitrate` touches nothing but the source elements and the cache. -/
theorem gst_set_bitrate_control (app : App) (source : SourceRef) (value checkvalue : Int) :
    (gst_set_bitrate app source value checkvalue).2.control = app.control := by
  unfold gst_set_bitrate
  cases source <;> repeat' split
  all_goals rfl

/-- Whether Overload is settled depends on the control state only. -/
theorem overload_settled_of_control (a b : App) (h : a.control = b.control)
    (hb : overload_settled b) : overload_settled a := by
  have h1 := congrArg App.tcp_upstream h
  have h2 := congrArg App.timeouts h
  have h3 := congrArg App.underrun_handlers h
  have h4 := congrArg App.probes h
  simp only [App.control] at h1 h2 h3 h4
  unfold overload_settled at *
  rw [h1, h2, h3, h4]
  exact hb

/-- Setting a property other than `autoBitrate` leaves the control state alone. -/
theorem handle_set_property_control (cfg : Config) (app : App) (property_name : String)
    (value : GVariant) (rb : ReadBack) (hn : property_name ≠ "autoBitrate") :
    (handle_set_property cfg app property_name value rb).2.control = app.control := by
  unfold handle_set_property
  by_cases h1 : property_name = "inputMode"
  · simp only [h1, if_true]
    split
    · split
      · exact gst_set_inputmode_control _ _ _ _
      · exact gst_set_inputmode_control _ _ _ _
    · rfl
  · by_cases h2 : property_name = "audioBitrate"
    · simp only [h1, h2, if_true, if_false]
      exact gst_set_bitrate_control _ _ _ _
    · by_cases h3 : property_name = "videoBitrate"
      · simp only [h1, h2, h3, if_true, if_false]
        exact gst_set_bitrate_control _ _ _ _
      · by_cases h4 : property_name = "framerate"
        · simp only [h1, h2, h3, h4, if_true, if_false]
          exact gst_set_framerate_control _ _
        · simp only [h1, h2, h3, h4, hn, if_false]

/-- A call of `queue_overrun` keeps a settled Overload settled. -/
theorem queue_overrun_settled (cfg : Config) (app : App) (now : Nat) (na : Int)
    (h : overload_settled app) : overload_settled (queue_overrun cfg app now na) := by
  rw [queue_overrun_overload cfg app now na h.1]
  exact ⟨h.1, h.2.1, h.2.2.1, h.2.2.2⟩

/-- The "overrun" signal keeps a settled Overload settled. -/
theorem emit_overrun_settled (cfg : Config) (now : Nat) (na : Int) (n : Nat) :
    ∀ app : App, overload_settled app → overload_settled (emit_overrun cfg now na n app) := by
  induction n with
  | zero => intro app h; exact h
  | succ k ih =>
    intro app h
    unfold emit_overrun
    split
    · exact h
    · exact ih _ (queue_overrun_settled cfg app now na h)

/-- One buffer probe keeps a settled Overload settled. -/
theorem run_buffer_probe_settled (cfg : Config) (size now : Nat) (app : App)
    (p : Nat × GstPadProbeCallback) (h : overload_settled app) :
    overload_settled (run_buffer_probe cfg size now app p) := by
  obtain ⟨h1, h2, h3, h4⟩ := h
  unfold run_buffer_probe
  split
  · split
    · refine ⟨?_, ?_, ?_, ?_⟩
      · simp [gst_pad_remove_probe, (cancel_waiting_probe_state app true).1, h1]
      · by_cases hid : app.tcp_upstream.id_signal_waiting = 0 <;>
          simp [gst_pad_remove_probe, cancel_waiting_probe, App.set_t, g_source_remove, hid, h2]
      · by_cases hid : app.tcp_upstream.id_signal_waiting = 0 <;>
          simp [gst_pad_remove_probe, cancel_waiting_probe, App.set_t, g_source_remove, hid, h3]
      · intro q hq
        apply h4
        by_cases hid : app.tcp_upstream.id_signal_waiting = 0 <;>
          simp [gst_pad_remove_probe, cancel_waiting_probe, App.set_t, g_source_remove, hid]
            at hq <;> exact hq.1
    · unfold bitrate_measure_probe
      simp only []
      split
      · exact ⟨by simp [send_signal, App.set_t, h1], by simp [send_signal, App.set_t, h2],
          by simp [send_signal, App.set_t, h3], by simpa [send_signal, App.set_t] using h4⟩
      · exact ⟨by simp [App.set_t, h1], by simp [App.set_t, h2],
          by simp [App.set_t, h3], by simpa [App.set_t] using h4⟩
    · refine ⟨by simp [gst_pad_remove_probe, inject_authorization, h1],
        by simp [gst_pad_remove_probe, inject_authorization, h2],
        by simp [gst_pad_remove_probe, inject_authorization, h3], ?_⟩
      intro q hq
      apply h4
      simp [gst_pad_remove_probe, inject_authorization] at hq
      exact hq.1
    · exact ⟨h1, h2, h3, h4⟩
  · exact ⟨h1, h2, h3, h4⟩

/-- A buffer passing the sink pad keeps a settled Overload settled. -/
theorem pad_push_settled (cfg : Config) (size now : Nat) (l : List (Nat × GstPadProbeCallback)) :
    ∀ app : App, overload_settled app →
      overload_settled (l.foldl (run_buffer_probe cfg size now) app) := by
  induction l with
  | nil => intro app h; exact h
  | cons p rest ih =>
    intro app h
    exact ih _ (run_buffer_probe_settled cfg size now app p h)

/-- An event that neither sets `autoBitrate` nor disables the upstream keeps a settled
Overload settled, and does not abort. -/
theorem step_settled (cfg : Config) (app : App) (e : Event)
    (h : overload_settled app)
    (h1 : e.is_autoBitrate_set = false) (h2 : e.is_disable = false) :
    ∃ app1, step cfg app e = some app1 ∧ overload_settled app1 := by
  have hO := h.1
  cases e with
  | method_call call eenv pad_idle cenv =>
    cases call with
    | enableUpstream state host port token =>
      cases state with
      | false => simp [Event.is_disable] at h2
      | true =>
        refine ⟨app, ?_, h⟩
        simp [step, handle_method_call, hO]
    | setResolution w hgt =>
      refine ⟨(gst_set_resolution app w hgt).2, ?_, ?_⟩
      · simp only [step, handle_method_call]
        split <;> rfl
      · exact overload_settled_of_control _ _ (gst_set_resolution_control app w hgt) h
    | unknown name => exact ⟨app, rfl, h⟩
  | set_property name value rb =>
    refine ⟨_, rfl, ?_⟩
    have hn : name ≠ "autoBitrate" := by simpa [Event.is_autoBitrate_set] using h1
    exact overload_settled_of_control _ _ (handle_set_property_control cfg app name value rb hn) h
  | overrun now na =>
    refine ⟨_, rfl, ?_⟩
    split
    · exact emit_overrun_settled cfg now na _ app h
    · exact h
  | underrun sa sv now1 now2 =>
    refine ⟨app, ?_, h⟩
    simp [step, h.2.2.1, emit_underrun]
  | timeout id =>
    refine ⟨app, ?_, h⟩
    simp [step, dispatch_timeout, h.2.1]
  | buffer size now =>
    refine ⟨_, rfl, ?_⟩
    split
    · exact pad_push_settled cfg size now _ app h
    · exact h
  | idle =>
    refine ⟨app, ?_, h⟩
    have hf : app.probes.find? (fun p => p.2 = GstPadProbeCallback.pad_probe_unlink_cb) = none := by
      rw [List.find?_eq_none]
      intro p hp
      simpa using h.2.2.2 p hp
    simp [step, pad_becomes_idle, hf]
  | message m pad_idle cenv =>
    have hl : overload_settled (g_mutex_unlock (g_mutex_lock app)) := h
    have hsig : overload_settled
        (g_mutex_unlock (send_signal (g_mutex_lock app) "sourceReady" none)) := h
    cases m with
    | state_changed from_pipeline old_state new_state =>
      simp only [step, message_cb]
      split
      · exact ⟨_, rfl, hl⟩
      · split
        · exact ⟨_, rfl, hsig⟩
        · exact ⟨_, rfl, hl⟩
    | error resource_domain code =>
      cases resource_domain with
      | false => exact ⟨_, rfl, hl⟩
      | true =>
        cases code with
        | GST_RESOURCE_ERROR_READ => simp [Event.is_disable] at h2
        | GST_RESOURCE_ERROR_WRITE => simp [Event.is_disable] at h2
        | other => exact ⟨_, rfl, hl⟩
    | warning => exact ⟨_, rfl, hl⟩
    | eos => exact ⟨_, rfl, hl⟩
    | other => exact ⟨_, rfl, hl⟩
  | name_acquired => exact ⟨_, rfl, h⟩
  | name_lost => exact ⟨_, rfl, h⟩

/-- A run of events that neither set `autoBitrate` nor disable the upstream keeps a
settled Overload settled, and does not abort. -/
theorem run_settled (cfg : Config) (es : List Event) :
    ∀ app : App, overload_settled app →
      (∀ e ∈ es, e.is_autoBitrate_set = false ∧ e.is_disable = false) →
      ∃ app1, run cfg app es = some app1 ∧ overload_settled app1 := by
  induction es with
  | nil => intro app h _; exact ⟨app, rfl, h⟩
  | cons e rest ih =>
    intro app h hes
    obtain ⟨a1, ha1, hs1⟩ := step_settled cfg app e h
      (hes e (List.mem_cons_self _ _)).1 (hes e (List.mem_cons_self _ _)).2
    obtain ⟨a2, ha2, hs2⟩ := ih a1 hs1 (fun e' he' => hes e' (List.mem_cons_of_mem _ he'))
    exact ⟨a2, by simp [run, ha1, ha2], hs2⟩

/-- C6, counterexample.
(1) `sample_overload_manual` is an Overload reached with auto-bitrate off, with nothing
scheduled; setting the property `autoBitrate` to false moves it to Transmitting
(`handle_set_property` calls `upstream_resume_transmitting` for either value).
(2) `sample_overload_leftover` is an Overload reached with auto-bitrate off in which no
timer was armed on entering (`id_signal_waiting = 0`) but the resume timer of an
earlier Overload is still scheduled; its expiry, an event that is neither a set of
`autoBitrate` nor a disable, moves the state to Transmitting. -/
theorem autoBitrate_false_resumes :
    overload_settled sample_overload_manual ∧
    sample_overload_manual.tcp_upstream.auto_bitrate = false ∧
    (step sample_config_manual sample_overload_manual
        (Event.set_property "autoBitrate" (GVariant.boolean false)
          { input_mode_audio := 0, input_mode_video := 0, bitrate := 0 })).map
      (fun a => a.tcp_upstream.state) = some UPSTREAM_STATE_TRANSMITTING ∧
    (sample_overload_leftover.tcp_upstream.state,
      sample_overload_leftover.tcp_upstream.auto_bitrate,
      sample_overload_leftover.tcp_upstream.id_signal_waiting,
      sample_overload_leftover.timeouts)
      = (UPSTREAM_STATE_OVERLOAD, false, 0,
          [(3, GSourceFunc.upstream_resume_transmitting)]) ∧
    (step sample_config sample_overload_leftover (Event.timeout 3)).map
      (fun a => a.tcp_upstream.state) = some UPSTREAM_STATE_TRANSMITTING := by
  refine ⟨by decide, by decide, by decide, by decide, by decide⟩

/-- C6, amended.
(1) Entering: in Transmitting with no timer pending and auto-bitrate off, the overrun
that reaches `MAX_OVERRUNS` declares Overload and arms nothing: the scheduled timeouts,
the probes, the handlers and `id_signal_waiting = 0` are as before.
(2) Every call of `queue_overrun` in Overload leaves the state Overload.
(3) From an Overload in which no timeout is scheduled, no underrun handler is connected
and no idle probe waits, every run of events that contains neither a set of the property
`autoBitrate` nor a disabling event (the method call `enableUpstream (false, ...)`, a
resource read or write error on the bus) ends in such an Overload again.
(4) Setting `autoBitrate` in Overload, to true or to false, moves the state to
Transmitting and stores the value. -/
theorem overload_stays_until_toggled (cfg : Config) :
    (∀ (app : App) (now : Nat) (na : Int),
      app.tcp_upstream.state = UPSTREAM_STATE_TRANSMITTING →
      app.tcp_upstream.id_signal_waiting = 0 →
      cfg.MAX_OVERRUNS ≤ app.tcp_upstream.overrun_counter + 1 →
      app.tcp_upstream.auto_bitrate = false →
      (queue_overrun cfg app now na).tcp_upstream.state = UPSTREAM_STATE_OVERLOAD ∧
      (queue_overrun cfg app now na).tcp_upstream.auto_bitrate = false ∧
      (queue_overrun cfg app now na).tcp_upstream.id_signal_waiting = 0 ∧
      (queue_overrun cfg app now na).timeouts = app.timeouts ∧
      (queue_overrun cfg app now na).last_source = app.last_source ∧
      (queue_overrun cfg app now na).probes = app.probes ∧
      (queue_overrun cfg app now na).overrun_handlers = app.overrun_handlers ∧
      (queue_overrun cfg app now na).underrun_handlers = app.underrun_handlers) ∧
    (∀ (app : App) (now : Nat) (na : Int),
      app.tcp_upstream.state = UPSTREAM_STATE_OVERLOAD →
      (queue_overrun cfg app now na).tcp_upstream.state = UPSTREAM_STATE_OVERLOAD) ∧
    (∀ (app : App) (es : List Event),
      overload_settled app →
      (∀ e ∈ es, e.is_autoBitrate_set = false ∧ e.is_disable = false) →
      ∃ app1, run cfg app es = some app1 ∧ overload_settled app1) ∧
    (∀ (app : App) (b : Bool) (rb : ReadBack),
      app.tcp_upstream.state = UPSTREAM_STATE_OVERLOAD →
      (handle_set_property cfg app "autoBitrate" (GVariant.boolean b) rb).1 = true ∧
      (handle_set_property cfg app "autoBitrate" (GVariant.boolean b) rb).2.tcp_upstream.state
        = UPSTREAM_STATE_TRANSMITTING ∧
      (handle_set_property cfg app "autoBitrate" (GVariant.boolean b)
        rb).2.tcp_upstream.auto_bitrate = b) := by
  refine ⟨?_, ?_, ?_, ?_⟩
  · intro app now na hs hid hc ha
    rw [queue_overrun_threshold_manual cfg app now na hs hid hc ha]
    simp [ha, hid]
  · intro app now na hs
    rw [queue_overrun_overload cfg app now na hs]
    exact hs
  · intro app es h hes
    exact run_settled cfg es app h hes
  · intro app b rb hs
    simp [handle_set_property, hs, upstream_resume_transmitting, send_signal, App.set_t,
      g_variant_get_boolean]

/-- C6, witness: from `sample_overload_manual`, overruns, an underrun, a timer tick, a
buffer, a set of another property, a second enable and a warning on the bus leave the
Overload settled. -/
theorem overload_stays_until_toggled_witness :
    ∃ app1,
      run sample_config_manual sample_overload_manual
        [sample_overrun 8, sample_underrun 9, Event.timeout 1, Event.buffer 188 10,
         Event.set_property "framerate" (GVariant.int32 30)
           { input_mode_audio := 0, input_mode_video := 0, bitrate := 0 },
         sample_enable, Event.message GstMessage.warning true sample_create_env,
         sample_overrun 11] = some app1 ∧
      overload_settled app1 :=
  (overload_stays_until_toggled sample_config_manual).2.2.1 sample_overload_manual _
    (by decide) (by decide)

/-! ## The bitrate monitor (C7) -/

/-- A value that fits a `gint` is stored as it is. -/
theorem as_gint32_of_lt (n : Nat) (h : n < 2 ^ 31) : as_gint32 (n : Int) = (n : Int) := by
  unfold as_gint32
  have h1 : ((n : Int) + 2 ^ 31) % 2 ^ 32 = (n : Int) + 2 ^ 31 := by
    apply Int.emod_eq_of_lt <;> omega
  rw [h1]
  omega

/-- Inside the averaging period the probe only adds the size of the buffer to the sum. -/
theorem bitrate_measure_probe_inside (cfg : Config) (app : App) (size now : Nat)
    (h : ¬ now > clock_add app.tcp_upstream.measure_start cfg.BITRATE_AVG_PERIOD) :
    (bitrate_measure_probe cfg app (some size) now).2 =
      { app with tcp_upstream := { app.tcp_upstream with
          bitrate_sum := (app.tcp_upstream.bitrate_sum + size) % 2 ^ 64 } } := by
  simp [bitrate_measure_probe, App.set_t, h]

/-- Buffers that all arrive inside the averaging period add up in the sum. -/
theorem feed_buffers_inside (cfg : Config) (size : Nat) (times : List Nat) :
    ∀ app : App,
      app.tcp_upstream.bitrate_sum < 2 ^ 64 →
      (∀ now ∈ times, ¬ now > clock_add app.tcp_upstream.measure_start cfg.BITRATE_AVG_PERIOD) →
      feed_buffers cfg app size times =
        { app with tcp_upstream := { app.tcp_upstream with
            bitrate_sum := (app.tcp_upstream.bitrate_sum + times.length * size) % 2 ^ 64 } } := by
  induction times with
  | nil =>
    intro app hlt _
    simp only [feed_buffers, List.foldl_nil, List.length_nil, Nat.zero_mul, Nat.add_zero]
    rw [Nat.mod_eq_of_lt hlt]
  | cons now rest ih =>
    intro app hlt h
    have h0 := h now (List.mem_cons_self _ _)
    have h1 := bitrate_measure_probe_inside cfg app size now h0
    have key := ih (bitrate_measure_probe cfg app (some size) now).2
      (by rw [h1]; exact Nat.mod_lt _ (by norm_num))
      (by rw [h1]; exact fun t ht => h t (List.mem_cons_of_mem _ ht))
    show feed_buffers cfg (bitrate_measure_probe cfg app (some size) now).2 size rest = _
    rw [key, h1]
    have e : ((app.tcp_upstream.bitrate_sum + size) % 2 ^ 64 + rest.length * size) % 2 ^ 64 =
        (app.tcp_upstream.bitrate_sum + (rest.length + 1) * size) % 2 ^ 64 := by
      rw [Nat.mod_add_mod]
      congr 1
      ring
    simp only [List.length_cons]
    rw [e]

/-- The buffer that closes the averaging period: the bitrate is computed from the sum
with this buffer in it, signalled, and taken into the average; sum and start are
reset. -/
theorem bitrate_measure_probe_closing (cfg : Config) (app : App) (size now : Nat)
    (h : now > clock_add app.tcp_upstream.measure_start cfg.BITRATE_AVG_PERIOD) :
    (bitrate_measure_probe cfg app (some size) now).2.signals =
      (if app.dbus_connection then
        app.signals ++ [("tcpBitrate",
          some (as_gint32 (((app.tcp_upstream.bitrate_sum + size) % 2 ^ 64 * 8 % 2 ^ 64 /
            GST_TIME_AS_MSECONDS cfg.BITRATE_AVG_PERIOD : Nat) : Int)))]
       else app.signals) ∧
    (bitrate_measure_probe cfg app (some size) now).2.tcp_upstream =
      { app.tcp_upstream with
        bitrate_avg :=
          if app.tcp_upstream.bitrate_avg ≠ 0 then
            Int.tdiv (as_gint32 (app.tcp_upstream.bitrate_avg +
              as_gint32 (((app.tcp_upstream.bitrate_sum + size) % 2 ^ 64 * 8 % 2 ^ 64 /
                GST_TIME_AS_MSECONDS cfg.BITRATE_AVG_PERIOD : Nat) : Int))) 2
          else as_gint32 (((app.tcp_upstream.bitrate_sum + size) % 2 ^ 64 * 8 % 2 ^ 64 /
            GST_TIME_AS_MSECONDS cfg.BITRATE_AVG_PERIOD : Nat) : Int),
        bitrate_sum := 0,
        measure_start := now } := by
  by_cases hav : app.tcp_upstream.bitrate_avg = 0 <;>
    by_cases hd : app.dbus_connection = true <;>
    simp [bitrate_measure_probe, App.set_t, send_signal, h, hav, hd]

/-- C7, counterexample: with an averaging period of 2 s and the measurement started at
clock time 0, one buffer of 1000 bytes arriving at 4 s closes the period; 4000 ms have
elapsed since `measure_start`, so the claim asks for 1 * 1000 * 8 / 4000 = 2, but the
probe emits 1 * 1000 * 8 / 2000 = 4: it divides by the fixed period. -/
theorem bitrate_not_over_elapsed_time :
    sample_config.BITRATE_AVG_PERIOD = 2 * GST_SECOND ∧
    (sample_measuring.tcp_upstream.measure_start, sample_measuring.tcp_upstream.bitrate_sum,
      sample_measuring.signals) = (0, 0, []) ∧
    GST_TIME_AS_MSECONDS (4 * GST_SECOND - sample_measuring.tcp_upstream.measure_start) = 4000 ∧
    1 * 1000 * 8 / 4000 = 2 ∧
    (bitrate_measure_probe sample_config sample_measuring (some 1000) (4 * GST_SECOND)).2.signals
      = [("tcpBitrate", some 4)] := by
  refine ⟨by decide, by decide, by decide, by decide, by decide⟩

/-- C7, amended: with a period of at least one millisecond, when the probe has been fed
`N` buffers of `S` bytes each, the first `N - 1` inside the averaging period that started
with `bitrate_sum = 0` at `measure_start` and the last at a clock time `now` after its
end, the bitrate it emits is `N * S * 8 / P` with truncating division, where `P` is the
fixed period `BITRATE_AVG_PERIOD` in milliseconds (not the time elapsed), held in the C
types: the product is taken modulo 2^64 and the quotient is stored in 32 bits, signed.
The average becomes that bitrate, or its mean with the previous average if there was
one; afterwards `bitrate_sum = 0` and `measure_start = now`.  When `N * S * 8` is below
2^64 and the quotient below 2^31 the bitrate emitted is exactly `N * S * 8 / P`. -/
theorem bitrate_over_fixed_period (cfg : Config) (app : App) (S : Nat) (times : List Nat)
    (now : Nat)
    (hms : 1000000 ≤ cfg.BITRATE_AVG_PERIOD)
    (hsum : app.tcp_upstream.bitrate_sum = 0)
    (hin : ∀ t ∈ times, ¬ t > clock_add app.tcp_upstream.measure_start cfg.BITRATE_AVG_PERIOD)
    (hout : now > clock_add app.tcp_upstream.measure_start cfg.BITRATE_AVG_PERIOD) :
    0 < GST_TIME_AS_MSECONDS cfg.BITRATE_AVG_PERIOD ∧
    (bitrate_measure_probe cfg (feed_buffers cfg app S times) (some S) now).2.signals =
      (if app.dbus_connection then
        app.signals ++ [("tcpBitrate",
          some (as_gint32 (((times.length + 1) * S * 8 % 2 ^ 64 /
            GST_TIME_AS_MSECONDS cfg.BITRATE_AVG_PERIOD : Nat) : Int)))]
       else app.signals) ∧
    (bitrate_measure_probe cfg (feed_buffers cfg app S times) (some S) now).2.tcp_upstream =
      { app.tcp_upstream with
        bitrate_avg :=
          if app.tcp_upstream.bitrate_avg ≠ 0 then
            Int.tdiv (as_gint32 (app.tcp_upstream.bitrate_avg +
              as_gint32 (((times.length + 1) * S * 8 % 2 ^ 64 /
                GST_TIME_AS_MSECONDS cfg.BITRATE_AVG_PERIOD : Nat) : Int))) 2
          else as_gint32 (((times.length + 1) * S * 8 % 2 ^ 64 /
            GST_TIME_AS_MSECONDS cfg.BITRATE_AVG_PERIOD : Nat) : Int),
        bitrate_sum := 0,
        measure_start := now } ∧
    ((times.length + 1) * S * 8 < 2 ^ 64 →
      (times.length + 1) * S * 8 / GST_TIME_AS_MSECONDS cfg.BITRATE_AVG_PERIOD < 2 ^ 31 →
      as_gint32 (((times.length + 1) * S * 8 % 2 ^ 64 /
          GST_TIME_AS_MSECONDS cfg.BITRATE_AVG_PERIOD : Nat) : Int) =
        (((times.length + 1) * S * 8 / GST_TIME_AS_MSECONDS cfg.BITRATE_AVG_PERIOD : Nat)
          : Int)) := by
  have hpos : 0 < GST_TIME_AS_MSECONDS cfg.BITRATE_AVG_PERIOD := by
    unfold GST_TIME_AS_MSECONDS
    omega
  have hfed := feed_buffers_inside cfg S times app (by rw [hsum]; norm_num) hin
  have e : ((app.tcp_upstream.bitrate_sum + times.length * S) % 2 ^ 64 + S) % 2 ^ 64 * 8
      % 2 ^ 64 = (times.length + 1) * S * 8 % 2 ^ 64 := by
    rw [hsum, Nat.mod_add_mod, Nat.mod_mul_mod]
    congr 1
    ring
  have hc := bitrate_measure_probe_closing cfg (feed_buffers cfg app S times) S now
    (by rw [hfed]; exact hout)
  rw [hfed] at hc
  dsimp only at hc
  rw [e] at hc
  rw [hfed]
  refine ⟨hpos, hc.1, hc.2, ?_⟩
  intro hb hq
  rw [Nat.mod_eq_of_lt hb]
  exact as_gint32_of_lt _ hq

/-- C7, witness: three buffers of 1000 bytes, two inside the period of 2 s and the third
at 2.5 s, give 3 * 1000 * 8 / 2000 = 12. -/
theorem bitrate_over_fixed_period_witness :
    (bitrate_measure_probe sample_config
        (feed_buffers sample_config sample_measuring 1000 [GST_SECOND, 2 * GST_SECOND])
        (some 1000) (2 * GST_SECOND + GST_SECOND / 2)).2.signals
      = [("tcpBitrate", some 12)] := by
  have h := (bitrate_over_fixed_period sample_config sample_measuring 1000
    [GST_SECOND, 2 * GST_SECOND] (2 * GST_SECOND + GST_SECOND / 2)
    (by decide) (by decide) (by decide) (by decide)).2.1
  rw [h]
  decide

/-! ## The capability description of the encoder (C8, C9) -/

/-- After a field was set, looking it up gives the new value. -/
theorem lookup_set_field_same (l : List (String × GValue)) (k : String) (v : GValue) :
    (set_field l k v).lookup k = some v := by
  induction l with
  | nil => simp [set_field, List.lookup]
  | cons kv rest ih =>
    obtain ⟨k', v'⟩ := kv
    by_cases h : k' = k
    · simp [set_field, h, List.lookup]
    · have h' : (k == k') = false := by simpa using fun e => h e.symm
      simp [set_field, h, List.lookup, h', ih]

/-- Setting a field does not change what the other fields hold. -/
theorem lookup_set_field_other (l : List (String × GValue)) (k k' : String) (v : GValue)
    (hk : k' ≠ k) : (set_field l k v).lookup k' = l.lookup k' := by
  induction l with
  | nil =>
    have h' : (k' == k) = false := by simpa using hk
    simp [set_field, List.lookup, h']
  | cons kv rest ih =>
    obtain ⟨k1, v1⟩ := kv
    by_cases h : k1 = k
    · subst h
      have h' : (k' == k1) = false := by simpa using hk
      simp [set_field, List.lookup, h']
    · simp only [set_field, h, if_false, List.lookup]
      rw [ih]

/-- C8, counterexample: on caps of one structure with width 1280, height 720 and
framerate 25/1, `gst_set_resolution (0, 0)` succeeds and the caps still hold width 1280
and height 720; `gst_set_resolution (1920, 0)` leaves both as they were as well; and
after `gst_set_framerate (0)` the framerate is still 25.  Nothing is cleared. -/
theorem set_resolution_zero_clears_nothing :
    (gst_set_resolution (sample_with_caps sample_caps) 0 0).1 = true ∧
    gst_get_capsprop (gst_set_resolution (sample_with_caps sample_caps) 0 0).2
      (gst_set_resolution (sample_with_caps sample_caps) 0 0).2.vsrc "width" = some 1280 ∧
    gst_get_capsprop (gst_set_resolution (sample_with_caps sample_caps) 0 0).2
      (gst_set_resolution (sample_with_caps sample_caps) 0 0).2.vsrc "height" = some 720 ∧
    gst_get_capsprop (gst_set_resolution (sample_with_caps sample_caps) 1920 0).2
      (gst_set_resolution (sample_with_caps sample_caps) 1920 0).2.vsrc "width" = some 1280 ∧
    gst_get_capsprop (gst_set_resolution (sample_with_caps sample_caps) 1920 0).2
      (gst_set_resolution (sample_with_caps sample_caps) 1920 0).2.vsrc "height" = some 720 ∧
    (gst_set_framerate (sample_with_caps sample_caps) 0).1 = true ∧
    gst_get_capsprop (gst_set_framerate (sample_with_caps sample_caps) 0).2
      (gst_set_framerate (sample_with_caps sample_caps) 0).2.vsrc "framerate" = some 25 := by
  refine ⟨by decide, by decide, by decide, by decide, by decide, by decide, by decide⟩

/-- C8, amended: for every state with a pipeline whose video source has caps with at
least one structure, `gst_set_resolution` with a 0 for either dimension returns success
and rewrites no field: the first structure is taken out and put back unchanged at the
end of the caps, so width and height keep the values they had, and everything else in
the program state is unchanged; `gst_set_framerate (0)` does the same and leaves the
framerate as it was.  With caps of one structure the program state does not change at
all. -/
theorem set_resolution_zero_keeps (app : App) (v : GstElement) (s : GstStructure)
    (rest : GstCaps) (width height : Int)
    (hp : app.pipeline = true) (hv : app.vsrc = some v) (hc : v.caps = some (s :: rest))
    (hz : width = 0 ∨ height = 0) :
    gst_set_resolution app width height
      = (true, { app with vsrc := some { v with caps := some (rest ++ [s]) } }) ∧
    gst_set_framerate app 0
      = (true, { app with vsrc := some { v with caps := some (rest ++ [s]) } }) ∧
    (rest = [] → gst_set_resolution app width height = (true, app) ∧
                 gst_set_framerate app 0 = (true, app)) := by
  have hz' : ¬ (width ≠ 0 ∧ height ≠ 0) := by
    rcases hz with h | h <;> simp [h]
  have e1 : gst_set_resolution app width height
      = (true, { app with vsrc := some { v with caps := some (rest ++ [s]) } }) := by
    simp [gst_set_resolution, hp, hv, hc, gst_caps_steal_structure, gst_caps_append_structure,
      hz']
  have e2 : gst_set_framerate app 0
      = (true, { app with vsrc := some { v with caps := some (rest ++ [s]) } }) := by
    simp [gst_set_framerate, hp, hv, hc, gst_caps_steal_structure, gst_caps_append_structure]
  refine ⟨e1, e2, ?_⟩
  intro hr
  subst hr
  have e3 : ({ app with vsrc := some { v with caps := some ([] ++ [s]) } } : App) = app := by
    cases app; cases v; simp_all
  rw [e1, e2, e3]
  exact ⟨rfl, rfl⟩

/-- C8, witness: the amended statement at the sample caps, for `(0, 0)`. -/
theorem set_resolution_zero_keeps_witness :
    gst_set_resolution (sample_with_caps sample_caps) 0 0
      = (true, sample_with_caps sample_caps) :=
  ((set_resolution_zero_keeps (sample_with_caps sample_caps)
    { bitrate := 2048, input_mode := 0, caps := some sample_caps }
    { name := "video/x-h264",
      fields := [("width", GValue.int 1280), ("height", GValue.int 720),
                 ("framerate", GValue.fraction 25 1)] }
    [] 0 0 (by decide) (by decide) (by decide) (Or.inl rfl)).2.2 rfl).1

/-- C9, counterexample.
(1) On caps of two structures, 1280x720 first and 640x480 second,
`gst_set_resolution (1920, 1080)` succeeds; it writes the new size into the first
structure and moves that structure behind the second, and `gst_get_capsprop` reads the
structure that is now first: it returns 640 and 480.
(2) On caps of one structure, after `gst_set_resolution (-1, -1)` the width reads back
as 4294967295: the `gint` is read through a `guint32 *`. -/
theorem set_resolution_round_trip_fails :
    (gst_set_resolution (sample_with_caps sample_caps_two) 1920 1080).1 = true ∧
    gst_get_capsprop (gst_set_resolution (sample_with_caps sample_caps_two) 1920 1080).2
      (gst_set_resolution (sample_with_caps sample_caps_two) 1920 1080).2.vsrc "width"
      = some 640 ∧
    gst_get_capsprop (gst_set_resolution (sample_with_caps sample_caps_two) 1920 1080).2
      (gst_set_resolution (sample_with_caps sample_caps_two) 1920 1080).2.vsrc "height"
      = some 480 ∧
    (gst_set_resolution (sample_with_caps sample_caps) (-1) (-1)).1 = true ∧
    gst_get_capsprop (gst_set_resolution (sample_with_caps sample_caps) (-1) (-1)).2
      (gst_set_resolution (sample_with_caps sample_caps) (-1) (-1)).2.vsrc "width"
      = some 4294967295 := by
  refine ⟨by decide, by decide, by decide, by decide, by decide⟩

/-- C9, amended: for every state with a pipeline whose video source has caps of exactly
one structure, and every width and height other than 0, `gst_set_resolution` succeeds,
and afterwards `gst_get_capsprop` succeeds for "width" and for "height" and returns the
width and the height as unsigned 32-bit numbers (the numbers themselves when they are
not negative); the caps are again one structure of the same name in which every field
other than width and height holds what it held; nothing but the video source changes in
the program state. -/
theorem set_resolution_round_trip (app : App) (v : GstElement) (s : GstStructure)
    (width height : Int)
    (hp : app.pipeline = true) (hv : app.vsrc = some v) (hc : v.caps = some [s])
    (hw : width ≠ 0) (hh : height ≠ 0) :
    (gst_set_resolution app width height).1 = true ∧
    gst_get_capsprop (gst_set_resolution app width height).2
      (gst_set_resolution app width height).2.vsrc "width" = some (as_guint32 width) ∧
    gst_get_capsprop (gst_set_resolution app width height).2
      (gst_set_resolution app width height).2.vsrc "height" = some (as_guint32 height) ∧
    (0 ≤ width → width < 2 ^ 32 → (as_guint32 width : Int) = width) ∧
    (0 ≤ height → height < 2 ^ 32 → (as_guint32 height : Int) = height) ∧
    (∃ s1 : GstStructure,
      (gst_set_resolution app width height).2
        = { app with vsrc := some { v with caps := some [s1] } } ∧
      s1.name = s.name ∧
      ∀ k : String, k ≠ "width" → k ≠ "height" →
        gst_structure_get_value s1 k = gst_structure_get_value s k) := by
  obtain ⟨s2, hs2⟩ : ∃ s2, s2 = gst_structure_set
      (gst_structure_set s "width" (GValue.int width)) "height" (GValue.int height) := ⟨_, rfl⟩
  have e : gst_set_resolution app width height
      = (true, { app with vsrc := some { v with caps := some [s2] } }) := by
    simp [gst_set_resolution, hp, hv, hc, gst_caps_steal_structure, gst_caps_append_structure,
      hw, hh, hs2]
  have hwh : ("width" : String) ≠ "height" := by decide
  have l1 : gst_structure_get_value s2 "width" = some (GValue.int width) := by
    rw [hs2]
    simp only [gst_structure_get_value, gst_structure_set]
    rw [lookup_set_field_other _ _ _ _ hwh, lookup_set_field_same]
  have l2 : gst_structure_get_value s2 "height" = some (GValue.int height) := by
    rw [hs2]
    simp only [gst_structure_get_value, gst_structure_set]
    rw [lookup_set_field_same]
  have conv : ∀ x : Int, 0 ≤ x → x < 2 ^ 32 → (as_guint32 x : Int) = x := by
    intro x h0 h1
    unfold as_guint32
    rw [Int.emod_eq_of_lt h0 h1]
    exact Int.toNat_of_nonneg h0
  rw [e]
  refine ⟨rfl, ?_, ?_, conv width, conv height, ⟨s2, rfl, by rw [hs2]; rfl, ?_⟩⟩
  · simp [gst_get_capsprop, hp, l1]
  · simp [gst_get_capsprop, hp, l2]
  · intro k k1 k2
    rw [hs2]
    simp only [gst_structure_get_value, gst_structure_set]
    rw [lookup_set_field_other _ _ _ _ k2, lookup_set_field_other _ _ _ _ k1]

/-- C9, witness: 1920x1080 on the sample caps reads back as 1920 and 1080. -/
theorem set_resolution_round_trip_witness :
    gst_get_capsprop (gst_set_resolution (sample_with_caps sample_caps) 1920 1080).2
      (gst_set_resolution (sample_with_caps sample_caps) 1920 1080).2.vsrc "width"
      = some 1920 ∧
    gst_get_capsprop (gst_set_resolution (sample_with_caps sample_caps) 1920 1080).2
      (gst_set_resolution (sample_with_caps sample_caps) 1920 1080).2.vsrc "height"
      = some 1080 :=
  ⟨(set_resolution_round_trip (sample_with_caps sample_caps)
      { bitrate := 2048, input_mode := 0, caps := some sample_caps }
      { name := "video/x-h264",
        fields := [("width", GValue.int 1280), ("height", GValue.int 720),
                   ("framerate", GValue.fraction 25 1)] }
      1920 1080 (by decide) (by decide) (by decide) (by decide) (by decide)).2.1,
   (set_resolution_round_trip (sample_with_caps sample_caps)
      { bitrate := 2048, input_mode := 0, caps := some sample_caps }
      { name := "video/x-h264",
        fields := [("width", GValue.int 1280), ("height", GValue.int 720),
                   ("framerate", GValue.fraction 25 1)] }
      1920 1080 (by decide) (by decide) (by decide) (by decide) (by decide)).2.2.1⟩

/-! ## Failure while enabling (C10) -/

/-- C10, the code at the failing input.  From the start (Disabled, no handler connected
to the queue) an enable whose sink reports another port than the one requested, and an
enable whose sink fails to reach READY, both return FALSE in state Disabled with the
sink outside the pipeline and no probe installed, but `queue_overrun` stays connected to
the "overrun" signal of the queue: the subscription made at the start of the call (line
819) is not removed.  After the method call has failed this way, a method call that
succeeds connects `queue_overrun` a second time. -/
theorem failed_enable_keeps_overrun_handler :
    (sample_start sample_config).overrun_handlers = 0 ∧
    (enable_tcp_upstream (sample_start sample_config) "collector" 8554 ""
        { sample_enable_env with check_port := 0 }).map
      (fun r => (r.1, r.2.tcp_upstream.state, r.2.sink_in_bin, r.2.probes.length))
      = some (false, UPSTREAM_STATE_DISABLED, false, 0) ∧
    (enable_tcp_upstream (sample_start sample_config) "collector" 8554 ""
        { sample_enable_env with check_port := 0 }).map (fun r => r.2.overrun_handlers)
      = some 1 ∧
    (enable_tcp_upstream (sample_start sample_config) "collector" 8554 ""
        { sample_enable_env with sret_ready := GST_STATE_CHANGE_FAILURE }).map
      (fun r => (r.1, r.2.tcp_upstream.state, r.2.sink_in_bin, r.2.probes.length))
      = some (false, UPSTREAM_STATE_DISABLED, false, 0) ∧
    (enable_tcp_upstream (sample_start sample_config) "collector" 8554 ""
        { sample_enable_env with sret_ready := GST_STATE_CHANGE_FAILURE }).map
      (fun r => r.2.overrun_handlers)
      = some 1 ∧
    (run sample_config (sample_start sample_config)
        [Event.method_call (MethodCall.enableUpstream true "collector" 8554 "")
          { sample_enable_env with check_port := 0 } true sample_create_env]).map
      (fun a => (a.tcp_upstream.state, a.overrun_handlers))
      = some (UPSTREAM_STATE_DISABLED, 1) ∧
    (run sample_config (sample_start sample_config)
        [Event.method_call (MethodCall.enableUpstream true "collector" 8554 "")
          { sample_enable_env with check_port := 0 } true sample_create_env,
         sample_enable]).map
      (fun a => (a.tcp_upstream.state, a.overrun_handlers))
      = some (UPSTREAM_STATE_CONNECTING, 2) := by
  refine ⟨by decide, by decide, by decide, by decide, by decide, by decide, by decide⟩

/-- What a failed enable does and does not undo, for every call of `enable_tcp_upstream`
with a pipeline, from Disabled, in which the sink element could be made and either does
not read back the requested host or port or fails to reach READY: the call returns
FALSE, the upstream state on return is Disabled, the sink is not in the pipeline, no
probe is installed on it, the scheduled timers are those from before and the mutex is
released; but `queue_overrun` is connected once more than before the call. -/
theorem failed_enable_unwinds (app : App) (upstream_host : String) (upstream_port : Nat)
    (token : String) (env : EnableEnv)
    (hp : app.pipeline = true)
    (hs : app.tcp_upstream.state = UPSTREAM_STATE_DISABLED)
    (hk : env.tcpsink ≠ 0)
    (hf : upstream_host ≠ env.check_host ∨ upstream_port ≠ env.check_port ∨
          env.sret_ready = GST_STATE_CHANGE_FAILURE) :
    ∃ app1 : App,
      enable_tcp_upstream app upstream_host upstream_port token env = some (false, app1) ∧
      app1.tcp_upstream.state = UPSTREAM_STATE_DISABLED ∧
      app1.sink_in_bin = false ∧
      app1.probes = [] ∧
      app1.timeouts = app.timeouts ∧
      app1.rtsp_mutex = false ∧
      app1.underrun_handlers = app.underrun_handlers ∧
      app1.overrun_handlers = app.overrun_handlers + 1 := by
  have hfail : ∃ app1 : App,
      enable_tcp_upstream_fail (enable_tcp_upstream_setup app env.tcpsink) true
        = (false, app1) ∧
      app1.tcp_upstream.state = UPSTREAM_STATE_DISABLED ∧
      app1.sink_in_bin = false ∧
      app1.probes = [] ∧
      app1.timeouts = app.timeouts ∧
      app1.rtsp_mutex = false ∧
      app1.underrun_handlers = app.underrun_handlers ∧
      app1.overrun_handlers = app.overrun_handlers + 1 := by
    refine ⟨_, rfl, ?_⟩
    simp [disable_tcp_upstream, gst_pad_add_probe_idle, pad_probe_unlink_cb, hk,
      enable_tcp_upstream_setup, g_mutex_unlock, send_signal, App.set_t, g_mutex_lock,
      upstreamState.toNat]
  unfold enable_tcp_upstream
  simp only [hp, hs, hk, Bool.not_true, Bool.false_eq_true, if_false, if_true]
  split
  · obtain ⟨a, ha, hrest⟩ := hfail
    exact ⟨a, by rw [ha], hrest⟩
  · split
    · obtain ⟨a, ha, hrest⟩ := hfail
      exact ⟨a, by rw [ha], hrest⟩
    · have h3 : env.sret_ready = GST_STATE_CHANGE_FAILURE := by
        rcases hf with h | h | h
        · contradiction
        · contradiction
        · exact h
      rw [if_pos h3]
      refine ⟨_, rfl, ?_⟩
      simp [enable_tcp_upstream_not_ready, enable_tcp_upstream_setup, g_mutex_unlock,
        send_signal, App.set_t, g_mutex_lock]

/-! ## Steps that follow the table -/

/-- The state after one call of `queue_overrun`. -/
theorem queue_overrun_next_state (cfg : Config) (app : App) (now : Nat) (na : Int) :
    (queue_overrun cfg app now na).tcp_upstream.state = app.tcp_upstream.state ∨
    (app.tcp_upstream.state = UPSTREAM_STATE_CONNECTING ∧
      (queue_overrun cfg app now na).tcp_upstream.state = UPSTREAM_STATE_WAITING) ∨
    (app.tcp_upstream.state = UPSTREAM_STATE_TRANSMITTING ∧
      (queue_overrun cfg app now na).tcp_upstream.state = UPSTREAM_STATE_OVERLOAD) := by
  cases hs : app.tcp_upstream.state with
  | UPSTREAM_STATE_DISABLED =>
    left; rw [queue_overrun_other cfg app now na (Or.inr hs)]; exact hs
  | UPSTREAM_STATE_WAITING =>
    left; rw [queue_overrun_other cfg app now na (Or.inl hs)]; exact hs
  | UPSTREAM_STATE_OVERLOAD =>
    left; rw [queue_overrun_overload cfg app now na hs]; exact hs
  | UPSTREAM_STATE_CONNECTING =>
    right; left
    refine ⟨rfl, ?_⟩
    simp [queue_overrun, g_mutex_lock, g_mutex_unlock, hs, upstream_set_waiting_tcp_upstream]
  | UPSTREAM_STATE_TRANSMITTING =>
    by_cases hid : app.tcp_upstream.id_signal_waiting = 0
    · by_cases hc : app.tcp_upstream.overrun_counter + 1 < cfg.MAX_OVERRUNS
      · left; rw [queue_overrun_under_threshold cfg app now na hs hid hc]; exact hs
      · right; right
        refine ⟨rfl, ?_⟩
        rw [(queue_overrun_threshold cfg app now na hs hid (by omega)).1]
    · left; rw [queue_overrun_pending cfg app now na hs hid]; exact hs

/-- The "overrun" signal takes the state along the table. -/
theorem emit_overrun_allowed (cfg : Config) (now : Nat) (na : Int) (n : Nat) :
    ∀ app : App,
      allowed_step app.tcp_upstream.state
        (emit_overrun cfg now na n app).tcp_upstream.state = true ∧
      (app.tcp_upstream.state = UPSTREAM_STATE_CONNECTING →
        (emit_overrun cfg now na n app).tcp_upstream.state = UPSTREAM_STATE_CONNECTING ∨
        (emit_overrun cfg now na n app).tcp_upstream.state = UPSTREAM_STATE_WAITING) ∧
      (app.tcp_upstream.state = UPSTREAM_STATE_WAITING →
        (emit_overrun cfg now na n app).tcp_upstream.state = UPSTREAM_STATE_WAITING) ∧
      (app.tcp_upstream.state = UPSTREAM_STATE_OVERLOAD →
        (emit_overrun cfg now na n app).tcp_upstream.state = UPSTREAM_STATE_OVERLOAD) := by
  induction n with
  | zero =>
    intro app
    refine ⟨?_, fun h => Or.inl h, fun h => h, fun h => h⟩
    simp [emit_overrun, allowed_step]
  | succ k ih =>
    intro app
    unfold emit_overrun
    split
    · refine ⟨?_, fun h => Or.inl h, fun h => h, fun h => h⟩
      simp [allowed_step]
    · obtain ⟨i1, i2, i3, i4⟩ := ih (queue_overrun cfg app now na)
      rcases queue_overrun_next_state cfg app now na with h | ⟨h0, h1⟩ | ⟨h0, h1⟩
      · rw [h] at i1 i2 i3 i4
        exact ⟨i1, i2, i3, i4⟩
      · have := i3 h1
        refine ⟨by rw [this, h0]; decide, fun _ => Or.inr this, ?_, ?_⟩
        · intro h; rw [h0] at h; cases h
        · intro h; rw [h0] at h; cases h
      · have := i4 h1
        refine ⟨by rw [this, h0]; decide, ?_, ?_, ?_⟩
        · intro h; rw [h0] at h; cases h
        · intro h; rw [h0] at h; cases h
        · intro h; rw [h0] at h; cases h

/-- The "underrun" signal leaves the state or takes it to Transmitting. -/
theorem emit_underrun_state (sa sv : GstStateChangeReturn) (now1 now2 : Nat) (n : Nat) :
    ∀ app : App,
      (emit_underrun sa sv now1 now2 n app).tcp_upstream.state = app.tcp_upstream.state ∨
      (emit_underrun sa sv now1 now2 n app).tcp_upstream.state
        = UPSTREAM_STATE_TRANSMITTING := by
  induction n with
  | zero => intro app; left; rfl
  | succ k ih =>
    intro app
    unfold emit_underrun
    split
    · left; rfl
    · rcases ih (queue_underrun app sa sv now1 now2) with h | h
      · rcases (queue_underrun_state app sa sv now1 now2).1 with h1 | h1
        · right; rw [h, h1]
        · left; rw [h, h1]
      · right; exact h

/-- A buffer probe does not change the upstream state. -/
theorem run_buffer_probe_state (cfg : Config) (size now : Nat) (app : App)
    (p : Nat × GstPadProbeCallback) :
    (run_buffer_probe cfg size now app p).tcp_upstream.state = app.tcp_upstream.state := by
  unfold run_buffer_probe
  split
  · split
    · simp [gst_pad_remove_probe, (cancel_waiting_probe_state app true).1]
    · unfold bitrate_measure_probe
      simp only []
      split <;> simp [send_signal, App.set_t]
    · simp [gst_pad_remove_probe, inject_authorization]
    · rfl
  · rfl

/-- A buffer passing the sink pad does not change the upstream state. -/
theorem pad_push_state (cfg : Config) (size now : Nat) (l : List (Nat × GstPadProbeCallback)) :
    ∀ app : App,
      (l.foldl (run_buffer_probe cfg size now) app).tcp_upstream.state
        = app.tcp_upstream.state := by
  induction l with
  | nil => intro app; rfl
  | cons p rest ih =>
    intro app
    show (rest.foldl (run_buffer_probe cfg size now)
      (run_buffer_probe cfg size now app p)).tcp_upstream.state = _
    rw [ih, run_buffer_probe_state]

/-- `disable_tcp_upstream` leaves the state or takes it to Disabled. -/
theorem disable_tcp_upstream_state (app : App) (pad_idle : Bool) :
    (disable_tcp_upstream app pad_idle).2.tcp_upstream.state = app.tcp_upstream.state ∨
    (disable_tcp_upstream app pad_idle).2.tcp_upstream.state = UPSTREAM_STATE_DISABLED := by
  unfold disable_tcp_upstream
  split
  · unfold gst_pad_add_probe_idle pad_probe_unlink_cb
    by_cases hb : app.tcp_upstream.id_bitrate_measure = 0 <;> cases pad_idle <;>
      simp [hb, App.set_t, gst_pad_remove_probe, gst_pad_add_probe, send_signal]
    all_goals split <;> simp_all
  · left; rfl

/-- `destroy_pipeline` leaves the upstream record alone. -/
theorem destroy_pipeline_tcp_upstream (app : App) :
    (destroy_pipeline app).2.tcp_upstream = app.tcp_upstream := by
  unfold destroy_pipeline
  split <;> rfl

/-- `create_source_pipeline` leaves the upstream record alone. -/
theorem create_source_pipeline_tcp_upstream (app : App) (cenv : CreateEnv) (r : Bool × App)
    (h : create_source_pipeline app cenv = some r) :
    r.2.tcp_upstream = app.tcp_upstream := by
  unfold create_source_pipeline at h
  simp only [] at h
  split at h
  · cases h
  · split at h
    · cases h; rfl
    · split at h
      · cases h; rfl
      · split at h
        · cases h
        · cases h
          have := congrArg App.tcp_upstream (apply_source_properties_control
            { g_mutex_lock app with
              pipeline := true, asrc := cenv.asrc, vsrc := cenv.vsrc,
              overrun_handlers := 0, underrun_handlers := 0, sink_in_bin := false })
          exact this

/-- The `fail` path of `enable_tcp_upstream` leaves the state or takes it to Disabled. -/
theorem enable_tcp_upstream_fail_state (app : App) (pad_idle : Bool) :
    (enable_tcp_upstream_fail app pad_idle).2.tcp_upstream.state = app.tcp_upstream.state ∨
    (enable_tcp_upstream_fail app pad_idle).2.tcp_upstream.state = UPSTREAM_STATE_DISABLED :=
  disable_tcp_upstream_state (g_mutex_unlock app) pad_idle

/-- The token step of `enable_tcp_upstream` does not change the upstream state. -/
theorem enable_tcp_upstream_token_state (app : App) (token : String) :
    (enable_tcp_upstream_token app token).tcp_upstream.state = app.tcp_upstream.state := by
  unfold enable_tcp_upstream_token
  split <;> rfl

/-- `enable_tcp_upstream` leaves the state, takes it to Disabled, or takes it from
Disabled to Connecting. -/
theorem enable_tcp_upstream_state (app : App) (host : String) (port : Nat) (token : String)
    (env : EnableEnv) (r : Bool × App)
    (h : enable_tcp_upstream app host port token env = some r) :
    r.2.tcp_upstream.state = app.tcp_upstream.state ∨
    r.2.tcp_upstream.state = UPSTREAM_STATE_DISABLED ∨
    (app.tcp_upstream.state = UPSTREAM_STATE_DISABLED ∧
      r.2.tcp_upstream.state = UPSTREAM_STATE_CONNECTING) := by
  have fail : ∀ (a : App) (idle : Bool),
      a.tcp_upstream.state = UPSTREAM_STATE_CONNECTING →
      app.tcp_upstream.state = UPSTREAM_STATE_DISABLED →
      some (enable_tcp_upstream_fail a idle) = some r →
      r.2.tcp_upstream.state = app.tcp_upstream.state ∨
      r.2.tcp_upstream.state = UPSTREAM_STATE_DISABLED ∨
      (app.tcp_upstream.state = UPSTREAM_STATE_DISABLED ∧
        r.2.tcp_upstream.state = UPSTREAM_STATE_CONNECTING) := by
    intro a idle ha hd hr
    cases hr
    rcases enable_tcp_upstream_fail_state a idle with h1 | h1
    · exact Or.inr (Or.inr ⟨hd, h1.trans ha⟩)
    · exact Or.inr (Or.inl h1)
  have tok : (enable_tcp_upstream_token
      { enable_tcp_upstream_setup app env.tcpsink with sink_in_bin := true }
      token).tcp_upstream.state = UPSTREAM_STATE_CONNECTING := by
    rw [enable_tcp_upstream_token_state]
    rfl
  unfold enable_tcp_upstream at h
  split at h
  · cases h
    rcases enable_tcp_upstream_fail_state app env.pad_idle with h1 | h1
    · exact Or.inl h1
    · exact Or.inr (Or.inl h1)
  · split at h
    · rename_i hd
      split at h
      · cases h
      · split at h
        · exact fail _ _ rfl hd h
        · split at h
          · exact fail _ _ rfl hd h
          · split at h
            · cases h
              exact Or.inr (Or.inl rfl)
            · split at h
              · cases h
              · split at h
                · exact fail _ _ tok hd h
                · split at h
                  · exact fail _ _ tok hd h
                  · cases h
                    exact Or.inr (Or.inr ⟨hd, tok⟩)
    · cases h
      exact Or.inl rfl

/-- Every state step of `enable_tcp_upstream`, `disable_tcp_upstream` or a property set
is in the table. -/
theorem allowed_step_of_cases (s s1 : upstreamState)
    (h : s1 = s ∨ s1 = UPSTREAM_STATE_DISABLED ∨
      (s = UPSTREAM_STATE_DISABLED ∧ s1 = UPSTREAM_STATE_CONNECTING) ∨
      (s = UPSTREAM_STATE_OVERLOAD ∧ s1 = UPSTREAM_STATE_TRANSMITTING)) :
    allowed_step s s1 = true := by
  rcases h with h | h | ⟨h, h1⟩ | ⟨h, h1⟩
  · subst h; simp [allowed_step]
  · subst h; cases s <;> decide
  · subst h; subst h1; decide
  · subst h; subst h1; decide

/-- A method call takes the state along the table. -/
theorem handle_method_call_allowed (app : App) (call : MethodCall) (eenv : EnableEnv)
    (pad_idle : Bool) (cenv : CreateEnv) (r : MethodReply × App)
    (h : handle_method_call app call eenv pad_idle cenv = some r) :
    allowed_step app.tcp_upstream.state r.2.tcp_upstream.state = true := by
  apply allowed_step_of_cases
  cases call with
  | enableUpstream state host port token =>
    unfold handle_method_call at h
    simp only [] at h
    split at h
    · split at h
      · cases he : enable_tcp_upstream app host port token eenv with
        | none => rw [he] at h; cases h
        | some e =>
          rw [he] at h
          cases h
          rcases enable_tcp_upstream_state app host port token eenv e he with h1 | h1 | h1
          · exact Or.inl h1
          · exact Or.inr (Or.inl h1)
          · exact Or.inr (Or.inr (Or.inl h1))
      · split at h
        · cases hc : create_source_pipeline
            (destroy_pipeline (disable_tcp_upstream app pad_idle).2).2 cenv with
          | none => rw [hc] at h; cases h
          | some c =>
            rw [hc] at h
            cases h
            have e1 := create_source_pipeline_tcp_upstream _ cenv c hc
            rw [destroy_pipeline_tcp_upstream] at e1
            show c.2.tcp_upstream.state = _ ∨ _
            rw [e1]
            rcases disable_tcp_upstream_state app pad_idle with h1 | h1
            · exact Or.inl h1
            · exact Or.inr (Or.inl h1)
        · cases h; exact Or.inl rfl
    · cases h; exact Or.inl rfl
  | setResolution w hgt =>
    have hc := congrArg App.tcp_upstream (gst_set_resolution_control app w hgt)
    unfold handle_method_call at h
    simp only [] at h
    split at h <;> cases h <;> exact Or.inl (congrArg DreamTCPupstream.state hc)
  | unknown name =>
    cases h; exact Or.inl rfl

/-- A bus message takes the state along the table. -/
theorem message_cb_allowed (app : App) (m : GstMessage) (pad_idle : Bool) (cenv : CreateEnv)
    (r : Bool × App) (h : message_cb app m pad_idle cenv = some r) :
    allowed_step app.tcp_upstream.state r.2.tcp_upstream.state = true := by
  apply allowed_step_of_cases
  cases m with
  | state_changed from_pipeline old_state new_state =>
    unfold message_cb at h
    simp only [] at h
    split at h
    · cases h; exact Or.inl rfl
    · split at h <;> cases h <;> exact Or.inl rfl
  | error resource_domain code =>
    cases resource_domain with
    | false => cases h; exact Or.inl rfl
    | true =>
      cases code with
      | GST_RESOURCE_ERROR_READ =>
        have hr : r.2.tcp_upstream = (disable_tcp_upstream
            (g_mutex_unlock (send_signal (g_mutex_lock app) "encoderError" none))
            pad_idle).2.tcp_upstream := by
          cases h
          exact destroy_pipeline_tcp_upstream _
        rw [hr]
        rcases disable_tcp_upstream_state
          (g_mutex_unlock (send_signal (g_mutex_lock app) "encoderError" none)) pad_idle
          with h1 | h1
        · exact Or.inl h1
        · exact Or.inr (Or.inl h1)
      | GST_RESOURCE_ERROR_WRITE =>
        simp only [message_cb, if_true, if_false] at h
        cases hc : create_source_pipeline
            (destroy_pipeline
              (disable_tcp_upstream (g_mutex_unlock (g_mutex_lock app)) pad_idle).2).2 cenv with
        | none => simp [hc] at h
        | some c =>
          simp [hc] at h
          have e1 := create_source_pipeline_tcp_upstream _ cenv c hc
          rw [destroy_pipeline_tcp_upstream] at e1
          have hr : r.2.tcp_upstream = (disable_tcp_upstream
              (g_mutex_unlock (g_mutex_lock app)) pad_idle).2.tcp_upstream := by
            rw [← h]
            exact e1
          rw [hr]
          rcases disable_tcp_upstream_state (g_mutex_unlock (g_mutex_lock app)) pad_idle
            with h1 | h1
          · exact Or.inl h1
          · exact Or.inr (Or.inl h1)
      | other => cases h; exact Or.inl rfl
  | warning => cases h; exact Or.inl rfl
  | eos => cases h; exact Or.inl rfl
  | other => cases h; exact Or.inl rfl

/-- Setting a property leaves the state or takes it from Overload to Transmitting. -/
theorem handle_set_property_state (cfg : Config) (app : App) (property_name : String)
    (value : GVariant) (rb : ReadBack) :
    (handle_set_property cfg app property_name value rb).2.tcp_upstream.state
      = app.tcp_upstream.state ∨
    (app.tcp_upstream.state = UPSTREAM_STATE_OVERLOAD ∧
      (handle_set_property cfg app property_name value rb).2.tcp_upstream.state
        = UPSTREAM_STATE_TRANSMITTING) := by
  by_cases hn : property_name = "autoBitrate"
  · subst hn
    by_cases hs : app.tcp_upstream.state = UPSTREAM_STATE_OVERLOAD
    · right
      refine ⟨hs, ?_⟩
      simp [handle_set_property, hs, upstream_resume_transmitting, send_signal, App.set_t]
    · left
      simp [handle_set_property, hs, App.set_t]
  · left
    have hc := congrArg App.tcp_upstream
      (handle_set_property_control cfg app property_name value rb hn)
    exact congrArg DreamTCPupstream.state hc

/-- The idle callback leaves the state or takes it to Disabled. -/
theorem pad_becomes_idle_state (app : App) :
    (pad_becomes_idle app).tcp_upstream.state = app.tcp_upstream.state ∨
    (pad_becomes_idle app).tcp_upstream.state = UPSTREAM_STATE_DISABLED := by
  unfold pad_becomes_idle
  split
  · left; rfl
  · unfold pad_probe_unlink_cb
    simp only []
    split
    · right
      simp [gst_pad_remove_probe, send_signal, App.set_t]
    · left
      simp

/-- One event that finds the state it belongs to takes the upstream state along the
table: the step is a self-loop or one of the transitions. -/
theorem step_follows_table (cfg : Config) (app app1 : App) (e : Event)
    (h : step cfg app e = some app1) (ho : e.in_owning_state app) :
    allowed_step app.tcp_upstream.state app1.tcp_upstream.state = true := by
  have self : ∀ a : App, a.tcp_upstream.state = app.tcp_upstream.state →
      allowed_step app.tcp_upstream.state a.tcp_upstream.state = true := by
    intro a ha
    rw [ha]
    simp [allowed_step]
  cases e with
  | method_call call eenv pad_idle cenv =>
    simp only [step] at h
    cases hr : handle_method_call app call eenv pad_idle cenv with
    | none => rw [hr] at h; cases h
    | some r =>
      rw [hr] at h
      cases h
      exact handle_method_call_allowed app call eenv pad_idle cenv r hr
  | set_property name value rb =>
    cases h
    apply allowed_step_of_cases
    rcases handle_set_property_state cfg app name value rb with h1 | h1
    · exact Or.inl h1
    · exact Or.inr (Or.inr (Or.inr h1))
  | overrun now na =>
    cases h
    split
    · exact (emit_overrun_allowed cfg now na _ app).1
    · exact self app rfl
  | underrun sa sv now1 now2 =>
    cases h
    split
    · rcases ho with h0 | hw
      · rw [h0]
        exact self app rfl
      · rcases emit_underrun_state sa sv now1 now2 app.underrun_handlers app with h1 | h1
        · exact self _ h1
        · rw [h1, hw]; decide
    · exact self app rfl
  | timeout id =>
    cases h
    simp only [Event.in_owning_state, timeout_in_owning_state] at ho
    unfold dispatch_timeout
    split
    · exact self app rfl
    · rename_i hl
      rw [hl] at ho
      simp only [] at ho
      have : (g_source_remove (upstream_set_waiting app) id).tcp_upstream.state
          = UPSTREAM_STATE_WAITING := by
        simp [g_source_remove, upstream_set_waiting_tcp_upstream]
      rw [this, ho]; decide
    · rename_i hl
      rw [hl] at ho
      simp only [] at ho
      have : (g_source_remove (upstream_resume_transmitting app) id).tcp_upstream.state
          = UPSTREAM_STATE_TRANSMITTING := by
        simp [g_source_remove, upstream_resume_transmitting, send_signal, App.set_t]
      rw [this, ho]; decide
  | buffer size now =>
    cases h
    split
    · exact self _ (pad_push_state cfg size now _ app)
    · exact self app rfl
  | idle =>
    cases h
    apply allowed_step_of_cases
    rcases pad_becomes_idle_state app with h1 | h1
    · exact Or.inl h1
    · exact Or.inr (Or.inl h1)
  | message m pad_idle cenv =>
    simp only [step] at h
    cases hr : message_cb app m pad_idle cenv with
    | none => rw [hr] at h; cases h
    | some r =>
      rw [hr] at h
      cases h
      exact message_cb_allowed app m pad_idle cenv r hr
  | name_acquired => cases h; exact self _ rfl
  | name_lost => cases h; exact self _ rfl

/-- A run in which every event finds the state it belongs to follows the table at every
step. -/
theorem trace_follows_table (cfg : Config) (es : List Event) :
    ∀ (app : App) (l : List upstreamState),
      trace cfg app es = some l → run_in_owning_state cfg app es →
      trace_allowed l = true ∧ l.head? = some app.tcp_upstream.state := by
  induction es with
  | nil =>
    intro app l h _
    cases h
    exact ⟨rfl, rfl⟩
  | cons e rest ih =>
    intro app l h hr
    simp only [trace] at h
    cases hs : step cfg app e with
    | none => rw [hs] at h; cases h
    | some app1 =>
      rw [hs] at h
      simp only [Option.bind] at h
      cases ht : trace cfg app1 rest with
      | none => rw [ht] at h; cases h
      | some l1 =>
        rw [ht] at h
        cases h
        obtain ⟨i1, i2⟩ := ih app1 l1 ht (hr.2 app1 hs)
        refine ⟨?_, rfl⟩
        cases l1 with
        | nil => cases i2
        | cons s1 rest1 =>
          simp only [List.head?] at i2
          cases i2
          simp only [trace_allowed, Bool.and_eq_true]
          exact ⟨step_follows_table cfg app app1 e hs hr.1, i1⟩

/-! ## C11: setting a bitrate -/

/-- C12 fails at the video bitrate: on `sample_overload_due` (audio bitrate 128, measured
average 1000, auto-bitrate on) the overrun that declares Overload sets the audio bitrate
to 102 = trunc (128 * 0.8), and the video bitrate to trunc ((1000 - g) * 0.8) where `g`
is what the unwritten local `newAudioBitrate` happens to hold: 800 for 0, 760 for 50.
The value of the claim, trunc ((1000 - 102) * 0.8) = 718, only comes out when the local
happens to hold 102. -/
theorem overload_video_bitrate_reads_unset_local :
    (sample_overload_due.tcp_upstream.state = UPSTREAM_STATE_TRANSMITTING ∧
     sample_overload_due.tcp_upstream.auto_bitrate = true ∧
     sample_overload_due.tcp_upstream.bitrate_avg = 1000 ∧
     sample_overload_due.asrc.map GstElement.bitrate = some 128) ∧
    ((step sample_config sample_overload_due (Event.overrun 3000000005 0)).map
        (fun a => (a.tcp_upstream.state, a.source_properties.audioBitrate,
          a.source_properties.videoBitrate)) = some (UPSTREAM_STATE_OVERLOAD, 102, 800)) ∧
    ((step sample_config sample_overload_due (Event.overrun 3000000005 50)).map
        (fun a => (a.tcp_upstream.state, a.source_properties.audioBitrate,
          a.source_properties.videoBitrate)) = some (UPSTREAM_STATE_OVERLOAD, 102, 760)) ∧
    ((step sample_config sample_overload_due (Event.overrun 3000000005 102)).map
        (fun a => (a.tcp_upstream.state, a.source_properties.audioBitrate,
          a.source_properties.videoBitrate)) = some (UPSTREAM_STATE_OVERLOAD, 102, 718)) ∧
    ((step sample_config sample_overload_due (Event.overrun 3000000005 0)).map
        (fun a => (a.asrc.map GstElement.bitrate, a.vsrc.map GstElement.bitrate)) =
      some (some 102, some 800)) ∧
    Int.tdiv ((1000 - Int.tdiv (128 * 4) 5) * 4) 5 = 718 := by
  refine ⟨by decide, by decide, by decide, by decide, by decide, by decide⟩

/-! ## C13: the subscriptions to the queue -/

/-- C13, the code at the failing input.  From the start: enable, overrun (Connecting to
Waiting, subscriptions swapped), underrun (to Transmitting, swapped back), overrun (a
set-waiting timer is armed), and the timer fires: `upstream_set_waiting` connects
`queue_underrun` while `queue_overrun` is still connected, so in Waiting both are
connected.  The next underrun connects `queue_overrun` a second time, and the overrun
after that finds neither connected when it is done. -/
theorem set_waiting_timer_keeps_overrun_connected :
    (sample_pending.tcp_upstream.state, sample_pending.overrun_handlers,
      sample_pending.underrun_handlers) = (UPSTREAM_STATE_TRANSMITTING, 1, 0) ∧
    (run sample_config sample_pending [Event.timeout 1]).map
        (fun a => (a.tcp_upstream.state, a.overrun_handlers, a.underrun_handlers)) =
      some (UPSTREAM_STATE_WAITING, 1, 1) ∧
    (run sample_config sample_pending [Event.timeout 1, sample_underrun 4]).map
        (fun a => (a.tcp_upstream.state, a.overrun_handlers, a.underrun_handlers)) =
      some (UPSTREAM_STATE_TRANSMITTING, 2, 0) ∧
    (run sample_config sample_pending
        [Event.timeout 1, sample_underrun 4, sample_overrun 5]).map
        (fun a => (a.tcp_upstream.state, a.overrun_handlers, a.underrun_handlers)) =
      some (UPSTREAM_STATE_TRANSMITTING, 0, 0) ∧
    (upstream_set_waiting sample_pending).overrun_handlers = 1 := by
  refine ⟨by decide, by decide, by decide, by decide, by decide⟩

/-! ## C14: timers that fire late -/

/-- Looking up a source that has just been removed finds nothing. -/
theorem lookup_filter_removed (l : List (Nat × GSourceFunc)) (id : Nat) :
    (l.filter (fun s => s.1 ≠ id)).lookup id = none := by
  induction l with
  | nil => rfl
  | cons x xs ih =>
    by_cases h : x.1 = id
    · have hd : decide (x.1 ≠ id) = false := by simp [h]
      simp only [List.filter_cons, hd, Bool.false_eq_true, if_false]
      exact ih
    · have h1 : (id == x.1) = false := by
        simp only [beq_eq_false_iff_ne, ne_eq]
        exact fun e => h e.symm
      have hd : decide (x.1 ≠ id) = true := by simp [h]
      simp only [List.filter_cons, hd, if_true]
      obtain ⟨a, b⟩ := x
      simp only [List.lookup, h1]
      exact ih

/-- C14, the code at the failing input.  (1) `sample_waiting_leftover` is Waiting with
the resume timer of an earlier Overload (source 3) still scheduled, left there by a set
of `autoBitrate`; when that timer fires, `upstream_resume_transmitting` sets the state
to Transmitting and clears `id_signal_waiting`.  (2) From `sample_pending` a disable
leaves the set-waiting timer (source 1) scheduled in Disabled, with the counter at 1 and
the window started at 2; when it fires, `upstream_set_waiting` sets the state to
Waiting, the counter to 0 and the window start to unset. -/
theorem late_timers_change_state :
    (sample_waiting_leftover.tcp_upstream.state = UPSTREAM_STATE_WAITING ∧
     sample_waiting_leftover.tcp_upstream.id_signal_waiting = 4 ∧
     sample_waiting_leftover.timeouts = [(3, GSourceFunc.upstream_resume_transmitting)]) ∧
    (step sample_config sample_waiting_leftover (Event.timeout 3)).map
        (fun a => (a.tcp_upstream.state, a.tcp_upstream.id_signal_waiting, a.timeouts)) =
      some (UPSTREAM_STATE_TRANSMITTING, 0, []) ∧
    (run sample_config sample_pending [sample_disable]).map
        (fun a => (a.tcp_upstream.state, a.tcp_upstream.overrun_counter,
          a.tcp_upstream.overrun_period, a.timeouts)) =
      some (UPSTREAM_STATE_DISABLED, 1, 2, [(1, GSourceFunc.upstream_set_waiting)]) ∧
    (run sample_config sample_pending [sample_disable, Event.timeout 1]).map
        (fun a => (a.tcp_upstream.state, a.tcp_upstream.overrun_counter,
          a.tcp_upstream.overrun_period, a.timeouts)) =
      some (UPSTREAM_STATE_WAITING, 0, 2 ^ 64 - 1, []) := by
  refine ⟨by decide, by decide, by decide, by decide⟩

/-- The two timer callbacks never read the upstream state.  Whatever the state,
`upstream_set_waiting` leaves the state Waiting, the counter zero, the period unset and
the handles `id_resume` and `id_bitrate_measure` zero, and
`upstream_resume_transmitting` leaves the state Transmitting, the counter zero, the
period unset and `id_signal_waiting` zero.  What keeps a timer from acting late is the
removal of its source: dispatching a source that is not scheduled changes nothing, and
that is the case for the source of `id_signal_waiting` once `cancel_waiting_probe` has
seen a buffer. -/
theorem timer_callbacks_ignore_state (app : App) :
    (upstream_set_waiting app).tcp_upstream =
      { app.tcp_upstream with
        overrun_counter := 0, overrun_period := GST_CLOCK_TIME_NONE,
        state := UPSTREAM_STATE_WAITING, id_resume := 0, id_bitrate_measure := 0 } ∧
    (upstream_resume_transmitting app).tcp_upstream =
      { app.tcp_upstream with
        state := UPSTREAM_STATE_TRANSMITTING, overrun_counter := 0,
        overrun_period := GST_CLOCK_TIME_NONE, id_signal_waiting := 0 } ∧
    (∀ id, app.timeouts.lookup id = none → dispatch_timeout app id = app) ∧
    (app.tcp_upstream.id_signal_waiting ≠ 0 →
      dispatch_timeout (cancel_waiting_probe app true).2 app.tcp_upstream.id_signal_waiting =
        (cancel_waiting_probe app true).2) := by
  refine ⟨upstream_set_waiting_tcp_upstream app, ?_, ?_, ?_⟩
  · simp [upstream_resume_transmitting, App.set_t, send_signal]
  · intro id h
    simp [dispatch_timeout, h]
  · intro h
    have hl : (cancel_waiting_probe app true).2.timeouts.lookup
        app.tcp_upstream.id_signal_waiting = none := by
      have e : (cancel_waiting_probe app true).2.timeouts =
          app.timeouts.filter (fun s => s.1 ≠ app.tcp_upstream.id_signal_waiting) := by
        simp [cancel_waiting_probe, App.set_t, g_source_remove, h]
      rw [e]
      exact lookup_filter_removed _ _
    simp only [dispatch_timeout, hl]

/-! ## C15: the timer and its handle -/

/-- C15, the code at the failing input.  In `sample_pending` the set-waiting timer is
source 1 and `id_signal_waiting` is 1.  When the timer has fired no timer is scheduled
and `id_signal_waiting` is still 1; it stays 1 through the next underrun, so the overrun
after that takes the branch for a pending timer: it counts, disconnects `queue_overrun`
and arms nothing.  Separately, a resume timer that an `autoBitrate` set has left
scheduled is joined by the set-waiting timer of the next overrun: two timers
scheduled. -/
theorem set_waiting_timer_leaves_handle :
    (sample_pending.tcp_upstream.id_signal_waiting, sample_pending.timeouts) =
      (1, [(1, GSourceFunc.upstream_set_waiting)]) ∧
    (sample_waiting_by_timer.tcp_upstream.state,
      sample_waiting_by_timer.tcp_upstream.id_signal_waiting,
      sample_waiting_by_timer.timeouts) = (UPSTREAM_STATE_WAITING, 1, []) ∧
    (run sample_config sample_waiting_by_timer [sample_underrun 4]).map
        (fun a => (a.tcp_upstream.state, a.tcp_upstream.id_signal_waiting, a.timeouts)) =
      some (UPSTREAM_STATE_TRANSMITTING, 1, []) ∧
    (run sample_config sample_waiting_by_timer [sample_underrun 4, sample_overrun 5]).map
        (fun a => (a.tcp_upstream.overrun_counter, a.tcp_upstream.id_signal_waiting,
          a.timeouts, a.overrun_handlers)) = some (1, 1, [], 0) ∧
    (run sample_config sample_overload_due
        [sample_overrun 3000000005,
         Event.set_property "autoBitrate" (GVariant.boolean true)
           { input_mode_audio := 0, input_mode_video := 0, bitrate := 0 },
         sample_overrun 3000000006]).map
        (fun a => (a.tcp_upstream.state, a.tcp_upstream.id_signal_waiting, a.timeouts)) =
      some (UPSTREAM_STATE_TRANSMITTING, 4,
        [(3, GSourceFunc.upstream_resume_transmitting),
         (4, GSourceFunc.upstream_set_waiting)]) := by
  refine ⟨by decide, by decide, by decide, by decide, by decide⟩

/-! ## C16: the bitrate probe and the state -/

/-- The relation between probe handle and state only reads those two fields. -/
theorem bitrate_probe_in_step_of_eq (a b : App)
    (hs : b.tcp_upstream.state = a.tcp_upstream.state)
    (hi : b.tcp_upstream.id_bitrate_measure = a.tcp_upstream.id_bitrate_measure)
    (h : bitrate_probe_in_step a) : bitrate_probe_in_step b := by
  unfold bitrate_probe_in_step at *
  rw [hs, hi]
  exact h

/-- `queue_overrun` keeps the probe handle in step with the state: it is cleared on the
way to Waiting and kept when Overload is declared. -/
theorem queue_overrun_probe_in_step (cfg : Config) (app : App) (now : Nat) (na : Int)
    (h : bitrate_probe_in_step app) :
    bitrate_probe_in_step (queue_overrun cfg app now na) := by
  cases hs : app.tcp_upstream.state with
  | UPSTREAM_STATE_DISABLED =>
    have e := queue_overrun_other cfg app now na (Or.inr hs)
    exact bitrate_probe_in_step_of_eq app _ (by rw [e]) (by rw [e]) h
  | UPSTREAM_STATE_WAITING =>
    have e := queue_overrun_other cfg app now na (Or.inl hs)
    exact bitrate_probe_in_step_of_eq app _ (by rw [e]) (by rw [e]) h
  | UPSTREAM_STATE_OVERLOAD =>
    rw [queue_overrun_overload cfg app now na hs]
    exact h
  | UPSTREAM_STATE_CONNECTING =>
    unfold bitrate_probe_in_step
    simp [queue_overrun, g_mutex_lock, g_mutex_unlock, hs, upstream_set_waiting_tcp_upstream]
  | UPSTREAM_STATE_TRANSMITTING =>
    by_cases hid : app.tcp_upstream.id_signal_waiting = 0
    · by_cases hc : app.tcp_upstream.overrun_counter + 1 < cfg.MAX_OVERRUNS
      · rw [queue_overrun_under_threshold cfg app now na hs hid hc]
        exact h
      · have hb : app.tcp_upstream.id_bitrate_measure ≠ 0 := h.2 (Or.inl hs)
        unfold bitrate_probe_in_step
        rw [(queue_overrun_threshold cfg app now na hs hid (by omega)).1]
        simp [hb]
    · rw [queue_overrun_pending cfg app now na hs hid]
      exact h

/-- The "overrun" signal keeps the probe handle in step with the state. -/
theorem emit_overrun_probe_in_step (cfg : Config) (now : Nat) (na : Int) (n : Nat) :
    ∀ app : App, bitrate_probe_in_step app →
      bitrate_probe_in_step (emit_overrun cfg now na n app) := by
  induction n with
  | zero => intro app h; exact h
  | succ k ih =>
    intro app h
    unfold emit_overrun
    split
    · exact h
    · exact ih _ (queue_overrun_probe_in_step cfg app now na h)

/-- `queue_underrun` attaches the probe when it enters Transmitting, unless one is
attached already. -/
theorem queue_underrun_probe_in_step (app : App) (sa sv : GstStateChangeReturn)
    (now1 now2 : Nat) (h : bitrate_probe_in_step app) :
    bitrate_probe_in_step (queue_underrun app sa sv now1 now2) := by
  unfold queue_underrun
  split
  · unfold bitrate_probe_in_step
    by_cases hb : app.tcp_upstream.id_bitrate_measure = 0
    · simp only [App.set_t, send_signal, gst_pad_add_probe, hb, if_true]
      split <;> simp
    · simp only [App.set_t, send_signal, gst_pad_add_probe, hb, if_false]
      split <;> simp [hb]
  · exact h

/-- The "underrun" signal keeps the probe handle in step with the state. -/
theorem emit_underrun_probe_in_step (sa sv : GstStateChangeReturn) (now1 now2 : Nat)
    (n : Nat) :
    ∀ app : App, bitrate_probe_in_step app →
      bitrate_probe_in_step (emit_underrun sa sv now1 now2 n app) := by
  induction n with
  | zero => intro app h; exact h
  | succ k ih =>
    intro app h
    unfold emit_underrun
    split
    · exact h
    · exact ih _ (queue_underrun_probe_in_step app sa sv now1 now2 h)

/-- A buffer probe does not change the handle of the bitrate probe. -/
theorem run_buffer_probe_id_bitrate_measure (cfg : Config) (size now : Nat) (app : App)
    (p : Nat × GstPadProbeCallback) :
    (run_buffer_probe cfg size now app p).tcp_upstream.id_bitrate_measure =
      app.tcp_upstream.id_bitrate_measure := by
  unfold run_buffer_probe
  split
  · split
    · simp [gst_pad_remove_probe, cancel_waiting_probe_tcp_upstream]
    · unfold bitrate_measure_probe
      simp only []
      split <;> simp [send_signal, App.set_t]
    · simp [gst_pad_remove_probe, inject_authorization]
    · rfl
  · rfl

/-- A buffer passing the sink pad keeps the probe handle in step with the state. -/
theorem pad_push_probe_in_step (cfg : Config) (size now : Nat)
    (l : List (Nat × GstPadProbeCallback)) :
    ∀ app : App, bitrate_probe_in_step app →
      bitrate_probe_in_step (l.foldl (run_buffer_probe cfg size now) app) := by
  induction l with
  | nil => intro app h; exact h
  | cons p rest ih =>
    intro app h
    exact ih _ (bitrate_probe_in_step_of_eq app _ (run_buffer_probe_state cfg size now app p)
      (run_buffer_probe_id_bitrate_measure cfg size now app p) h)

/-- `disable_tcp_upstream` detaches the bitrate probe: where it acts the handle is zero
afterwards, and a handle that is zero stays zero. -/
theorem disable_tcp_upstream_id_bitrate_measure (app : App) (pad_idle : Bool) :
    ((disable_tcp_upstream app pad_idle).1 = true →
      (disable_tcp_upstream app pad_idle).2.tcp_upstream.id_bitrate_measure = 0) ∧
    (app.tcp_upstream.id_bitrate_measure = 0 →
      (disable_tcp_upstream app pad_idle).2.tcp_upstream.id_bitrate_measure = 0) := by
  unfold disable_tcp_upstream
  split
  · unfold gst_pad_add_probe_idle pad_probe_unlink_cb
    by_cases hb : app.tcp_upstream.id_bitrate_measure = 0 <;> cases pad_idle <;>
      simp [hb, App.set_t, gst_pad_remove_probe, gst_pad_add_probe, send_signal]
    all_goals split <;> simp_all
  · simp

/-- The token step of `enable_tcp_upstream` does not touch the handle of the bitrate
probe. -/
theorem enable_tcp_upstream_token_id_bitrate_measure (app : App) (token : String) :
    (enable_tcp_upstream_token app token).tcp_upstream.id_bitrate_measure =
      app.tcp_upstream.id_bitrate_measure := by
  unfold enable_tcp_upstream_token
  split <;> rfl

/-- `enable_tcp_upstream` on a disabled upstream with a pipeline returns with the handle
of the bitrate probe zero. -/
theorem enable_tcp_upstream_id_bitrate_measure (app : App) (host : String) (port : Nat)
    (token : String) (env : EnableEnv) (r : Bool × App)
    (hp : app.pipeline = true) (hd : app.tcp_upstream.state = UPSTREAM_STATE_DISABLED)
    (h : enable_tcp_upstream app host port token env = some r) :
    r.2.tcp_upstream.id_bitrate_measure = 0 := by
  have fail : ∀ (a : App) (idle : Bool), a.tcp_upstream.id_bitrate_measure = 0 →
      some (enable_tcp_upstream_fail a idle) = some r →
      r.2.tcp_upstream.id_bitrate_measure = 0 := by
    intro a idle ha hr
    cases hr
    exact (disable_tcp_upstream_id_bitrate_measure (g_mutex_unlock a) idle).2 ha
  have tok : (enable_tcp_upstream_token
      { enable_tcp_upstream_setup app env.tcpsink with sink_in_bin := true }
      token).tcp_upstream.id_bitrate_measure = 0 := by
    rw [enable_tcp_upstream_token_id_bitrate_measure]
    rfl
  unfold enable_tcp_upstream at h
  rw [hp] at h
  simp only [Bool.not_true, Bool.false_eq_true, if_false, hd, if_true] at h
  split at h
  · cases h
  · split at h
    · exact fail _ _ rfl h
    · split at h
      · exact fail _ _ rfl h
      · split at h
        · cases h
          rfl
        · split at h
          · cases h
          · split at h
            · exact fail _ _ tok h
            · split at h
              · exact fail _ _ tok h
              · cases h
                exact tok

/-- Setting a property does not touch the handle of the bitrate probe. -/
theorem handle_set_property_id_bitrate_measure (cfg : Config) (app : App)
    (property_name : String) (value : GVariant) (rb : ReadBack) :
    (handle_set_property cfg app property_name value rb).2.tcp_upstream.id_bitrate_measure
      = app.tcp_upstream.id_bitrate_measure := by
  by_cases hn : property_name = "autoBitrate"
  · subst hn
    by_cases hs : app.tcp_upstream.state = UPSTREAM_STATE_OVERLOAD
    · simp [handle_set_property, hs, upstream_resume_transmitting, send_signal, App.set_t]
    · simp [handle_set_property, hs, App.set_t]
  · have hc := congrArg App.tcp_upstream
      (handle_set_property_control cfg app property_name value rb hn)
    exact congrArg DreamTCPupstream.id_bitrate_measure hc

/-- One event that neither disables the upstream nor is the idle callback, and that finds
the state it belongs to, keeps the probe handle in step with the state. -/
theorem step_probe_in_step (cfg : Config) (app app1 : App) (e : Event)
    (h : bitrate_probe_in_step app)
    (h1 : e.is_disable = false) (h2 : e.is_idle = false) (h3 : e.in_owning_state app)
    (hs : step cfg app e = some app1) : bitrate_probe_in_step app1 := by
  cases e with
  | method_call call eenv pad_idle cenv =>
    cases call with
    | enableUpstream state host port token =>
      cases state with
      | false => simp [Event.is_disable] at h1
      | true =>
        by_cases hp : app.pipeline = true
        · by_cases hd : app.tcp_upstream.state = UPSTREAM_STATE_DISABLED
          · simp only [step, handle_method_call, hp, hd, if_true, and_self] at hs
            cases hr : enable_tcp_upstream app host port token eenv with
            | none => simp [hr] at hs
            | some r =>
              simp [hr] at hs
              subst hs
              have hi := enable_tcp_upstream_id_bitrate_measure app host port token eenv r
                hp hd hr
              have hst := enable_tcp_upstream_state app host port token eenv r hr
              unfold bitrate_probe_in_step
              rw [hi]
              rcases hst with e1 | e1 | ⟨_, e1⟩ <;> simp [e1, hd]
          · have e : app1 = app := by
              simp [step, handle_method_call, hp, hd, upstreamState.toNat] at hs
              exact hs.symm
            rw [e]; exact h
        · have e : app1 = app := by
            simp [step, handle_method_call, hp] at hs
            exact hs.symm
          rw [e]; exact h
    | setResolution w hgt =>
      have e : app1 = (gst_set_resolution app w hgt).2 := by
        simp only [step, handle_method_call] at hs
        split at hs <;> simp at hs <;> exact hs.symm
      have hc := congrArg App.tcp_upstream (gst_set_resolution_control app w hgt)
      rw [e]
      exact bitrate_probe_in_step_of_eq app _ (congrArg DreamTCPupstream.state hc)
        (congrArg DreamTCPupstream.id_bitrate_measure hc) h
    | unknown name =>
      cases hs
      exact h
  | set_property name value rb =>
    cases hs
    have hi := handle_set_property_id_bitrate_measure cfg app name value rb
    rcases handle_set_property_state cfg app name value rb with e1 | ⟨e0, e1⟩
    · exact bitrate_probe_in_step_of_eq app _ e1 hi h
    · have hb : app.tcp_upstream.id_bitrate_measure ≠ 0 := h.2 (Or.inr e0)
      unfold bitrate_probe_in_step
      rw [hi, e1]
      simp [hb]
  | overrun now na =>
    cases hs
    split
    · exact emit_overrun_probe_in_step cfg now na _ app h
    · exact h
  | underrun sa sv now1 now2 =>
    cases hs
    split
    · exact emit_underrun_probe_in_step sa sv now1 now2 _ app h
    · exact h
  | timeout id =>
    cases hs
    simp only [Event.in_owning_state, timeout_in_owning_state] at h3
    unfold dispatch_timeout
    cases hl : app.timeouts.lookup id with
    | none => exact h
    | some f =>
      cases f with
      | upstream_set_waiting =>
        unfold bitrate_probe_in_step
        simp [g_source_remove, upstream_set_waiting_tcp_upstream]
      | upstream_resume_transmitting =>
        rw [hl] at h3
        have hb : app.tcp_upstream.id_bitrate_measure ≠ 0 := h.2 (Or.inr h3)
        unfold bitrate_probe_in_step
        simp [g_source_remove, upstream_resume_transmitting, App.set_t, send_signal, hb]
  | buffer size now =>
    cases hs
    split
    · exact pad_push_probe_in_step cfg size now _ app h
    · exact h
  | idle => simp [Event.is_idle] at h2
  | message m pad_idle cenv =>
    have hl : bitrate_probe_in_step (g_mutex_unlock (g_mutex_lock app)) := h
    have hsig : bitrate_probe_in_step
        (g_mutex_unlock (send_signal (g_mutex_lock app) "sourceReady" none)) := h
    cases m with
    | state_changed from_pipeline old_state new_state =>
      simp only [step, message_cb] at hs
      split at hs
      · cases hs; exact hl
      · split at hs
        · cases hs; exact hsig
        · cases hs; exact hl
    | error resource_domain code =>
      cases resource_domain with
      | false => cases hs; exact hl
      | true =>
        cases code with
        | GST_RESOURCE_ERROR_READ => simp [Event.is_disable] at h1
        | GST_RESOURCE_ERROR_WRITE => simp [Event.is_disable] at h1
        | other => cases hs; exact hl
    | warning => cases hs; exact hl
    | eos => cases hs; exact hl
    | other => cases hs; exact hl
  | name_acquired => cases hs; exact h
  | name_lost => cases hs; exact h

/-- C16 as stated fails: in the overloaded sample state, reached from the start by
enable, overrun, underrun and three overruns with buffers in between, the bitrate probe
(probe 1) is still attached, with and without auto-bitrate; and
`upstream_resume_transmitting` attaches no probe, it finds the one that was never
detached. -/
theorem overload_keeps_bitrate_probe :
    (sample_overload_manual.tcp_upstream.state,
      sample_overload_manual.tcp_upstream.id_bitrate_measure,
      sample_overload_manual.probes) =
      (UPSTREAM_STATE_OVERLOAD, 1, [(1, GstPadProbeCallback.bitrate_measure_probe)]) ∧
    (step sample_config sample_overload_due (sample_overrun 3000000005)).map
        (fun a => (a.tcp_upstream.state, a.tcp_upstream.id_bitrate_measure, a.probes)) =
      some (UPSTREAM_STATE_OVERLOAD, 1, [(1, GstPadProbeCallback.bitrate_measure_probe)]) ∧
    ((upstream_resume_transmitting sample_overload_manual).tcp_upstream.state,
      (upstream_resume_transmitting sample_overload_manual).probes,
      (upstream_resume_transmitting sample_overload_manual).last_probe) =
      (UPSTREAM_STATE_TRANSMITTING, sample_overload_manual.probes,
        sample_overload_manual.last_probe) := by
  refine ⟨by decide, by decide, by decide⟩

/-- C16, amended: the bitrate probe goes with Transmitting and Overload together.  From a
state in which `id_bitrate_measure` is non-zero exactly in these two states (the start
and every state just enabled are such), every run of events that neither disable the
upstream nor are the idle callback, and in which each timer fires in the state that
armed it and underruns reach a connected handler only in Waiting, ends in such a state
again: `queue_underrun` attaches the probe on entering Transmitting, declaring Overload
keeps it, `upstream_resume_transmitting` finds it attached, and `upstream_set_waiting`
detaches it.  In the state reached, `disable_tcp_upstream` leaves the handle zero
wherever it acts. -/
theorem bitrate_probe_with_transmitting_or_overload (cfg : Config) (es : List Event) :
    ∀ app : App, bitrate_probe_in_step app →
      (∀ e ∈ es, e.is_disable = false ∧ e.is_idle = false) →
      run_in_owning_state cfg app es →
      ∀ app1, run cfg app es = some app1 →
        bitrate_probe_in_step app1 ∧
        ∀ pad_idle, (disable_tcp_upstream app1 pad_idle).1 = true →
          (disable_tcp_upstream app1 pad_idle).2.tcp_upstream.id_bitrate_measure = 0 := by
  induction es with
  | nil =>
    intro app h _ _ app1 hr
    cases hr
    exact ⟨h, fun idle => (disable_tcp_upstream_id_bitrate_measure app idle).1⟩
  | cons e rest ih =>
    intro app h hes ho app1 hr
    simp only [run] at hr
    cases hs : step cfg app e with
    | none => simp [hs] at hr
    | some a =>
      simp [hs] at hr
      have he := hes e (List.mem_cons_self _ _)
      exact ih a (step_probe_in_step cfg app a e h he.1 he.2 ho.1 hs)
        (fun e1 h1 => hes e1 (List.mem_cons_of_mem _ h1)) (ho.2 a hs) app1 hr

/-- C16, amended, at work: from the start, enable, overrun, underrun, three overruns with
buffers in between (Overload, the resume timer armed as source 3) and that timer.  The
run ends in Transmitting with the bitrate probe of the first underrun still attached. -/
theorem bitrate_probe_with_transmitting_or_overload_witness :
    bitrate_probe_in_step (sample_start sample_config) ∧
    (run sample_config (sample_start sample_config)
        [sample_enable, sample_overrun 1, sample_underrun 2, sample_overrun 3,
         Event.buffer 188 4, sample_overrun 5, Event.buffer 188 6, sample_overrun 7,
         Event.timeout 3]).map
      (fun a => (a.tcp_upstream.state, a.tcp_upstream.id_bitrate_measure)) =
      some (UPSTREAM_STATE_TRANSMITTING, 1) ∧
    bitrate_probe_in_step (sample_after sample_config
        [sample_enable, sample_overrun 1, sample_underrun 2, sample_overrun 3,
         Event.buffer 188 4, sample_overrun 5, Event.buffer 188 6, sample_overrun 7,
         Event.timeout 3]) :=
  ⟨by decide, by decide,
   (bitrate_probe_with_transmitting_or_overload sample_config
      [sample_enable, sample_overrun 1, sample_underrun 2, sample_overrun 3,
       Event.buffer 188 4, sample_overrun 5, Event.buffer 188 6, sample_overrun 7,
       Event.timeout 3]
      (sample_start sample_config) (by decide) (by decide) (by decide)
      (sample_after sample_config
        [sample_enable, sample_overrun 1, sample_underrun 2, sample_overrun 3,
         Event.buffer 188 4, sample_overrun 5, Event.buffer 188 6, sample_overrun 7,
         Event.timeout 3]) (by decide)).1⟩

/-! ## C17: an overrun while a timer is pending -/

/-- An emission to a queue with no `queue_overrun` connected calls nothing. -/
theorem emit_overrun_none_connected (cfg : Config) (now : Nat) (na : Int) (n : Nat) (app : App)
    (h : app.overrun_handlers = 0) : emit_overrun cfg now na n app = app := by
  cases n <;> simp [emit_overrun, h]

/-- C17 as stated fails: on `sample_pending` (Transmitting, the timer of source 1
pending, `queue_overrun` connected once) an overrun leaves the counter one higher and
the state and the handles as they were, but `queue_overrun` is no longer connected to
the overrun signal afterwards. -/
theorem overrun_with_timer_pending_disconnects :
    (sample_pending.tcp_upstream.state = UPSTREAM_STATE_TRANSMITTING ∧
     sample_pending.tcp_upstream.id_signal_waiting = 1 ∧
     sample_pending.overrun_handlers = 1 ∧
     sample_pending.underrun_handlers = 0) ∧
    (step sample_config sample_pending (sample_overrun 4)).map
        (fun a => (a.overrun_handlers, a.underrun_handlers)) = some (0, 0) ∧
    (step sample_config sample_pending (sample_overrun 4)).map
        (fun a => a.tcp_upstream) =
      some { sample_pending.tcp_upstream with
        overrun_counter := sample_pending.tcp_upstream.overrun_counter + 1 } := by
  refine ⟨by decide, by decide, by decide⟩

/-- C17, amended: in Transmitting with a timer pending (`id_signal_waiting` not zero) and
the mutex free, `queue_overrun` adds one to `overrun_counter` and disconnects itself from
the overrun signal of the queue, and changes nothing else: state, `overrun_period`,
`id_signal_waiting`, `id_resume`, `id_bitrate_measure`, the underrun connections, the
scheduled timers and the installed probes stay as they were.  An overrun of the queue of
an existing pipeline with `queue_overrun` connected is one such call, however often it is
connected. -/
theorem overrun_with_timer_pending (cfg : Config) (app : App) (now : Nat) (na : Int)
    (hs : app.tcp_upstream.state = UPSTREAM_STATE_TRANSMITTING)
    (hid : app.tcp_upstream.id_signal_waiting ≠ 0)
    (hm : app.rtsp_mutex = false) :
    queue_overrun cfg app now na =
      { app with
        tcp_upstream := { app.tcp_upstream with
          overrun_counter := app.tcp_upstream.overrun_counter + 1 },
        overrun_handlers := 0 } ∧
    (app.pipeline = true → app.overrun_handlers ≠ 0 →
      step cfg app (Event.overrun now na) =
        some { app with
          tcp_upstream := { app.tcp_upstream with
            overrun_counter := app.tcp_upstream.overrun_counter + 1 },
          overrun_handlers := 0 }) := by
  have key : queue_overrun cfg app now na =
      { app with
        tcp_upstream := { app.tcp_upstream with
          overrun_counter := app.tcp_upstream.overrun_counter + 1 },
        overrun_handlers := 0 } := by
    rw [queue_overrun_pending cfg app now na hs hid]
    cases app
    simp at hm
    simp [hm]
  refine ⟨key, ?_⟩
  intro hp hh
  obtain ⟨n, hn⟩ : ∃ n, app.overrun_handlers = n + 1 := Nat.exists_eq_succ_of_ne_zero hh
  simp only [step, hp, if_true, hn, emit_overrun]
  rw [if_neg (by omega), key]
  rw [emit_overrun_none_connected cfg now na n _ rfl]
  simp [hp]

/-- C17, amended, at work on `sample_pending`. -/
theorem overrun_with_timer_pending_witness :
    sample_pending.tcp_upstream.state = UPSTREAM_STATE_TRANSMITTING ∧
    sample_pending.tcp_upstream.id_signal_waiting ≠ 0 ∧
    queue_overrun sample_config sample_pending 4 0 =
      { sample_pending with
        tcp_upstream := { sample_pending.tcp_upstream with
          overrun_counter := sample_pending.tcp_upstream.overrun_counter + 1 },
        overrun_handlers := 0 } :=
  ⟨by decide, by decide,
   (overrun_with_timer_pending sample_config sample_pending 4 0
     (by decide) (by decide) (by decide)).1⟩

/-! ## C18: the window test with the period unset -/

/-- With the period unset the 64-bit sum of the window test wraps to one less than the
window. -/
theorem clock_add_none (d : Nat) (h0 : 0 < d) (h1 : d < 2 ^ 64) :
    clock_add GST_CLOCK_TIME_NONE d = d - 1 := by
  simp only [clock_add, GST_CLOCK_TIME_NONE]
  omega

/-- In Transmitting with no timer pending, an overrun whose window test succeeds ends
with the counter at zero and the period at the clock reading. -/
theorem queue_overrun_window_expired (cfg : Config) (app : App) (now : Nat) (na : Int)
    (hs : app.tcp_upstream.state = UPSTREAM_STATE_TRANSMITTING)
    (hid : app.tcp_upstream.id_signal_waiting = 0)
    (hw : now > clock_add app.tcp_upstream.overrun_period cfg.OVERRUN_TIME) :
    (queue_overrun cfg app now na).tcp_upstream.overrun_counter = 0 ∧
    (queue_overrun cfg app now na).tcp_upstream.overrun_period = now := by
  by_cases hc : app.tcp_upstream.overrun_counter + 1 < cfg.MAX_OVERRUNS
  · rw [queue_overrun_under_threshold cfg app now na hs hid hc]
    simp [hw]
  · rw [(queue_overrun_threshold cfg app now na hs hid (by omega)).1]
    simp [hw]

/-- C18: the window test of `queue_overrun` adds in 64 bits, so with `overrun_period`
unset (2^64 - 1) the sum is `OVERRUN_TIME - 1`, for a window that is positive and fits 64
bits.  Hence in every Transmitting state with no timer pending and the period unset, an
overrun at a clock reading of at least `OVERRUN_TIME` ends with `overrun_counter = 0`
and `overrun_period = now`.  `upstream_resume_transmitting` leaves such a state, so this
is what the first overrun after a resume ends with. -/
theorem overrun_with_unset_period_not_counted (cfg : Config) (app : App) (now : Nat) (na : Int)
    (h0 : 0 < cfg.OVERRUN_TIME) (h1 : cfg.OVERRUN_TIME < 2 ^ 64)
    (hs : app.tcp_upstream.state = UPSTREAM_STATE_TRANSMITTING)
    (hid : app.tcp_upstream.id_signal_waiting = 0)
    (hp : app.tcp_upstream.overrun_period = GST_CLOCK_TIME_NONE)
    (hn : cfg.OVERRUN_TIME ≤ now) :
    clock_add app.tcp_upstream.overrun_period cfg.OVERRUN_TIME = cfg.OVERRUN_TIME - 1 ∧
    (queue_overrun cfg app now na).tcp_upstream.overrun_counter = 0 ∧
    (queue_overrun cfg app now na).tcp_upstream.overrun_period = now ∧
    (∀ before : App,
      (upstream_resume_transmitting before).tcp_upstream.overrun_period =
        GST_CLOCK_TIME_NONE ∧
      (queue_overrun cfg (upstream_resume_transmitting before) now na
        ).tcp_upstream.overrun_counter = 0 ∧
      (queue_overrun cfg (upstream_resume_transmitting before) now na
        ).tcp_upstream.overrun_period = now) := by
  have hwrap := clock_add_none cfg.OVERRUN_TIME h0 h1
  have hw : now > clock_add app.tcp_upstream.overrun_period cfg.OVERRUN_TIME := by
    rw [hp, hwrap]; omega
  refine ⟨by rw [hp, hwrap], (queue_overrun_window_expired cfg app now na hs hid hw).1,
    (queue_overrun_window_expired cfg app now na hs hid hw).2, ?_⟩
  intro before
  have hs1 : (upstream_resume_transmitting before).tcp_upstream.state =
      UPSTREAM_STATE_TRANSMITTING := by
    simp [upstream_resume_transmitting, App.set_t, send_signal]
  have hid1 : (upstream_resume_transmitting before).tcp_upstream.id_signal_waiting = 0 := by
    simp [upstream_resume_transmitting, App.set_t, send_signal]
  have hp1 : (upstream_resume_transmitting before).tcp_upstream.overrun_period =
      GST_CLOCK_TIME_NONE := by
    simp [upstream_resume_transmitting, App.set_t, send_signal]
  have hw1 : now > clock_add (upstream_resume_transmitting before).tcp_upstream.overrun_period
      cfg.OVERRUN_TIME := by
    rw [hp1, hwrap]; omega
  exact ⟨hp1, queue_overrun_window_expired cfg _ now na hs1 hid1 hw1⟩

/-- C18 at work: the overloaded sample state is resumed and the next overrun comes 20 s
after the start of the clock. -/
theorem overrun_with_unset_period_not_counted_witness :
    (upstream_resume_transmitting sample_overload_manual).tcp_upstream.overrun_period =
      2 ^ 64 - 1 ∧
    clock_add (2 ^ 64 - 1) sample_config.OVERRUN_TIME = 15 * GST_SECOND - 1 ∧
    (queue_overrun sample_config (upstream_resume_transmitting sample_overload_manual)
      (20 * GST_SECOND) 0).tcp_upstream.overrun_counter = 0 ∧
    (queue_overrun sample_config (upstream_resume_transmitting sample_overload_manual)
      (20 * GST_SECOND) 0).tcp_upstream.overrun_period = 20 * GST_SECOND := by
  have h := overrun_with_unset_period_not_counted sample_config
    (upstream_resume_transmitting sample_overload_manual) (20 * GST_SECOND) 0
    (by decide) (by decide) (by decide) (by decide) (by decide) (by decide)
  exact ⟨by decide, by decide, h.2.1, h.2.2.1⟩

/-! ## C19: taking and releasing the mutex -/

/-- The mutex after `upstream_set_waiting` is as before. -/
theorem upstream_set_waiting_mutex (app : App) :
    (upstream_set_waiting app).rtsp_mutex = app.rtsp_mutex ∧
    (upstream_set_waiting app).mutex_faults = app.mutex_faults := by
  by_cases h1 : app.tcp_upstream.id_resume = 0 <;>
    by_cases h2 : app.tcp_upstream.id_bitrate_measure = 0 <;>
    simp [upstream_set_waiting, send_signal, App.set_t, gst_pad_remove_probe, h1, h2]

/-- The mutex after the auto-bitrate step is as before. -/
theorem auto_overload_handling_mutex (app : App) (na : Int) :
    (auto_overload_handling app na).rtsp_mutex = app.rtsp_mutex ∧
    (auto_overload_handling app na).mutex_faults = app.mutex_faults := by
  have h1 := congrArg App.rtsp_mutex (auto_overload_handling_control app na)
  have h2 := congrArg App.mutex_faults (auto_overload_handling_control app na)
  exact ⟨h1, h2⟩

/-- `queue_overrun` keeps the lock balanced on every path: entered with the mutex free it
returns with the mutex free and has released it only while holding it. -/
theorem queue_overrun_lock_balanced (cfg : Config) (app : App) (now : Nat) (na : Int)
    (hm : app.rtsp_mutex = false) :
    (queue_overrun cfg app now na).rtsp_mutex = false ∧
    (queue_overrun cfg app now na).mutex_faults = app.mutex_faults := by
  cases hs : app.tcp_upstream.state with
  | UPSTREAM_STATE_DISABLED => simp [queue_overrun, g_mutex_lock, g_mutex_unlock, hs, hm]
  | UPSTREAM_STATE_WAITING => simp [queue_overrun, g_mutex_lock, g_mutex_unlock, hs, hm]
  | UPSTREAM_STATE_OVERLOAD =>
    rw [queue_overrun_overload cfg app now na hs]
    simp [hm]
  | UPSTREAM_STATE_CONNECTING =>
    simp [queue_overrun, g_mutex_lock, g_mutex_unlock, hs, hm, upstream_set_waiting_mutex]
  | UPSTREAM_STATE_TRANSMITTING =>
    by_cases hid : app.tcp_upstream.id_signal_waiting = 0
    · by_cases hc : app.tcp_upstream.overrun_counter + 1 < cfg.MAX_OVERRUNS
      · rw [queue_overrun_under_threshold cfg app now na hs hid hc]
        simp [hm]
      · have hc1 : cfg.MAX_OVERRUNS ≤ app.tcp_upstream.overrun_counter + 1 := by omega
        cases ha : app.tcp_upstream.auto_bitrate <;>
          by_cases hw : now > clock_add app.tcp_upstream.overrun_period cfg.OVERRUN_TIME <;>
          simp [queue_overrun, g_mutex_lock, g_mutex_unlock, App.set_t, hs, hid, hc1, ha, hw,
            hm, send_signal, g_timeout_add_seconds, auto_overload_handling_tcp_upstream,
            auto_overload_handling_mutex]
    · rw [queue_overrun_pending cfg app now na hs hid]
      simp [hm]

/-- C19 fails on four paths, each entered with the mutex free.  On a resource error with
code READ `message_cb` releases the mutex in the branch and again at its end, and the
same on code WRITE (there `create_source_pipeline` takes and releases it in between):
one release of a mutex that is not held.  `enable_tcp_upstream` without a pipeline jumps
to `fail` before taking the mutex and releases it there.  `create_source_pipeline`
returns FALSE from a failed pad link while holding the mutex. -/
theorem mutex_released_unheld_or_kept :
    (sample_transmitting.rtsp_mutex = false ∧ sample_transmitting.mutex_faults = 0) ∧
    (message_cb sample_transmitting
        (GstMessage.error true GstResourceError.GST_RESOURCE_ERROR_READ) true
        sample_create_env).map (fun r => (r.1, r.2.rtsp_mutex, r.2.mutex_faults)) =
      some (true, false, 1) ∧
    (message_cb sample_transmitting
        (GstMessage.error true GstResourceError.GST_RESOURCE_ERROR_WRITE) true
        sample_create_env).map (fun r => (r.1, r.2.rtsp_mutex, r.2.mutex_faults)) =
      some (true, false, 1) ∧
    ((sample_read_error.pipeline, sample_read_error.rtsp_mutex,
        sample_read_error.mutex_faults) = (false, false, 1) ∧
     (enable_tcp_upstream sample_read_error "collector" 8554 "" sample_enable_env).map
        (fun r => (r.1, r.2.rtsp_mutex, r.2.mutex_faults)) = some (false, false, 2)) ∧
    (create_source_pipeline sample_transmitting
        { sample_create_env with audio_link_ok := false }).map
        (fun r => (r.1, r.2.rtsp_mutex, r.2.mutex_faults)) = some (false, true, 0) ∧
    (create_source_pipeline sample_transmitting
        { sample_create_env with video_link_ok := false }).map
        (fun r => (r.1, r.2.rtsp_mutex, r.2.mutex_faults)) = some (false, true, 0) := by
  refine ⟨by decide, by decide, by decide, by decide, by decide, by decide⟩

end DreamRtspServer
